import Mathlib

/-! Store-rating backend: a shallow embedding of the controllers.

The database is explicit state (`Db`): three tables, each a list of rows in
insertion order. Every handler of `backend/src/controllers` is a function from
the state before the request to a response and the state after it. Requests
run one at a time. Values that the database engine chooses (the generated row
id, `CURRENT_TIMESTAMP`) are supplied by an `Env`, so every statement proved
below holds for whatever the engine picks.

The table definitions are not part of the sources; rows carry the columns the
controllers read and write. Statements run without raising unless a definition
says otherwise, ids are compared as text, and where a statement relies on `id`
being the key of a table it says so in a hypothesis.
-/

namespace StoreRating

/-! ## Data model -/

/-- Row of the `users` table (columns used by the controllers). -/
structure User where
  id : String
  name : String
  email : String
  password : String
  address : String
  role : String
  created_at : Nat
  updated_at : Nat
deriving DecidableEq, Repr

/-- Row of the `stores` table. -/
structure Store where
  id : String
  name : String
  email : String
  address : String
  owner_id : String
  created_at : Nat
  updated_at : Nat
deriving DecidableEq, Repr

/-- Row of the `ratings` table. -/
structure Rating where
  id : String
  user_id : String
  store_id : String
  rating : Int
  created_at : Nat
  updated_at : Nat
deriving DecidableEq, Repr

/-- The database: the three tables the controllers query. -/
structure Db where
  users : List User
  stores : List Store
  ratings : List Rating
deriving DecidableEq, Repr

/-- What the database engine supplies while a statement runs: the id it
generates for an inserted row and the value of `CURRENT_TIMESTAMP`. -/
structure Env where
  newId : String
  now : Nat
deriving DecidableEq, Repr

/-- An HTTP answer: the status code and either the `error` string of the JSON
body or the payload. -/
structure Res (α : Type) where
  status : Nat
  body : Except String α

/-- Equality of answers is decidable when equality of payloads is. -/
instance instDecidableEqRes {α : Type} [DecidableEq α] : DecidableEq (Res α) := fun a b =>
  match a, b with
  | ⟨s, .ok x⟩, ⟨t, .ok y⟩ =>
    if h : s = t ∧ x = y then isTrue (by rw [h.1, h.2]) else isFalse (by
      intro e; injection e with e1 e2; injection e2 with e3; exact h ⟨e1, e3⟩)
  | ⟨s, .error x⟩, ⟨t, .error y⟩ =>
    if h : s = t ∧ x = y then isTrue (by rw [h.1, h.2]) else isFalse (by
      intro e; injection e with e1 e2; injection e2 with e3; exact h ⟨e1, e3⟩)
  | ⟨_, .ok _⟩, ⟨_, .error _⟩ => isFalse (by intro e; injection e with _ e2; cases e2)
  | ⟨_, .error _⟩, ⟨_, .ok _⟩ => isFalse (by intro e; injection e with _ e2; cases e2)

/-- Comparison `column = $n` of SQL against a parameter that may be NULL
(`none`): NULL is equal to nothing. -/
def sqlEq (column : String) (param : Option String) : Bool :=
  match param with
  | some p => column == p
  | none => false

/-! ## ratingsController.js -/

/-- The `RETURNING id, rating, created_at` / `RETURNING id, rating, updated_at`
row of the two writing rating handlers. -/
structure RatingReturned where
  id : String
  rating : Int
  at_ : Nat
deriving DecidableEq, Repr

/-- `SELECT id FROM ratings WHERE user_id = $1 AND store_id = $2`. -/
def existingRating (db : Db) (userId : String) (storeId : Option String) : List Rating :=
  db.ratings.filter (fun r => r.user_id == userId && sqlEq r.store_id storeId)

/-- `submitRating`. `storeId` is the text of `req.body.storeId` as the query
parameter (`none` when it is absent or null), `rating` the integer the
database reads from `req.body.rating` (`none` when the parameter is not an
integer, in which case the INSERT raises and the `catch` answers 500). -/
def submitRating (db : Db) (env : Env) (userId : String) (storeId : Option String)
    (rating : Option Int) : Res RatingReturned × Db :=
  let storeCheck := db.stores.filter (fun s => sqlEq s.id storeId)
  if storeCheck.length = 0 then
    (⟨404, .error "Store not found"⟩, db)
  else if (existingRating db userId storeId).length > 0 then
    (⟨409, .error "You have already rated this store. Use update rating instead."⟩, db)
  else
    match storeId, rating with
    | some sid, some n =>
      let row : Rating :=
        { id := env.newId, user_id := userId, store_id := sid, rating := n,
          created_at := env.now, updated_at := env.now }
      (⟨201, .ok ⟨row.id, row.rating, row.created_at⟩⟩, { db with ratings := db.ratings ++ [row] })
    | _, _ => (⟨500, .error "Internal server error"⟩, db)

/-- `updateRating`: the UPDATE rewrites `rating` and `updated_at` of every row
matching `user_id = $2 AND store_id = $3`; `RETURNING` rows come back in table
order and the handler answers with `result.rows[0]`. -/
def updateRating (db : Db) (env : Env) (userId : String) (storeId : Option String)
    (rating : Option Int) : Res (Option RatingReturned) × Db :=
  if (existingRating db userId storeId).length = 0 then
    (⟨404, .error "Rating not found. Submit a new rating instead."⟩, db)
  else
    match rating with
    | some n =>
      let hit : Rating → Bool := fun r => r.user_id == userId && sqlEq r.store_id storeId
      let ratings := db.ratings.map
        (fun r => if hit r then { r with rating := n, updated_at := env.now } else r)
      let returned := (ratings.filter hit).map (fun r => RatingReturned.mk r.id r.rating r.updated_at)
      (⟨200, .ok returned.head?⟩, { db with ratings := ratings })
    | none => (⟨500, .error "Internal server error"⟩, db)

/-- `deleteRating`: `storeId` is the route parameter `req.params.storeId`. -/
def deleteRating (db : Db) (userId : String) (storeId : String) : Res Unit × Db :=
  if (existingRating db userId (some storeId)).length = 0 then
    (⟨404, .error "Rating not found"⟩, db)
  else
    let kept := db.ratings.filter (fun r => !(r.user_id == userId && r.store_id == storeId))
    (⟨200, .ok ()⟩, { db with ratings := kept })

/-- The invariant of the `ratings` table: at most one row per
`(user_id, store_id)` pair. -/
def UniquePairs (rs : List Rating) : Prop :=
  ∀ u s : String, (rs.filter (fun r => r.user_id == u && r.store_id == s)).length ≤ 1

/-! ## Query-string helpers shared by the list handlers -/

/-- ASCII reading of `String.prototype.toLowerCase`. -/
def toLowerCase (s : String) : String := ⟨s.data.map Char.toLower⟩

/-- ASCII reading of `String.prototype.toUpperCase`. -/
def toUpperCase (s : String) : String := ⟨s.data.map Char.toUpper⟩

/-- `validSortFields.includes(sortBy) ? sortBy : fallback`. -/
def finalSortBy (validSortFields : List String) (fallback sortBy : String) : String :=
  if validSortFields.contains sortBy then sortBy else fallback

/-- `validSortOrders.includes(sortOrder.toLowerCase()) ? sortOrder.toUpperCase() : fallback`
with `validSortOrders = ['asc', 'desc']`. -/
def finalSortOrder (fallback sortOrder : String) : String :=
  if ["asc", "desc"].contains (toLowerCase sortOrder) then toUpperCase sortOrder else fallback

/-- `ORDER BY key ASC|DESC`: rows with equal keys stay in table order. `le` is
the order of the key column. -/
def orderBy {α : Type} (le : α → α → Bool) (direction : String) (rows : List α) : List α :=
  if direction = "DESC" then rows.insertionSort (fun a b => le b a = true)
  else rows.insertionSort (fun a b => le a b = true)

/-- `LIMIT $limit OFFSET $offset`. -/
def limitOffset {α : Type} (limit offset : Nat) (rows : List α) : List α :=
  (rows.drop offset).take limit

/-- `Math.ceil(totalCount / parseInt(limit))`; with limit 0 the quotient is
`Infinity` or `NaN`, which JSON writes as `null` (`none`). -/
def totalPages (totalCount limit : Nat) : Option Nat :=
  if limit = 0 then none else some ((totalCount + limit - 1) / limit)

/-- The `pagination` object of a list answer. -/
structure Pagination where
  currentPage : Int
  totalPages : Option Nat
  totalCount : Nat
  limit : Int
deriving DecidableEq, Repr

/-- The largest 64-bit integer of the database engine, the type of LIMIT and
OFFSET: a larger parameter makes the statement raise. -/
def maxBigint : Int := 9223372036854775807

/-- The largest 32-bit integer of the database engine, the type of the
`rating` column. -/
def maxInteger : Int := 2147483647

/-- Query parameters common to the list handlers, after `parseInt` for `page`
and `limit` (defaults 1 and 10 are supplied by the caller of the model). -/
structure PageQuery where
  page : Int
  limit : Int
  sortBy : String
  sortOrder : String
deriving DecidableEq, Repr

/-- Row of `getRatingsByStore`: `r.id, r.rating, r.created_at, r.updated_at,
u.name as user_name`. -/
structure StoreRatingRow where
  id : String
  rating : Int
  created_at : Nat
  updated_at : Nat
  user_name : String
deriving DecidableEq, Repr

/-- `WHERE r.store_id = $1` of the count query of `getRatingsByStore`. -/
def ratingsOfStore (db : Db) (storeId : String) : List Rating :=
  db.ratings.filter (fun r => r.store_id == storeId)

/-- `FROM ratings r JOIN users u ON r.user_id = u.id WHERE r.store_id = $1`:
each rating of the store paired with each user row of its rater. -/
def ratingsJoinUsers (db : Db) (storeId : String) : List (Rating × User) :=
  (ratingsOfStore db storeId).flatMap
    (fun r => (db.users.filter (fun u => r.user_id == u.id)).map (fun u => (r, u)))

/-- The page query of `getRatingsByStore` before the column list is applied:
the joined rows in `ORDER BY r.<sortBy> <sortOrder>`, cut by LIMIT and OFFSET. -/
def ratingsByStorePage (db : Db) (storeId : String) (q : PageQuery) : List (Rating × User) :=
  let sortBy := finalSortBy ["rating", "created_at"] "created_at" q.sortBy
  let sortOrder := finalSortOrder "DESC" q.sortOrder
  let offset := (q.page - 1) * q.limit
  let joined := ratingsJoinUsers db storeId
  let sorted :=
    if sortBy = "rating" then
      orderBy (fun a b : Rating × User => decide (a.1.rating ≤ b.1.rating)) sortOrder joined
    else
      orderBy (fun a b : Rating × User => decide (a.1.created_at ≤ b.1.created_at)) sortOrder
        joined
  limitOffset q.limit.toNat offset.toNat sorted

/-- `getRatingsByStore`. A negative LIMIT or OFFSET makes the page query raise,
which the `catch` answers with 500. (A LIMIT or OFFSET above `maxBigint`,
which the engine rejects as well, is not told apart here; `getAllUsers` and
`getAllRatings` do so.) -/
def getRatingsByStore (db : Db) (storeId : String) (q : PageQuery) :
    Res (List StoreRatingRow × Pagination) :=
  let offset := (q.page - 1) * q.limit
  let totalCount := (ratingsOfStore db storeId).length
  if q.limit < 0 ∨ offset < 0 then ⟨500, .error "Internal server error"⟩
  else
    let rows := (ratingsByStorePage db storeId q).map
      (fun p => StoreRatingRow.mk p.1.id p.1.rating p.1.created_at p.1.updated_at p.2.name)
    ⟨200, .ok (rows, ⟨q.page, totalPages totalCount q.limit.toNat, totalCount, q.limit⟩)⟩

/-! ## utils/validation.js and routes/ratings.js -/

/-- A scalar value of a JSON request body. `undefined` is an absent field,
`num n` a number with the integer value `n`, `real` any other number. -/
inductive JVal where
  | undefined
  | null
  | bool (b : Bool)
  | num (n : Int)
  | real
  | str (s : String)
deriving DecidableEq, Repr

/-- Value of a non-empty run of decimal digits, `none` for anything else. -/
def digitsValue : List Char → Option Nat
  | [] => none
  | cs => if cs.all Char.isDigit then some (cs.foldl (fun acc c => 10 * acc + (c.toNat - 48)) 0)
          else none

/-- The pattern `^[-+]?[0-9]+$` of the validator library together with the
integer that a matching text denotes. -/
def intText : List Char → Option Int
  | '-' :: cs => (digitsValue cs).map (fun n => - (n : Int))
  | '+' :: cs => (digitsValue cs).map (fun n => (n : Int))
  | cs => (digitsValue cs).map (fun n => (n : Int))

/-- The integer that a body value denotes for the validator and for an integer
column: the number itself, or the integer a string spells. -/
def intOf : JVal → Option Int
  | .num n => some n
  | .str s => intText s.data
  | _ => none

/-- `.isInt({ min, max })` of the validator library: the value is written as
text, must match the integer pattern and lie between `min` and `max`. -/
def isInt (min max : Int) (v : JVal) : Bool :=
  match intOf v with
  | some n => decide (min ≤ n) && decide (n ≤ max)
  | none => false

/-- Hexadecimal digit. -/
def isHex (c : Char) : Bool :=
  c.isDigit || ('a' ≤ c && c ≤ 'f') || ('A' ≤ c && c ≤ 'F')

/-- The pattern of `.isUUID()` without a version argument: groups of 8, 4, 4,
4 and 12 hexadecimal digits separated by hyphens, where the third group
begins with a version digit `1`-`8` and the fourth with a variant digit `8`,
`9`, `a` or `b`; or the all-zero or the all-`f` UUID. (Earlier releases of the
library accept any hexadecimal digit at these two places.) -/
def uuidText (cs : List Char) : Bool :=
  match cs.splitOn '-' with
  | [a, b, c, d, e] =>
    a.length = 8 && b.length = 4 && c.length = 4 && d.length = 4 && e.length = 12 &&
      (a ++ b ++ c ++ d ++ e).all isHex &&
      ((c.take 1).all (fun x => '1' ≤ x && x ≤ '8') &&
          (d.take 1).all (fun x => ['8', '9', 'a', 'b', 'A', 'B'].contains x)
        || (a ++ b ++ c ++ d ++ e).all (fun x => x = '0')
        || (a ++ b ++ c ++ d ++ e).all (fun x => x = 'f' || x = 'F'))
  | _ => false

/-- `.isUUID()` on a scalar: only a string can spell a UUID. -/
def isUUID : JVal → Bool
  | .str s => uuidText s.data
  | _ => false

/-- A field of a parsed request body: one scalar (also for an absent field),
or an array of scalars. Objects, and arrays inside arrays, are not modelled. -/
inductive JField where
  | one (v : JVal)
  | many (elems : List JVal)
deriving DecidableEq, Repr

/-- The values a validator of a chain is run on:
`Array.isArray(value) ? value : [value]`. An empty array is checked by no
run. -/
def JField.values : JField → List JVal
  | .one v => [v]
  | .many elems => elems

/-- Body of `POST /ratings` and `PUT /ratings`. -/
structure RatingBody where
  storeId : JField
  rating : JField
deriving DecidableEq, Repr

/-- `ratingValidationRules()`: the messages of the failed checks, one for
each value that fails. -/
def ratingValidationRules (body : RatingBody) : List String :=
  ((body.rating.values.filter (fun v => !isInt 1 5 v)).map
    (fun _ => "Rating must be an integer between 1 and 5")) ++
  ((body.storeId.values.filter (fun v => !isUUID v)).map
    (fun _ => "Valid store ID is required"))

/-- `validate`: answers 400 when a check failed, otherwise calls `next()`
(`none`). -/
def validate {α : Type} (errors : List String) : Option (Res α) :=
  if errors.isEmpty then none else some ⟨400, .error "Validation failed"⟩

/-- Text of a body value as a query parameter: a string is sent as it is,
an absent or null field as NULL. Other scalars are never the text of an id. -/
def paramText : JVal → Option String
  | .str s => some s
  | _ => none

/-- The array literal the database driver writes for an array of strings:
the elements in double quotes (backslashes and double quotes escaped with a
backslash), separated by commas, between `{` and `}`. -/
def arrayString (elems : List String) : String :=
  let quote := Char.ofNat 34
  let backslash := Char.ofNat 92
  let escapeElement : String → String := fun e =>
    String.mk ([quote]
      ++ e.data.flatMap (fun c => if c = quote ∨ c = backslash then [backslash, c] else [c])
      ++ [quote])
  String.mk ([Char.ofNat 123] ++ (",".intercalate (elems.map escapeElement)).data
    ++ [Char.ofNat 125])

/-- Text of a body field as the query parameter of an id column, which the
model compares as text: a scalar as `paramText` has it, an array as its array
literal (behind `validate` every element of the array is a string). The
literal of an array begins with `{`, so it is the id of no row the engine
generated. -/
def fieldText : JField → Option String
  | .one v => paramText v
  | .many elems => some (arrayString (elems.filterMap paramText))

/-- The integer an integer column reads from the query parameter of a body
field: that of a scalar, none from the array literal of an array (the
statement that carries it raises). -/
def fieldInt : JField → Option Int
  | .one v => intOf v
  | .many _ => none

/-- The row `authenticateToken` stores in `req.user`. -/
structure AuthUser where
  id : String
  email : String
  role : String
deriving DecidableEq, Repr

/-- `router.post('/', ratingValidationRules(), validate, submitRating)` behind
`authenticateToken`. -/
def postRatings (db : Db) (env : Env) (user : AuthUser) (body : RatingBody) :
    Res RatingReturned × Db :=
  match validate (ratingValidationRules body) with
  | some answer => (answer, db)
  | none => submitRating db env user.id (fieldText body.storeId) (fieldInt body.rating)

/-- `router.put('/', ratingValidationRules(), validate, updateRating)` behind
`authenticateToken`. -/
def putRatings (db : Db) (env : Env) (user : AuthUser) (body : RatingBody) :
    Res (Option RatingReturned) × Db :=
  match validate (ratingValidationRules body) with
  | some answer => (answer, db)
  | none => updateRating db env user.id (fieldText body.storeId) (fieldInt body.rating)

/-! ## SQL text operators -/

/-- Some suffix of the text (the text itself included) satisfies `k`. -/
def anySuffix (k : List Char → Bool) : List Char → Bool
  | [] => k []
  | c :: cs => k (c :: cs) || anySuffix k cs

/-- `text LIKE pattern`: `%` stands for any run of characters, `_` for any
one character, and a backslash makes the next pattern character literal. A
pattern that ends in a lone backslash makes the engine raise; none of the
patterns built by the controllers does (each ends in `%`), and the model
answers `false` for it. -/
def likeMatch : List Char → List Char → Bool
  | [], text => text.isEmpty
  | c :: p, text =>
    if c = '%' then anySuffix (likeMatch p) text
    else if c = '_' then
      match text with
      | [] => false
      | _ :: t => likeMatch p t
    else if c = Char.ofNat 92 then
      match p, text with
      | e :: rest, x :: t => x == e && likeMatch rest t
      | _, _ => false
    else
      match text with
      | [] => false
      | x :: t => x == c && likeMatch p t

/-- `column ILIKE $n` with the parameter `%${term}%`: both sides are compared
in lower case (ASCII reading). -/
def ilikeContains (column term : String) : Bool :=
  likeMatch ((('%' :: term.data) ++ ['%']).map Char.toLower) (column.data.map Char.toLower)

/-- Order of a text column (code-point order stands for the collation). -/
def textLe : List Char → List Char → Bool
  | [], _ => true
  | _ :: _, [] => false
  | a :: as, b :: bs =>
    if a.toNat < b.toNat then true
    else if b.toNat < a.toNat then false
    else textLe as bs

/-- JavaScript truthiness of an optional query-string value: present and not
the empty string. -/
def truthy (v : Option String) : Bool :=
  match v with
  | some s => s != ""
  | none => false

/-! ## storesController.js -/

/-- `LEFT JOIN ratings r ON s.id = r.store_id` for one store row: its ratings.
`stores.id` is the key of the table, so each group of the
`GROUP BY s.id, s.name, ...` is one store row. -/
def storeRatings (db : Db) (s : Store) : List Rating :=
  db.ratings.filter (fun r => s.id == r.store_id)

/-- Sum of the rating values; `AVG(r.rating)` is this sum divided by the
number of rows, and NULL when there is no row. -/
def ratingSum (rs : List Rating) : Int :=
  (rs.map (fun r => r.rating)).sum

/-- Arithmetic mean of the rating values of a non-empty list of ratings. -/
def meanRating (rs : List Rating) : ℚ :=
  (ratingSum rs : ℚ) / (rs.length : ℚ)

/-- The integer `n` with `n / 10` nearest to `sum / count` for `sum ≥ 0`, the
larger one on a tie. -/
def nearestTenths (sum : Int) (count : Nat) : Int :=
  (20 * sum + count) / (2 * count)

/-- `parseFloat(COALESCE(AVG(r.rating), 0)).toFixed(1)` as the number of
tenths shown; 0 when there is no rating. `toFixed` rounds the absolute value
(the larger digit on a tie) and puts the sign back. The average is taken
exactly: the rounding of the average to a double is not modelled, so an
average that is exactly a tie, such as 29/20, is 15 tenths here, where the
handler rounds the double next to it and may show the lower digit (`1.4`).
Both are within 1/20 of the average. -/
def toFixed1 (sum : Int) (count : Nat) : Int :=
  if count = 0 then 0
  else if sum < 0 then - nearestTenths (- sum) count
  else nearestTenths sum count

/-- Comparison of `COALESCE(AVG(r.rating), 0)` of two groups given as sum and
count. -/
def avgLe (sumA : Int) (countA : Nat) (sumB : Int) (countB : Nat) : Bool :=
  decide (sumA * (max countB 1 : Nat) ≤ sumB * (max countA 1 : Nat))

/-- Row of `getAllStores` and `getStoreById`. `average_rating` is the text
written by `toFixed(1)`, given in tenths; `user_rating` is absent (`none`)
without a caller id and `some none` (null) when the caller has not rated. -/
structure StoreRow where
  id : String
  name : String
  email : String
  address : String
  owner_id : String
  created_at : Nat
  average_rating : Int
  total_ratings : Nat
  user_rating : Option (Option Int)
deriving DecidableEq, Repr

/-- Query string of `getAllStores`. -/
structure StoresQuery where
  page : Int
  limit : Int
  sortBy : String
  sortOrder : String
  name : Option String
  address : Option String
  search : Option String
deriving DecidableEq, Repr

/-- The WHERE clause of `getAllStores` as a predicate on store rows. -/
def storesWhere (q : StoresQuery) (s : Store) : Bool :=
  if truthy q.search then
    ilikeContains s.name (q.search.getD "") || ilikeContains s.address (q.search.getD "")
  else
    (if truthy q.name then ilikeContains s.name (q.name.getD "") else true) &&
    (if truthy q.address then ilikeContains s.address (q.address.getD "") else true)

/-- `SELECT rating FROM ratings WHERE user_id = $1 AND store_id = $2`, then
`rows.length > 0 ? rows[0].rating : null`. -/
def userRating (db : Db) (userId storeId : String) : Option Int :=
  ((db.ratings.filter (fun r => r.user_id == userId && r.store_id == storeId)).head?).map
    (fun r => r.rating)

/-- One output row: the grouped store columns, the two aggregates and the
caller's own rating. -/
def storeRow (db : Db) (userId : Option String) (s : Store) : StoreRow :=
  { id := s.id, name := s.name, email := s.email, address := s.address,
    owner_id := s.owner_id, created_at := s.created_at,
    average_rating := toFixed1 (ratingSum (storeRatings db s)) (storeRatings db s).length,
    total_ratings := (storeRatings db s).length,
    user_rating := userId.map (fun u => userRating db u s.id) }

/-- The grouped and ordered rows of the stores query of `getAllStores`, before
LIMIT and OFFSET. -/
def storesSorted (db : Db) (q : StoresQuery) : List Store :=
  let sortBy := finalSortBy ["name", "address", "average_rating", "created_at"] "name" q.sortBy
  let sortOrder := finalSortOrder "ASC" q.sortOrder
  let matching := db.stores.filter (storesWhere q)
  if sortBy = "average_rating" then
    orderBy (fun a b : Store =>
      avgLe (ratingSum (storeRatings db a)) (storeRatings db a).length
        (ratingSum (storeRatings db b)) (storeRatings db b).length) sortOrder matching
  else if sortBy = "address" then
    orderBy (fun a b : Store => textLe a.address.data b.address.data) sortOrder matching
  else if sortBy = "created_at" then
    orderBy (fun a b : Store => decide (a.created_at ≤ b.created_at)) sortOrder matching
  else
    orderBy (fun a b : Store => textLe a.name.data b.name.data) sortOrder matching

/-- `getAllStores`; `userId` is `req.user?.id`. A negative LIMIT or OFFSET
makes the stores query raise (500). (A LIMIT or OFFSET above `maxBigint`,
which the engine rejects as well, is not told apart here; `getAllUsers` and
`getAllRatings` do so.) -/
def getAllStores (db : Db) (userId : Option String) (q : StoresQuery) :
    Res (List StoreRow × Pagination) :=
  let offset := (q.page - 1) * q.limit
  if q.limit < 0 ∨ offset < 0 then ⟨500, .error "Internal server error"⟩
  else
    let page := limitOffset q.limit.toNat offset.toNat (storesSorted db q)
    let totalCount := (db.stores.filter (storesWhere q)).length
    let userId := userId.filter (fun u => u != "")
    ⟨200, .ok (page.map (storeRow db userId),
      ⟨q.page, totalPages totalCount q.limit.toNat, totalCount, q.limit⟩)⟩

/-- `getStoreById`. -/
def getStoreById (db : Db) (userId : Option String) (id : String) : Res StoreRow :=
  match db.stores.filter (fun s => s.id == id) with
  | [] => ⟨404, .error "Store not found"⟩
  | s :: _ => ⟨200, .ok (storeRow db (userId.filter (fun u => u != "")) s)⟩

/-- Row of `getMyStores` (the query does not select `owner_id`). -/
structure MyStoreRow where
  id : String
  name : String
  email : String
  address : String
  created_at : Nat
  average_rating : Int
  total_ratings : Nat
deriving DecidableEq, Repr

/-- `getMyStores`: the caller's stores in `ORDER BY s.name`. -/
def getMyStores (db : Db) (ownerId : String) : Res (List MyStoreRow) :=
  let owned := db.stores.filter (fun s => s.owner_id == ownerId)
  let sorted := orderBy (fun a b : Store => textLe a.name.data b.name.data) "ASC" owned
  ⟨200, .ok (sorted.map (fun s =>
    { id := s.id, name := s.name, email := s.email, address := s.address,
      created_at := s.created_at,
      average_rating := toFixed1 (ratingSum (storeRatings db s)) (storeRatings db s).length,
      total_ratings := (storeRatings db s).length }))⟩

/-- Row returned by the INSERT of `createStore`:
`RETURNING id, name, email, address, owner_id, created_at`. -/
structure StoreCreated where
  id : String
  name : String
  email : String
  address : String
  owner_id : String
  created_at : Nat
deriving DecidableEq, Repr

/-- `createStore`; `ownerId` is the text of `req.body.ownerId` as a query
parameter (`none` when absent or null). The UPDATE promotes every user row
with that id when the first row found is not yet a store owner. -/
def createStore (db : Db) (env : Env) (name email address : String) (ownerId : Option String) :
    Res StoreCreated × Db :=
  let existingStore := db.stores.filter (fun s => s.email == email)
  if existingStore.length > 0 then
    (⟨409, .error "Store with this email already exists"⟩, db)
  else
    match db.users.filter (fun u => sqlEq u.id ownerId), ownerId with
    | owner :: _, some oid =>
      let users :=
        if owner.role != "store_owner" then
          db.users.map (fun u =>
            if sqlEq u.id ownerId then { u with role := "store_owner", updated_at := env.now }
            else u)
        else db.users
      let row : Store :=
        { id := env.newId, name := name, email := email, address := address, owner_id := oid,
          created_at := env.now, updated_at := env.now }
      (⟨201, .ok ⟨row.id, row.name, row.email, row.address, row.owner_id, row.created_at⟩⟩,
        { db with users := users, stores := db.stores ++ [row] })
    | _, _ => (⟨400, .error "Owner not found"⟩, db)

/-- Row returned by the UPDATE of `updateStore`. -/
structure StoreUpdated where
  id : String
  name : String
  email : String
  address : String
  owner_id : String
  created_at : Nat
  updated_at : Nat
deriving DecidableEq, Repr

/-- `updateStore`; the answer carries `result.rows[0]`. -/
def updateStore (db : Db) (env : Env) (id name email address : String) :
    Res (Option StoreUpdated) × Db :=
  if (db.stores.filter (fun s => s.id == id)).length = 0 then
    (⟨404, .error "Store not found"⟩, db)
  else if (db.stores.filter (fun s => s.email == email && s.id != id)).length > 0 then
    (⟨409, .error "Email is already taken"⟩, db)
  else
    let stores := db.stores.map (fun s =>
      if s.id == id then
        { s with name := name, email := email, address := address, updated_at := env.now }
      else s)
    let returned := (stores.filter (fun s => s.id == id)).map (fun s =>
      StoreUpdated.mk s.id s.name s.email s.address s.owner_id s.created_at s.updated_at)
    (⟨200, .ok returned.head?⟩, { db with stores := stores })

/-! ## middleware/auth.js and routes/stores.js -/

/-- `authorizeStoreOwner`: `none` stands for the call of `next()`.
`paramsStoreId` is `req.params.storeId`, `bodyStoreId` is `req.body.storeId`. -/
def authorizeStoreOwner {α : Type} (db : Db) (user : AuthUser)
    (paramsStoreId bodyStoreId : Option String) : Option (Res α) :=
  let storeId := if truthy paramsStoreId then paramsStoreId else bodyStoreId
  if user.role = "admin" then none
  else if user.role ≠ "store_owner" then some ⟨403, .error "Store owner access required"⟩
  else if (db.stores.filter (fun s => sqlEq s.id storeId && s.owner_id == user.id)).length = 0
  then some ⟨403, .error "Access denied. You can only access your own store."⟩
  else none

/-- The first handler of `router.put('/:id', ...)`: an admin goes on, anyone
else is checked by `authorizeStoreOwner` with `req.params.storeId` set to the
route parameter. -/
def putStoreGate {α : Type} (db : Db) (user : AuthUser) (id : String)
    (bodyStoreId : Option String) : Option (Res α) :=
  if user.role = "admin" then none
  else authorizeStoreOwner db user (some id) bodyStoreId

/-- The two functions of the validator library used on e-mail fields. -/
structure EmailLib where
  isEmail : String → Bool
  normalizeEmail : String → String

/-- Body of `POST /stores` and `PUT /stores/:id`, each field as the text the
validator sees (an absent field is the empty text). -/
structure StoreBody where
  name : String
  email : String
  address : String
  storeId : Option String
deriving DecidableEq, Repr

/-- `storeValidationRules()`: the messages of the failed checks. `withMessage`
names the check right before it, so a failed `notEmpty()` carries the
library's default message. -/
def storeValidationRules (lib : EmailLib) (body : StoreBody) : List String :=
  (if body.name ≠ "" then [] else ["Invalid value"]) ++
  (if body.name.length ≤ 100 then []
    else ["Store name is required and must not exceed 100 characters"]) ++
  (if lib.isEmail body.email then [] else ["Please provide a valid email"]) ++
  (if body.address ≠ "" then [] else ["Invalid value"]) ++
  (if body.address.length ≤ 400 then []
    else ["Address is required and must not exceed 400 characters"])

/-- `router.put('/:id', gate, storeValidationRules(), validate, updateStore)`
behind `authenticateToken`. -/
def putStore (lib : EmailLib) (db : Db) (env : Env) (user : AuthUser) (id : String)
    (body : StoreBody) : Res (Option StoreUpdated) × Db :=
  match putStoreGate db user id body.storeId with
  | some answer => (answer, db)
  | none =>
    match validate (storeValidationRules lib body) with
    | some answer => (answer, db)
    | none => updateStore db env id body.name (lib.normalizeEmail body.email) body.address

/-! ## usersController.js -/

/-- Query string of `getAllUsers`. -/
structure UsersQuery where
  page : Int
  limit : Int
  sortBy : String
  sortOrder : String
  name : Option String
  email : Option String
  address : Option String
  role : Option String
deriving DecidableEq, Repr

/-- The WHERE clause of `getAllUsers` as a predicate on user rows. -/
def usersWhere (q : UsersQuery) (u : User) : Bool :=
  (if truthy q.name then ilikeContains u.name (q.name.getD "") else true) &&
  (if truthy q.email then ilikeContains u.email (q.email.getD "") else true) &&
  (if truthy q.address then ilikeContains u.address (q.address.getD "") else true) &&
  (if truthy q.role then u.role == q.role.getD "" else true)

/-- Row of `getAllUsers`: the selected columns and, for a store owner,
`store_rating`. -/
structure UserRow where
  id : String
  name : String
  email : String
  address : String
  role : String
  created_at : Nat
  updated_at : Nat
  store_rating : Option ℚ
deriving DecidableEq, Repr

/-- `SELECT AVG(r.rating) FROM stores s LEFT JOIN ratings r ON s.id = r.store_id
WHERE s.owner_id = $1`, then `average_rating || 0`. -/
def storeRating (db : Db) (ownerId : String) : ℚ :=
  let rs := (db.stores.filter (fun s => s.owner_id == ownerId)).flatMap (storeRatings db)
  if rs.isEmpty then 0 else meanRating rs

/-- One output row of `getAllUsers`. -/
def userRow (db : Db) (u : User) : UserRow :=
  { id := u.id, name := u.name, email := u.email, address := u.address, role := u.role,
    created_at := u.created_at, updated_at := u.updated_at,
    store_rating := if u.role = "store_owner" then some (storeRating db u.id) else none }

/-- The matching user rows in `ORDER BY <sortBy> <sortOrder>`. -/
def usersSorted (db : Db) (q : UsersQuery) : List User :=
  let sortBy := finalSortBy ["name", "email", "role", "created_at"] "name" q.sortBy
  let sortOrder := finalSortOrder "ASC" q.sortOrder
  let matching := db.users.filter (usersWhere q)
  if sortBy = "email" then
    orderBy (fun a b : User => textLe a.email.data b.email.data) sortOrder matching
  else if sortBy = "role" then
    orderBy (fun a b : User => textLe a.role.data b.role.data) sortOrder matching
  else if sortBy = "created_at" then
    orderBy (fun a b : User => decide (a.created_at ≤ b.created_at)) sortOrder matching
  else
    orderBy (fun a b : User => textLe a.name.data b.name.data) sortOrder matching

/-- `getAllUsers`. A LIMIT or OFFSET that is negative or above `maxBigint`
makes the page query raise (500). The offset is the exact product
`(page - 1) * limit`; the handler computes it in double precision, which is
the exact product as long as that is at most 2^53. -/
def getAllUsers (db : Db) (q : UsersQuery) : Res (List UserRow × Pagination) :=
  let offset := (q.page - 1) * q.limit
  let totalCount := (db.users.filter (usersWhere q)).length
  if q.limit < 0 ∨ offset < 0 ∨ maxBigint < q.limit ∨ maxBigint < offset then
    ⟨500, .error "Internal server error"⟩
  else
    let page := limitOffset q.limit.toNat offset.toNat (usersSorted db q)
    ⟨200, .ok (page.map (userRow db),
      ⟨q.page, totalPages totalCount q.limit.toNat, totalCount, q.limit⟩)⟩

/-- Modelled from the spec: the foreign-key policy of the table definitions,
which are not among the sources. Deleting a user cascades to the stores the
user owns and to the ratings given by the user or given to those stores. -/
def cascadeDeleteUser (db : Db) (id : String) : Db :=
  let owned := (db.stores.filter (fun s => s.owner_id == id)).map (fun s => s.id)
  { users := db.users.filter (fun u => u.id != id),
    stores := db.stores.filter (fun s => s.owner_id != id),
    ratings := db.ratings.filter (fun r => r.user_id != id && !(owned.contains r.store_id)) }

/-- `deleteUser`; `id` is the route parameter. -/
def deleteUser (db : Db) (id : String) : Res Unit × Db :=
  match db.users.filter (fun u => u.id == id) with
  | [] => (⟨404, .error "User not found"⟩, db)
  | user :: _ =>
    if user.role = "admin" then (⟨403, .error "Cannot delete admin users"⟩, db)
    else (⟨200, .ok ()⟩, cascadeDeleteUser db id)

/-- Number of user rows with role `admin`. -/
def adminCount (db : Db) : Nat :=
  (db.users.filter (fun u => u.role == "admin")).length

/-- `users.id` is the key of the users table. -/
def UsersKeyed (db : Db) : Prop :=
  (db.users.map (fun u => u.id)).Nodup

/-- Modelled from the spec: the foreign-key policy of the table definitions,
which are not among the sources ("deleted only by admin, cascading deletion of
its ratings"). Deleting a store removes the store rows with the id and every
rating whose `store_id` is the id. -/
def cascadeDeleteStore (db : Db) (id : String) : Db :=
  { db with
    stores := db.stores.filter (fun s => s.id != id),
    ratings := db.ratings.filter (fun r => r.store_id != id) }

/-- `deleteStore`; `id` is the route parameter. -/
def deleteStore (db : Db) (id : String) : Res Unit × Db :=
  if (db.stores.filter (fun s => s.id == id)).length = 0 then
    (⟨404, .error "Store not found"⟩, db)
  else
    (⟨200, .ok ()⟩, cascadeDeleteStore db id)

/-! ## middleware/auth.js: authentication and role gate -/

/-- What a token carries: `{ userId, email, role }`. -/
structure TokenPayload where
  userId : String
  email : String
  role : String
deriving DecidableEq, Repr

/-- `authHeader && authHeader.split(' ')[1]`: the second piece of the header
cut at single spaces; `none` when the header is absent or has one piece. -/
def bearerToken (authHeader : Option String) : Option String :=
  match authHeader with
  | none => none
  | some h => ((h.data.splitOn ' ').get? 1).map String.mk

/-- `authenticateToken`. `verifyToken` (from `utils/jwt`, not among the
sources) is a parameter: `none` stands for the exception it throws on an
invalid or expired token, which the `catch` of the middleware answers. An
answer is `.error`; `.ok user` stands for `req.user = user; next()`. -/
def authenticateToken {α : Type} (verifyToken : String → Option TokenPayload) (db : Db)
    (authHeader : Option String) : Except (Res α) AuthUser :=
  match (bearerToken authHeader).filter (fun t => t != "") with
  | none => .error ⟨401, .error "Access token required"⟩
  | some token =>
    match verifyToken token with
    | none => .error ⟨403, .error "Invalid or expired token"⟩
    | some decoded =>
      match db.users.filter (fun u => u.id == decoded.userId) with
      | [] => .error ⟨401, .error "User not found"⟩
      | u :: _ => .ok ⟨u.id, u.email, u.role⟩

/-- `authorizeRoles(...roles)`: the middleware it returns; `none` stands for
the call of `next()`. -/
def authorizeRoles {α : Type} (roles : List String) (user : AuthUser) : Option (Res α) :=
  if !roles.contains user.role then
    some ⟨403, .error "Access denied. Insufficient permissions."⟩
  else none

/-! ## ratingsController.js: `getAllRatings`, and the admin-only routes -/

/-- Query string of `getAllRatings`; `page` and `limit` after `parseInt`.
`rating` is `none` when the query has no non-empty `rating`, `some none` when
`parseInt(rating)` is `NaN`, and `some (some n)` when it is `n`. -/
structure RatingsQuery where
  page : Int
  limit : Int
  sortBy : String
  sortOrder : String
  storeId : Option String
  userId : Option String
  rating : Option (Option Int)
deriving DecidableEq, Repr

/-- The WHERE clause of `getAllRatings` as a predicate on rating rows. -/
def ratingsWhere (q : RatingsQuery) (r : Rating) : Bool :=
  (if truthy q.storeId then r.store_id == q.storeId.getD "" else true) &&
  (if truthy q.userId then r.user_id == q.userId.getD "" else true) &&
  (match q.rating with
    | some (some n) => r.rating == n
    | _ => true)

/-- Row of `getAllRatings`. -/
structure AllRatingsRow where
  id : String
  rating : Int
  created_at : Nat
  updated_at : Nat
  user_id : String
  user_name : String
  store_id : String
  store_name : String
deriving DecidableEq, Repr

/-- `FROM ratings r JOIN users u ON r.user_id = u.id JOIN stores s ON
r.store_id = s.id` restricted by the WHERE clause. -/
def ratingsJoinUsersStores (db : Db) (q : RatingsQuery) : List (Rating × User × Store) :=
  (db.ratings.filter (ratingsWhere q)).flatMap (fun r =>
    (db.users.filter (fun u => r.user_id == u.id)).flatMap (fun u =>
      (db.stores.filter (fun s => r.store_id == s.id)).map (fun s => (r, u, s))))

/-- The joined rows of `getAllRatings` in `ORDER BY <sortField> <sortOrder>`. -/
def allRatingsSorted (db : Db) (q : RatingsQuery) : List (Rating × User × Store) :=
  let sortBy :=
    finalSortBy ["rating", "created_at", "user_name", "store_name"] "created_at" q.sortBy
  let sortOrder := finalSortOrder "DESC" q.sortOrder
  let joined := ratingsJoinUsersStores db q
  if sortBy = "user_name" then
    orderBy (fun a b : Rating × User × Store => textLe a.2.1.name.data b.2.1.name.data)
      sortOrder joined
  else if sortBy = "store_name" then
    orderBy (fun a b : Rating × User × Store => textLe a.2.2.name.data b.2.2.name.data)
      sortOrder joined
  else if sortBy = "rating" then
    orderBy (fun a b : Rating × User × Store => decide (a.1.rating ≤ b.1.rating)) sortOrder
      joined
  else
    orderBy (fun a b : Rating × User × Store => decide (a.1.created_at ≤ b.1.created_at))
      sortOrder joined

/-- `getAllRatings`. The count query has no join. A rating parameter that is
`NaN` or outside the 32-bit integers of the `rating` column, or a LIMIT or
OFFSET that is negative or above `maxBigint`, makes a query raise (500). -/
def getAllRatings (db : Db) (q : RatingsQuery) : Res (List AllRatingsRow × Pagination) :=
  let offset := (q.page - 1) * q.limit
  let totalCount := (db.ratings.filter (ratingsWhere q)).length
  let ratingReadable : Bool :=
    match q.rating with
    | some (some n) => decide (-maxInteger - 1 ≤ n) && decide (n ≤ maxInteger)
    | some none => false
    | none => true
  if ratingReadable = false ∨ q.limit < 0 ∨ offset < 0 ∨ maxBigint < q.limit
      ∨ maxBigint < offset then
    ⟨500, .error "Internal server error"⟩
  else
    let page := limitOffset q.limit.toNat offset.toNat (allRatingsSorted db q)
    ⟨200, .ok (page.map (fun p =>
        AllRatingsRow.mk p.1.id p.1.rating p.1.created_at p.1.updated_at p.2.1.id p.2.1.name
          p.2.2.id p.2.2.name),
      ⟨q.page, totalPages totalCount q.limit.toNat, totalCount, q.limit⟩)⟩

/-- A handler mounted behind a middleware: the middleware's answer ends the
request with the database untouched, `none` (`next()`) runs the handler. -/
def behind {α : Type} (gate : Option (Res α)) (db : Db) (handler : Res α × Db) : Res α × Db :=
  match gate with
  | some answer => (answer, db)
  | none => handler

/-- Any route of `routes/users.js` after `authenticateToken`:
`router.use(authorizeRoles('admin'))` stands before every handler of the
router, so the handler is a parameter. -/
def usersRoute {α : Type} (db : Db) (user : AuthUser) (handler : Res α × Db) : Res α × Db :=
  behind (authorizeRoles ["admin"] user) db handler

/-- `router.delete('/:id', authorizeRoles('admin'), deleteStore)`. -/
def deleteStoreRoute (db : Db) (user : AuthUser) (id : String) : Res Unit × Db :=
  behind (authorizeRoles ["admin"] user) db (deleteStore db id)

/-- Body of `POST /stores`: the three validated texts and `ownerId` as a query
parameter. -/
structure CreateStoreBody where
  name : String
  email : String
  address : String
  ownerId : Option String
deriving DecidableEq, Repr

/-- `router.post('/', authorizeRoles('admin'), storeValidationRules(), validate,
createStore)`. -/
def postStore (lib : EmailLib) (db : Db) (env : Env) (user : AuthUser)
    (body : CreateStoreBody) : Res StoreCreated × Db :=
  behind (authorizeRoles ["admin"] user) db
    (behind (validate (storeValidationRules lib ⟨body.name, body.email, body.address, none⟩)) db
      (createStore db env body.name (lib.normalizeEmail body.email) body.address body.ownerId))

/-- `router.get('/all', authorizeRoles('admin'), getAllRatings)`. -/
def getAllRatingsRoute (db : Db) (user : AuthUser) (q : RatingsQuery) :
    Res (List AllRatingsRow × Pagination) × Db :=
  behind (authorizeRoles ["admin"] user) db (getAllRatings db q, db)

/-! ## The SQL text built by the list handlers -/

/-- A value of `queryParams`. -/
inductive SqlParam where
  | text (s : String)
  | int (n : Int)
  | nan
deriving DecidableEq, Repr

/-- State of the WHERE-clause builder: `whereClause`, `queryParams` and
`paramCount`. -/
structure WhereBuilder where
  whereClause : String
  queryParams : List SqlParam
  paramCount : Nat
deriving DecidableEq, Repr

/-- The placeholder `$n` of a template literal. -/
def placeholder (n : Nat) : String :=
  "$" ++ toString n

/-- One step of the builders:
`paramCount++; whereClause += whereClause ? ' AND ' : ' WHERE ';
whereClause += <condition>; queryParams.push(<value>)`, where the condition
is written with the new `paramCount`. -/
def addCondition (b : WhereBuilder) (condition : Nat → String) (value : SqlParam) :
    WhereBuilder :=
  { whereClause :=
      b.whereClause ++ (if b.whereClause ≠ "" then " AND " else " WHERE ")
        ++ condition (b.paramCount + 1),
    queryParams := b.queryParams ++ [value],
    paramCount := b.paramCount + 1 }

/-- The WHERE builder of `getAllStores`. -/
def storesWhereClause (q : StoresQuery) : WhereBuilder :=
  let b0 : WhereBuilder := ⟨"", [], 0⟩
  if truthy q.search then
    addCondition b0
      (fun n => "(s.name ILIKE " ++ placeholder n ++ " OR s.address ILIKE " ++ placeholder n
        ++ ")")
      (.text ("%" ++ q.search.getD "" ++ "%"))
  else
    let b1 :=
      if truthy q.name then
        addCondition b0 (fun n => "s.name ILIKE " ++ placeholder n)
          (.text ("%" ++ q.name.getD "" ++ "%"))
      else b0
    if truthy q.address then
      addCondition b1 (fun n => "s.address ILIKE " ++ placeholder n)
        (.text ("%" ++ q.address.getD "" ++ "%"))
    else b1

/-- The text after `ORDER BY` in `getAllUsers`:
`${finalSortBy} ${finalSortOrder}`. -/
def usersOrderBy (sortBy sortOrder : String) : String :=
  finalSortBy ["name", "email", "role", "created_at"] "name" sortBy ++ " "
    ++ finalSortOrder "ASC" sortOrder

/-- The text after `ORDER BY` in `getAllStores`:
`${finalSortBy === 'average_rating' ? 'average_rating' : 's.' + finalSortBy}
${finalSortOrder}`. -/
def storesOrderBy (sortBy sortOrder : String) : String :=
  (if finalSortBy ["name", "address", "average_rating", "created_at"] "name" sortBy
      = "average_rating" then "average_rating"
    else "s." ++ finalSortBy ["name", "address", "average_rating", "created_at"] "name" sortBy)
    ++ " " ++ finalSortOrder "ASC" sortOrder

/-- The text after `ORDER BY` in `getRatingsByStore`:
`r.${finalSortBy} ${finalSortOrder}`. -/
def ratingsByStoreOrderBy (sortBy sortOrder : String) : String :=
  "r." ++ finalSortBy ["rating", "created_at"] "created_at" sortBy ++ " "
    ++ finalSortOrder "DESC" sortOrder

/-- The text after `ORDER BY` in `getMyRatings`:
`${finalSortBy === 'store_name' ? 's.name' : 'r.' + finalSortBy} ${finalSortOrder}`. -/
def myRatingsOrderBy (sortBy sortOrder : String) : String :=
  (if finalSortBy ["rating", "created_at", "store_name"] "created_at" sortBy = "store_name"
    then "s.name"
    else "r." ++ finalSortBy ["rating", "created_at", "store_name"] "created_at" sortBy)
    ++ " " ++ finalSortOrder "DESC" sortOrder

/-- The text after `ORDER BY` in `getAllRatings`: `${sortField} ${finalSortOrder}`
with `sortField` one of `u.name`, `s.name` and `r.${finalSortBy}`. -/
def allRatingsOrderBy (sortBy sortOrder : String) : String :=
  (if finalSortBy ["rating", "created_at", "user_name", "store_name"] "created_at" sortBy
      = "user_name" then "u.name"
    else if finalSortBy ["rating", "created_at", "user_name", "store_name"] "created_at" sortBy
      = "store_name" then "s.name"
    else "r."
      ++ finalSortBy ["rating", "created_at", "user_name", "store_name"] "created_at" sortBy)
    ++ " " ++ finalSortOrder "DESC" sortOrder

/-! ## Substring matching, as the filters are described -/

/-- The text `needle` occurs in `hay` as a contiguous run of characters. -/
def containsText (needle hay : List Char) : Bool :=
  anySuffix (fun t => needle.isPrefixOf t) hay

/-- The column contains the term as a case-insensitive substring (ASCII
letters). -/
def containsIgnoreCase (column term : String) : Bool :=
  containsText (term.data.map Char.toLower) (column.data.map Char.toLower)

/-- The characters with a special meaning in a LIKE pattern: `%`, `_` and the
backslash. -/
def isLikeMeta (c : Char) : Bool :=
  c = '%' || c = '_' || c = Char.ofNat 92

/-- The filter of `getAllUsers` as the description has it: every text filter
that is given is a case-insensitive substring match, `role` is an exact match,
and all of them must hold. -/
def usersWhereSubstring (q : UsersQuery) (u : User) : Bool :=
  (if truthy q.name then containsIgnoreCase u.name (q.name.getD "") else true) &&
  (if truthy q.email then containsIgnoreCase u.email (q.email.getD "") else true) &&
  (if truthy q.address then containsIgnoreCase u.address (q.address.getD "") else true) &&
  (if truthy q.role then u.role == q.role.getD "" else true)

/-! ## dashboardController.js -/

/-- The integer `n` with `n / 100` nearest to `sum / count` for `sum ≥ 0`, the
larger one on a tie. -/
def nearestHundredths (sum : Int) (count : Nat) : Int :=
  (200 * sum + count) / (2 * count)

/-- `parseFloat(COALESCE(AVG(...), 0)).toFixed(2)` as the number of hundredths
shown; 0 when there is no row (see `toFixed1`). -/
def toFixed2 (sum : Int) (count : Nat) : Int :=
  if count = 0 then 0
  else if sum < 0 then - nearestHundredths (- sum) count
  else nearestHundredths sum count

/-- The values of a list without repetitions, first occurrences kept. -/
def distinct {α : Type} [DecidableEq α] : List α → List α
  | [] => []
  | a :: l => a :: (distinct l).filter (fun b => b ≠ a)

/-- `SELECT rating, COUNT(*) FROM ... GROUP BY rating ORDER BY rating`: each
rating value that occurs, in ascending order, with its number of rows. -/
def ratingHistogram (rs : List Rating) : List (Int × Nat) :=
  let values := rs.map (fun r => r.rating)
  ((distinct values).insertionSort (fun a b => a ≤ b)).map (fun v => (v, values.count v))

/-- `COALESCE(AVG(r.rating), 0)` of the group of a store, as an exact number. -/
def storeAverage (db : Db) (s : Store) : ℚ :=
  if (storeRatings db s).length = 0 then 0 else meanRating (storeRatings db s)

/-- `ORDER BY average_rating DESC, total_ratings DESC`: store `a` is placed no
later than store `b`. The two averages are compared by cross-multiplication
(a group without ratings has average 0). -/
def ranksBefore (db : Db) (a b : Store) : Bool :=
  let sumA := ratingSum (storeRatings db a)
  let countA := (storeRatings db a).length
  let sumB := ratingSum (storeRatings db b)
  let countB := (storeRatings db b).length
  decide (sumB * (max countA 1 : Nat) < sumA * (max countB 1 : Nat)) ||
    (decide (sumB * (max countA 1 : Nat) = sumA * (max countB 1 : Nat)) &&
      decide (countB ≤ countA))

/-- The store rows of the top-stores query of `getAdminStats` in its order,
cut by `LIMIT 5`. `stores.id` is the key of the table, so each group of
`GROUP BY s.id, s.name, s.address` is one store row; rows that tie in both
sort keys stay in table order. -/
def topStoresRanked (db : Db) : List Store :=
  (db.stores.insertionSort (fun a b => ranksBefore db a b = true)).take 5

/-- Row of `topStores`; `average_rating` in tenths as written by `toFixed(1)`. -/
structure TopStoreRow where
  id : String
  name : String
  address : String
  average_rating : Int
  total_ratings : Nat
deriving DecidableEq, Repr

/-- Row of `recentRatings` in `getAdminStats` and `getStoreOwnerStats`. -/
structure RecentRatingRow where
  id : String
  rating : Int
  created_at : Nat
  user_name : String
  store_name : String
deriving DecidableEq, Repr

/-- `FROM ratings r JOIN users u ON r.user_id = u.id JOIN stores s ON
r.store_id = s.id` over the given rating rows. -/
def joinUsersStores (db : Db) (rs : List Rating) : List (Rating × User × Store) :=
  rs.flatMap (fun r =>
    (db.users.filter (fun u => r.user_id == u.id)).flatMap (fun u =>
      (db.stores.filter (fun s => r.store_id == s.id)).map (fun s => (r, u, s))))

/-- `ORDER BY r.created_at DESC LIMIT n` over joined rows, with the columns of
`recentRatings`. -/
def recentRatings (n : Nat) (joined : List (Rating × User × Store)) : List RecentRatingRow :=
  ((orderBy (fun a b : Rating × User × Store => decide (a.1.created_at ≤ b.1.created_at))
      "DESC" joined).take n).map
    (fun p => ⟨p.1.id, p.1.rating, p.1.created_at, p.2.1.name, p.2.2.name⟩)

/-- The JSON answer of `getAdminStats`; `averageRating` in hundredths as
written by `toFixed(2)`. -/
structure AdminStats where
  totalUsers : Nat
  totalStores : Nat
  totalRatings : Nat
  averageRating : Int
  admins : Nat
  normalUsers : Nat
  storeOwners : Nat
  topStores : List TopStoreRow
  recentRatings : List RecentRatingRow
  ratingDistribution : List (Int × Nat)
deriving DecidableEq, Repr

/-- `getAdminStats`. -/
def getAdminStats (db : Db) : Res AdminStats :=
  ⟨200, .ok
    { totalUsers := db.users.length,
      totalStores := db.stores.length,
      totalRatings := db.ratings.length,
      averageRating := toFixed2 (ratingSum db.ratings) db.ratings.length,
      admins := (db.users.filter (fun u => u.role == "admin")).length,
      normalUsers := (db.users.filter (fun u => u.role == "user")).length,
      storeOwners := (db.users.filter (fun u => u.role == "store_owner")).length,
      topStores := (topStoresRanked db).map (fun s =>
        { id := s.id, name := s.name, address := s.address,
          average_rating := toFixed1 (ratingSum (storeRatings db s)) (storeRatings db s).length,
          total_ratings := (storeRatings db s).length }),
      recentRatings := recentRatings 10 (joinUsersStores db db.ratings),
      ratingDistribution := ratingHistogram db.ratings }⟩

/-- Store `a` ranks at least as high as store `b` in the order of the
top-stores list: a higher average, or the same average and at least as many
ratings. -/
def RanksAtLeast (db : Db) (a b : Store) : Prop :=
  storeAverage db b < storeAverage db a ∨
    (storeAverage db b = storeAverage db a ∧
      (storeRatings db b).length ≤ (storeRatings db a).length)

/-- The calendar of the database engine as far as `getStoreStats` uses it:
`DATE_TRUNC('month', t)` and the value of `CURRENT_DATE - INTERVAL '12 months'`. -/
structure Calendar where
  monthOf : Nat → Nat
  twelveMonthsAgo : Nat

/-- The `store` object of `getStoreStats`; `average_rating` in tenths. -/
structure StoreStatsStore where
  id : String
  name : String
  email : String
  address : String
  created_at : Nat
  owner_name : String
  average_rating : Int
  total_ratings : Nat
deriving DecidableEq, Repr

/-- Row of `ratings` in `getStoreStats`. -/
structure StoreStatsRating where
  id : String
  rating : Int
  created_at : Nat
  updated_at : Nat
  user_name : String
  user_email : String
deriving DecidableEq, Repr

/-- Row of `monthlyTrends`; `averageRating` in hundredths. -/
structure MonthlyTrend where
  month : Nat
  ratingCount : Nat
  averageRating : Int
deriving DecidableEq, Repr

/-- The JSON answer of `getStoreStats`. -/
structure StoreStats where
  store : StoreStatsStore
  ratings : List StoreStatsRating
  ratingDistribution : List (Int × Nat)
  monthlyTrends : List MonthlyTrend
deriving DecidableEq, Repr

/-- The monthly-trends query: the ratings of the store since the cut-off date,
grouped by month, in ascending order of month. -/
def monthlyTrends (cal : Calendar) (rs : List Rating) : List MonthlyTrend :=
  let recent := rs.filter (fun r => decide (cal.twelveMonthsAgo ≤ r.created_at))
  let months := (distinct (recent.map (fun r => cal.monthOf r.created_at))).insertionSort
    (fun a b => a ≤ b)
  months.map (fun m =>
    let group := recent.filter (fun r => cal.monthOf r.created_at == m)
    ⟨m, group.length, toFixed2 (ratingSum group) group.length⟩)

/-- `getStoreStats`; `storeId` is the route parameter, `user` is `req.user`.
The store query joins the owner's user row (`JOIN users u ON s.owner_id =
u.id`) and the answer uses its first row. -/
def getStoreStats (cal : Calendar) (db : Db) (user : AuthUser) (storeId : String) :
    Res StoreStats :=
  if user.role ≠ "admin" ∧
      (db.stores.filter (fun s => s.id == storeId && s.owner_id == user.id)).length = 0 then
    ⟨403, .error "Access denied to this store"⟩
  else
    let storeResult := (db.stores.filter (fun s => s.id == storeId)).flatMap (fun s =>
      (db.users.filter (fun u => s.owner_id == u.id)).map (fun u => (s, u)))
    match storeResult with
    | [] => ⟨404, .error "Store not found"⟩
    | (s, u) :: _ =>
      let rs := db.ratings.filter (fun r => r.store_id == storeId)
      let joined := rs.flatMap (fun r =>
        (db.users.filter (fun v => r.user_id == v.id)).map (fun v => (r, v)))
      let sorted := orderBy
        (fun a b : Rating × User => decide (a.1.created_at ≤ b.1.created_at)) "DESC" joined
      ⟨200, .ok
        { store :=
            { id := s.id, name := s.name, email := s.email, address := s.address,
              created_at := s.created_at, owner_name := u.name,
              average_rating :=
                toFixed1 (ratingSum (storeRatings db s)) (storeRatings db s).length,
              total_ratings := (storeRatings db s).length },
          ratings := sorted.map (fun p =>
            ⟨p.1.id, p.1.rating, p.1.created_at, p.1.updated_at, p.2.name, p.2.email⟩),
          ratingDistribution := ratingHistogram rs,
          monthlyTrends := monthlyTrends cal rs }⟩

/-- `router.get('/store/:storeId', authorizeRoles('admin', 'store_owner'),
getStoreStats)` behind `authenticateToken`. -/
def getStoreStatsRoute (cal : Calendar) (db : Db) (user : AuthUser) (storeId : String) :
    Res StoreStats × Db :=
  behind (authorizeRoles ["admin", "store_owner"] user) db (getStoreStats cal db user storeId, db)

/-- Row of `ratingDistribution` in `getStoreOwnerStats`: `r.rating`,
`COUNT(*)` and `s.name as store_name`. -/
structure OwnerDistributionRow where
  rating : Int
  count : Nat
  store_name : String
deriving DecidableEq, Repr

/-- The JSON answer of `getStoreOwnerStats`; `overallAverageRating` in
hundredths. The answer for an owner without stores has no
`ratingDistribution` (`none`). -/
structure StoreOwnerStats where
  stores : List MyStoreRow
  totalStores : Nat
  totalRatings : Nat
  overallAverageRating : Int
  recentRatings : List RecentRatingRow
  ratingDistribution : Option (List OwnerDistributionRow)
deriving DecidableEq, Repr

/-- The rating-distribution query of `getStoreOwnerStats`:
`FROM ratings r JOIN stores s ON r.store_id = s.id WHERE s.owner_id = $1
GROUP BY r.rating, s.name ORDER BY s.name, r.rating`. -/
def ownerRatingDistribution (db : Db) (ownerId : String) : List OwnerDistributionRow :=
  let joined : List (Int × String) := db.ratings.flatMap (fun r =>
    (db.stores.filter (fun s => r.store_id == s.id && s.owner_id == ownerId)).map
      (fun s => (r.rating, s.name)))
  let groups := (distinct joined).insertionSort (fun a b =>
    (if a.2 = b.2 then decide (a.1 ≤ b.1) else textLe a.2.data b.2.data) = true)
  groups.map (fun g => ⟨g.1, joined.count g, g.2⟩)

/-- `getStoreOwnerStats`; `ownerId` is `req.user.id`. -/
def getStoreOwnerStats (db : Db) (ownerId : String) : Res StoreOwnerStats :=
  let owned := db.stores.filter (fun s => s.owner_id == ownerId)
  if owned.length = 0 then
    ⟨200, .ok ⟨[], 0, 0, 0, [], none⟩⟩
  else
    let sorted := orderBy (fun a b : Store => textLe a.name.data b.name.data) "ASC" owned
    let stores := sorted.map (fun s =>
      MyStoreRow.mk s.id s.name s.email s.address s.created_at
        (toFixed1 (ratingSum (storeRatings db s)) (storeRatings db s).length)
        (storeRatings db s).length)
    let pooled := owned.flatMap (storeRatings db)
    ⟨200, .ok
      { stores := stores,
        totalStores := (distinct (owned.map (fun s => s.id))).length,
        totalRatings := pooled.length,
        overallAverageRating := toFixed2 (ratingSum pooled) pooled.length,
        recentRatings := recentRatings 20
          ((joinUsersStores db db.ratings).filter (fun p => p.2.2.owner_id == ownerId)),
        ratingDistribution := some (ownerRatingDistribution db ownerId) }⟩

/-! ## Statements that raise

Each handler issues its statements in a fixed order; `raise k = some code`
says that the `k`-th statement of the handler's source raises an error object
with that `code` instead of completing (a raising statement changes nothing).
The handler's `catch` then builds the answer. -/

/-- No statement raises. -/
def noRaise : Nat → Option String := fun _ => none

/-- The `catch` of `register`, `createUser` and `createStore`:
`if (error.code === '23505') return res.status(409)...; res.status(500)...`. -/
def catchDuplicate {α : Type} (code message : String) : Res α :=
  if code = "23505" then ⟨409, .error message⟩ else ⟨500, .error "Internal server error"⟩

/-- The `catch` of the other handlers: `res.status(500)` whatever the error. -/
def catchAll {α : Type} (_code : String) : Res α :=
  ⟨500, .error "Internal server error"⟩

/-- `submitRating` with raising statements: 1 the store check, 2 the
existing-rating check, 3 the INSERT. -/
def submitRatingRaising (raise : Nat → Option String) (db : Db) (env : Env) (userId : String)
    (storeId : Option String) (rating : Option Int) : Res RatingReturned × Db :=
  match raise 1 with
  | some code => (catchAll code, db)
  | none =>
    let storeCheck := db.stores.filter (fun s => sqlEq s.id storeId)
    if storeCheck.length = 0 then
      (⟨404, .error "Store not found"⟩, db)
    else
      match raise 2 with
      | some code => (catchAll code, db)
      | none =>
        if (existingRating db userId storeId).length > 0 then
          (⟨409, .error "You have already rated this store. Use update rating instead."⟩, db)
        else
          match raise 3 with
          | some code => (catchAll code, db)
          | none =>
            match storeId, rating with
            | some sid, some n =>
              let row : Rating :=
                { id := env.newId, user_id := userId, store_id := sid, rating := n,
                  created_at := env.now, updated_at := env.now }
              (⟨201, .ok ⟨row.id, row.rating, row.created_at⟩⟩,
                { db with ratings := db.ratings ++ [row] })
            | _, _ => (⟨500, .error "Internal server error"⟩, db)

/-- `createStore` with raising statements: 1 the e-mail check, 2 the owner
lookup, 3 the UPDATE of the owner's role (when issued), 4 the INSERT. The
handler has no transaction: a role update that completed stays when the
INSERT raises. -/
def createStoreRaising (raise : Nat → Option String) (db : Db) (env : Env)
    (name email address : String) (ownerId : Option String) : Res StoreCreated × Db :=
  match raise 1 with
  | some code => (catchDuplicate code "Store with this email already exists", db)
  | none =>
    if (db.stores.filter (fun s => s.email == email)).length > 0 then
      (⟨409, .error "Store with this email already exists"⟩, db)
    else
      match raise 2 with
      | some code => (catchDuplicate code "Store with this email already exists", db)
      | none =>
        match db.users.filter (fun u => sqlEq u.id ownerId), ownerId with
        | owner :: _, some oid =>
          let promote := owner.role != "store_owner"
          match (if promote then raise 3 else none) with
          | some code => (catchDuplicate code "Store with this email already exists", db)
          | none =>
            let users :=
              if promote then
                db.users.map (fun u =>
                  if sqlEq u.id ownerId then { u with role := "store_owner", updated_at := env.now }
                  else u)
              else db.users
            match raise 4 with
            | some code =>
              (catchDuplicate code "Store with this email already exists",
                { db with users := users })
            | none =>
              let row : Store :=
                { id := env.newId, name := name, email := email, address := address,
                  owner_id := oid, created_at := env.now, updated_at := env.now }
              (⟨201, .ok ⟨row.id, row.name, row.email, row.address, row.owner_id,
                  row.created_at⟩⟩,
                { db with users := users, stores := db.stores ++ [row] })
        | _, _ => (⟨400, .error "Owner not found"⟩, db)

/-- `updateStore` with raising statements: 1 the existence check, 2 the
e-mail check, 3 the UPDATE. -/
def updateStoreRaising (raise : Nat → Option String) (db : Db) (env : Env)
    (id name email address : String) : Res (Option StoreUpdated) × Db :=
  match raise 1 with
  | some code => (catchAll code, db)
  | none =>
    if (db.stores.filter (fun s => s.id == id)).length = 0 then
      (⟨404, .error "Store not found"⟩, db)
    else
      match raise 2 with
      | some code => (catchAll code, db)
      | none =>
        if (db.stores.filter (fun s => s.email == email && s.id != id)).length > 0 then
          (⟨409, .error "Email is already taken"⟩, db)
        else
          match raise 3 with
          | some code => (catchAll code, db)
          | none =>
            let rewrite : Store → Store := fun s =>
              { s with name := name, email := email, address := address, updated_at := env.now }
            let stores := db.stores.map (fun s => if s.id == id then rewrite s else s)
            let returned := (stores.filter (fun s => s.id == id)).map (fun s =>
              StoreUpdated.mk s.id s.name s.email s.address s.owner_id s.created_at
                s.updated_at)
            (⟨200, .ok returned.head?⟩, { db with stores := stores })

/-- The password-hash and token libraries (`bcryptjs` and `utils/jwt`, not
among the sources) as far as the handlers call them. -/
structure AuthLib where
  hash : String → String
  compare : String → String → Bool
  generateToken : TokenPayload → String
  verifyToken : String → Option TokenPayload

/-- Row returned by the INSERT of `register` and `createUser`:
`RETURNING id, name, email, address, role, created_at`. -/
structure UserCreated where
  id : String
  name : String
  email : String
  address : String
  role : String
  created_at : Nat
deriving DecidableEq, Repr

/-- The JSON answer of `register`: the token and the created user. -/
structure Registered where
  token : String
  user : UserCreated
deriving DecidableEq, Repr

/-- `register` with raising statements: 1 the e-mail check, 2 the INSERT. -/
def registerRaising (raise : Nat → Option String) (lib : AuthLib) (db : Db) (env : Env)
    (name email password address : String) : Res Registered × Db :=
  match raise 1 with
  | some code => (catchDuplicate code "User with this email already exists", db)
  | none =>
    if (db.users.filter (fun u => u.email == email)).length > 0 then
      (⟨409, .error "User with this email already exists"⟩, db)
    else
      match raise 2 with
      | some code => (catchDuplicate code "User with this email already exists", db)
      | none =>
        let row : User :=
          { id := env.newId, name := name, email := email, password := lib.hash password,
            address := address, role := "user", created_at := env.now, updated_at := env.now }
        let newUser : UserCreated :=
          ⟨row.id, row.name, row.email, row.address, row.role, row.created_at⟩
        (⟨201, .ok ⟨lib.generateToken ⟨newUser.id, newUser.email, newUser.role⟩, newUser⟩⟩,
          { db with users := db.users ++ [row] })

/-- `register`. -/
def register (lib : AuthLib) (db : Db) (env : Env) (name email password address : String) :
    Res Registered × Db :=
  registerRaising noRaise lib db env name email password address

/-- `createUser` with raising statements: 1 the e-mail check, 2 the INSERT.
`role` is `none` when the body has no `role` (the default `'user'` applies). -/
def createUserRaising (raise : Nat → Option String) (lib : AuthLib) (db : Db) (env : Env)
    (name email password address : String) (role : Option String) : Res UserCreated × Db :=
  let role := role.getD "user"
  if (["admin", "user", "store_owner"].contains role) = false then
    (⟨400, .error "Invalid role specified"⟩, db)
  else
    match raise 1 with
    | some code => (catchDuplicate code "User with this email already exists", db)
    | none =>
      if (db.users.filter (fun u => u.email == email)).length > 0 then
        (⟨409, .error "User with this email already exists"⟩, db)
      else
        match raise 2 with
        | some code => (catchDuplicate code "User with this email already exists", db)
        | none =>
          let row : User :=
            { id := env.newId, name := name, email := email, password := lib.hash password,
              address := address, role := role, created_at := env.now, updated_at := env.now }
          (⟨201, .ok ⟨row.id, row.name, row.email, row.address, row.role, row.created_at⟩⟩,
            { db with users := db.users ++ [row] })

/-- `createUser`. -/
def createUser (lib : AuthLib) (db : Db) (env : Env) (name email password address : String)
    (role : Option String) : Res UserCreated × Db :=
  createUserRaising noRaise lib db env name email password address role

/-- Row returned by the UPDATE of `updateUser`. -/
structure UserUpdated where
  id : String
  name : String
  email : String
  address : String
  role : String
  created_at : Nat
  updated_at : Nat
deriving DecidableEq, Repr

/-- `updateUser` with raising statements: 1 the existence check, 2 the e-mail
check, 3 the UPDATE. `role` is the text of `req.body.role`. -/
def updateUserRaising (raise : Nat → Option String) (db : Db) (env : Env)
    (id name email address role : String) : Res (Option UserUpdated) × Db :=
  match raise 1 with
  | some code => (catchAll code, db)
  | none =>
    if (db.users.filter (fun u => u.id == id)).length = 0 then
      (⟨404, .error "User not found"⟩, db)
    else
      match raise 2 with
      | some code => (catchAll code, db)
      | none =>
        if (db.users.filter (fun u => u.email == email && u.id != id)).length > 0 then
          (⟨409, .error "Email is already taken"⟩, db)
        else
          match raise 3 with
          | some code => (catchAll code, db)
          | none =>
            let rewrite : User → User := fun u =>
              { u with name := name, email := email, address := address, role := role,
                       updated_at := env.now }
            let users := db.users.map (fun u => if u.id == id then rewrite u else u)
            let returned := (users.filter (fun u => u.id == id)).map (fun u =>
              UserUpdated.mk u.id u.name u.email u.address u.role u.created_at u.updated_at)
            (⟨200, .ok returned.head?⟩, { db with users := users })

/-- `updateUser`. -/
def updateUser (db : Db) (env : Env) (id name email address role : String) :
    Res (Option UserUpdated) × Db :=
  updateUserRaising noRaise db env id name email address role

/-! ## frontend/src/pages/Register.js -/

/-- `String.prototype.length`: the number of UTF-16 code units. -/
def jsLength (s : String) : Nat :=
  (s.data.map (fun c => if c.toNat < 65536 then 1 else 2)).sum

/-- The class `[A-Z]`. -/
def isUpperAZ (c : Char) : Bool :=
  decide (65 ≤ c.toNat) && decide (c.toNat ≤ 90)

/-- The characters of the class
`[!@#$%^&*()_+\-=\[\]{};':"\\|,.<>\/?]`, by code: `! @ # $ % ^ & * ( ) _ + - =
[ ] { } ; ' : " \ | , . < > / ?`. -/
def specialChars : List Char :=
  [33, 64, 35, 36, 37, 94, 38, 42, 40, 41, 95, 43, 45, 61, 91, 93, 123, 125, 59, 39, 58, 34, 92,
    124, 44, 46, 60, 62, 47, 63].map Char.ofNat

/-- State of the registration form. -/
structure RegisterForm where
  name : String
  email : String
  password : String
  address : String
deriving DecidableEq, Repr

/-- `validateForm` of the registration page: `none` is `null`, `some message`
the returned error message. -/
def validateForm (f : RegisterForm) : Option String :=
  if jsLength f.name > 20 ∨ jsLength f.name < 60 then
    some "Name must be between 20 and 60 characters"
  else if jsLength f.address < 400 then
    some "Address must not exceed 400 characters"
  else if jsLength f.password > 8 ∨ jsLength f.password < 16 then
    some "Password must be between 8 and 16 characters"
  else
    let hasUppercase := f.password.data.any isUpperAZ
    let hasSpecialChar := f.password.data.any (fun c => specialChars.contains c)
    if !hasUppercase || !hasSpecialChar then
      some "Password must contain at least one uppercase letter and one special character"
    else none

/-! ## authController.js -/

/-- Row of the lookup of `login`: `SELECT id, name, email, password, role`. -/
structure LoginRow where
  id : String
  name : String
  email : String
  password : String
  role : String
deriving DecidableEq, Repr

/-- The `user` object of the answer of `login`. -/
structure LoginUser where
  id : String
  name : String
  email : String
  role : String
deriving DecidableEq, Repr

/-- `const { password: _, ...userWithoutPassword } = user`. -/
def userWithoutPassword (user : LoginRow) : LoginUser :=
  ⟨user.id, user.name, user.email, user.role⟩

/-- The JSON answer of `login`. -/
structure LoggedIn where
  token : String
  user : LoginUser
deriving DecidableEq, Repr

/-- `login`. -/
def login (lib : AuthLib) (db : Db) (email password : String) : Res LoggedIn :=
  let userResult := (db.users.filter (fun u => u.email == email)).map
    (fun u => LoginRow.mk u.id u.name u.email u.password u.role)
  match userResult with
  | [] => ⟨401, .error "Invalid credentials"⟩
  | user :: _ =>
    if lib.compare password user.password = false then
      ⟨401, .error "Invalid credentials"⟩
    else
      ⟨200, .ok ⟨lib.generateToken ⟨user.id, user.email, user.role⟩, userWithoutPassword user⟩⟩

/-- `changePassword`; `userId` is `req.user.id`. -/
def changePassword (lib : AuthLib) (db : Db) (env : Env) (userId currentPassword
    newPassword : String) : Res Unit × Db :=
  match (db.users.filter (fun u => u.id == userId)).map (fun u => u.password) with
  | [] => (⟨404, .error "User not found"⟩, db)
  | stored :: _ =>
    if lib.compare currentPassword stored = false then
      (⟨401, .error "Current password is incorrect"⟩, db)
    else
      let rewrite : User → User := fun u =>
        { u with password := lib.hash newPassword, updated_at := env.now }
      let users := db.users.map (fun u => if u.id == userId then rewrite u else u)
      (⟨200, .ok ()⟩, { db with users := users })

/-- Row of `getProfile`: `SELECT id, name, email, address, role, created_at`. -/
structure Profile where
  id : String
  name : String
  email : String
  address : String
  role : String
  created_at : Nat
deriving DecidableEq, Repr

/-- `getProfile`; `userId` is `req.user.id`. -/
def getProfile (db : Db) (userId : String) : Res Profile :=
  match db.users.filter (fun u => u.id == userId) with
  | [] => ⟨404, .error "User not found"⟩
  | u :: _ => ⟨200, .ok ⟨u.id, u.name, u.email, u.address, u.role, u.created_at⟩⟩

/-- `getUserById`; `id` is the route parameter. -/
def getUserById (db : Db) (id : String) : Res UserRow :=
  match db.users.filter (fun u => u.id == id) with
  | [] => ⟨404, .error "User not found"⟩
  | u :: _ => ⟨200, .ok (userRow db u)⟩

/-- The user row with the password column blanked. -/
def eraseUser (u : User) : User :=
  { u with password := "" }

/-- The database with every stored password blanked: two databases with the
same image differ at most in the stored passwords. -/
def erasePasswords (db : Db) : Db :=
  { db with users := db.users.map eraseUser }

/-- The role is one of `admin`, `user`, `store_owner`. -/
def validRole (role : String) : Bool :=
  ["admin", "user", "store_owner"].contains role

/-- Every stored user has one of the three roles. -/
def RolesValid (db : Db) : Prop :=
  ∀ u ∈ db.users, validRole u.role = true


/-- The WHERE builder of `getAllUsers`. -/
def usersWhereClause (q : UsersQuery) : WhereBuilder :=
  let b0 : WhereBuilder := ⟨"", [], 0⟩
  let b1 :=
    if truthy q.name then
      addCondition b0 (fun n => "name ILIKE " ++ placeholder n)
        (.text ("%" ++ q.name.getD "" ++ "%"))
    else b0
  let b2 :=
    if truthy q.email then
      addCondition b1 (fun n => "email ILIKE " ++ placeholder n)
        (.text ("%" ++ q.email.getD "" ++ "%"))
    else b1
  let b3 :=
    if truthy q.address then
      addCondition b2 (fun n => "address ILIKE " ++ placeholder n)
        (.text ("%" ++ q.address.getD "" ++ "%"))
    else b2
  if truthy q.role then
    addCondition b3 (fun n => "role = " ++ placeholder n) (.text (q.role.getD ""))
  else b3

/-- The WHERE builder of `getAllRatings`; the third value is
`parseInt(rating)`. -/
def ratingsWhereClause (q : RatingsQuery) : WhereBuilder :=
  let b0 : WhereBuilder := ⟨"", [], 0⟩
  let b1 :=
    if truthy q.storeId then
      addCondition b0 (fun n => "r.store_id = " ++ placeholder n) (.text (q.storeId.getD ""))
    else b0
  let b2 :=
    if truthy q.userId then
      addCondition b1 (fun n => "r.user_id = " ++ placeholder n) (.text (q.userId.getD ""))
    else b1
  match q.rating with
  | some (some v) => addCondition b2 (fun n => "r.rating = " ++ placeholder n) (.int v)
  | some none => addCondition b2 (fun n => "r.rating = " ++ placeholder n) .nan
  | none => b2

/-- A call `query(text, values)`. -/
structure Statement where
  text : String
  values : List SqlParam
deriving DecidableEq, Repr

/-- The count statement of `getAllUsers`:
`query(countQuery, queryParams)` before the limit and offset are pushed. -/
def usersCountQuery (q : UsersQuery) : Statement :=
  let b := usersWhereClause q
  ⟨"SELECT COUNT(*) FROM users" ++ b.whereClause, b.queryParams⟩

/-- The page statement of `getAllUsers`: `query(usersQuery, queryParams)` after
`queryParams.push(parseInt(limit), offset)`. -/
def usersQuery (q : UsersQuery) : Statement :=
  let b := usersWhereClause q
  ⟨"\n      SELECT \n        id, name, email, address, role, created_at, updated_at \n      FROM users \n      "
      ++ b.whereClause ++ "\n      ORDER BY " ++ usersOrderBy q.sortBy q.sortOrder
      ++ "\n      LIMIT " ++ placeholder (b.paramCount + 1) ++ " OFFSET "
      ++ placeholder (b.paramCount + 2) ++ "\n    ",
    b.queryParams ++ [.int q.limit, .int ((q.page - 1) * q.limit)]⟩

/-- The page statement of `getAllStores`: `query(storesQuery, queryParams)`
after `queryParams.push(parseInt(limit), offset)`. -/
def storesQuery (q : StoresQuery) : Statement :=
  let b := storesWhereClause q
  ⟨"\n      SELECT \n        s.id,\n        s.name,\n        s.email,\n        s.address,\n        s.owner_id,\n        s.created_at,\n        COALESCE(AVG(r.rating), 0) as average_rating,\n        COUNT(r.id) as total_ratings\n      FROM stores s\n      LEFT JOIN ratings r ON s.id = r.store_id\n      "
      ++ b.whereClause
      ++ "\n      GROUP BY s.id, s.name, s.email, s.address, s.owner_id, s.created_at\n      ORDER BY "
      ++ storesOrderBy q.sortBy q.sortOrder
      ++ "\n      LIMIT " ++ placeholder (b.paramCount + 1) ++ " OFFSET "
      ++ placeholder (b.paramCount + 2) ++ "\n    ",
    b.queryParams ++ [.int q.limit, .int ((q.page - 1) * q.limit)]⟩

/-- The count statement of `getAllStores`, issued after the page statement:
`query(countQuery, queryParams.slice(0, paramCount))`. -/
def storesCountQuery (q : StoresQuery) : Statement :=
  let b := storesWhereClause q
  ⟨"\n      SELECT COUNT(DISTINCT s.id) as count\n      FROM stores s\n      " ++ b.whereClause
      ++ "\n    ",
    (storesQuery q).values.take b.paramCount⟩

/-- The count statement of `getAllRatings`. -/
def ratingsCountQuery (q : RatingsQuery) : Statement :=
  let b := ratingsWhereClause q
  ⟨"SELECT COUNT(*) FROM ratings r " ++ b.whereClause, b.queryParams⟩

/-- The page statement of `getAllRatings`. -/
def ratingsQuery (q : RatingsQuery) : Statement :=
  let b := ratingsWhereClause q
  ⟨"\n      SELECT \n        r.id,\n        r.rating,\n        r.created_at,\n        r.updated_at,\n        u.id as user_id,\n        u.name as user_name,\n        s.id as store_id,\n        s.name as store_name\n      FROM ratings r\n      JOIN users u ON r.user_id = u.id\n      JOIN stores s ON r.store_id = s.id\n      "
      ++ b.whereClause ++ "\n      ORDER BY " ++ allRatingsOrderBy q.sortBy q.sortOrder
      ++ "\n      LIMIT " ++ placeholder (b.paramCount + 1) ++ " OFFSET "
      ++ placeholder (b.paramCount + 2) ++ "\n    ",
    b.queryParams ++ [.int q.limit, .int ((q.page - 1) * q.limit)]⟩

/-- The parameter references of a statement text, in text order: the number
written after each `$`. -/
def placeholders : List Char → List Nat
  | [] => []
  | c :: cs =>
    if c = '$' then
      (cs.takeWhile Char.isDigit).foldl (fun acc d => 10 * acc + (d.toNat - 48)) 0
        :: placeholders cs
    else placeholders cs

/-- The highest parameter reference of a statement text, 0 when it has none. -/
def highestPlaceholder (text : String) : Nat :=
  (placeholders text.data).foldl max 0

/-- The numbers `1, …, k`. -/
def upTo (k : Nat) : List Nat :=
  (List.range k).map (fun i => i + 1)


/-! ## frontend/src/pages/Stores.js and frontend/src/services/api.js -/

/-- The state `ratingFormData` of the rating form. -/
structure RatingFormData where
  storeId : JVal
  rating : JVal
  comment : String
deriving DecidableEq, Repr

/-- A call of the API client: the method, the URL below the base URL and the
object sent as JSON, as its key/value pairs. -/
structure ApiRequest where
  method : String
  url : String
  data : List (String × JVal)
deriving DecidableEq, Repr

/-- `ratingsAPI.submit`. -/
def ratingsAPI.submit (ratingData : List (String × JVal)) : ApiRequest :=
  ⟨"POST", "/ratings", ratingData⟩

/-- `ratingsAPI.update`. -/
def ratingsAPI.update (id : String) (ratingData : List (String × JVal)) : ApiRequest :=
  ⟨"PUT", "/ratings/" ++ id, ratingData⟩

/-- `handleRatingSubmit`: the request it sends, `none` when it returns with the
comment error. `existingRating` is the id of the existing rating, `none` for
`null`. -/
def handleRatingSubmit (ratingFormData : RatingFormData) (existingRating : Option String) :
    Option ApiRequest :=
  if ratingFormData.comment = "" ∨ jsLength ratingFormData.comment < 10
      ∨ jsLength ratingFormData.comment > 500 then none
  else
    let ratingData : List (String × JVal) :=
      [("store_id", ratingFormData.storeId), ("rating", ratingFormData.rating),
        ("comment", .str ratingFormData.comment)]
    match existingRating with
    | some id => some (ratingsAPI.update id ratingData)
    | none => some (ratingsAPI.submit ratingData)

/-- The object the server parses from the JSON text of `data`: a key whose
value is `undefined` is not written. -/
def requestBody (data : List (String × JVal)) : List (String × JVal) :=
  data.filter (fun kv => kv.2 != .undefined)

/-- `req.body[key]`: `undefined` for a key the object does not have. -/
def bodyField (body : List (String × JVal)) (key : String) : JVal :=
  (body.lookup key).getD .undefined

/-- The two fields of `req.body` that `ratingValidationRules` and the rating
handlers read. -/
def ratingBody (body : List (String × JVal)) : RatingBody :=
  ⟨.one (bodyField body "storeId"), .one (bodyField body "rating")⟩

/-! ## routes/ratings.js and the mount point in app.js -/

/-- The path of a URL: the text before `?` or `#`. -/
def pathname (url : List Char) : List Char :=
  url.takeWhile (fun c => c != '?' && c != '#')

/-- `app.use(mount, router)`: the rest of the path below the mount point,
`none` for a path that is not below it. -/
def belowMount (mount path : List Char) : Option (List Char) :=
  if mount.isPrefixOf path then
    match path.drop mount.length with
    | [] => some []
    | '/' :: rest => some ('/' :: rest)
    | _ => none
  else none

/-- Route paths match with or without one trailing slash. -/
def dropTrailingSlash (path : List Char) : List Char :=
  if path.getLast? = some '/' then path.dropLast else path

/-- The pattern `/store/:storeId`: one non-empty segment after `/store/`. -/
def isStoreParamPath (path : List Char) : Bool :=
  "/store/".data.isPrefixOf path && !(path.drop 7).isEmpty && !(path.drop 7).contains '/'

/-- The handlers of `routes/ratings.js`. -/
inductive RatingsHandler where
  | submitRating
  | updateRating
  | getMyRatings
  | getAllRatings
  | getRatingsByStore
  | deleteRating
deriving DecidableEq, Repr

/-- The routes of `routes/ratings.js` in their order: the handler of the
first route that matches the method and the path below the mount point, `none`
when no route matches. -/
def ratingsRouter (method : String) (path : List Char) : Option RatingsHandler :=
  let p := dropTrailingSlash path
  if method = "POST" ∧ p = [] then some .submitRating
  else if method = "PUT" ∧ p = [] then some .updateRating
  else if method = "GET" ∧ p = "/my-ratings".data then some .getMyRatings
  else if method = "GET" ∧ p = "/all".data then some .getAllRatings
  else if method = "GET" ∧ isStoreParamPath p = true then some .getRatingsByStore
  else if method = "DELETE" ∧ isStoreParamPath p = true then some .deleteRating
  else none

/-- The handler that a request of the API client reaches in the ratings
router, mounted at `/ratings` below the base URL; `none` when the request
falls through to the 404 handler of `app.js`. Mount point and route paths
match without regard to letter case, so the path is compared in lower case. -/
def ratingsEndpoint (request : ApiRequest) : Option RatingsHandler :=
  (belowMount "/ratings".data ((pathname request.url.data).map Char.toLower)).bind
    (ratingsRouter request.method)


/-! ## utils/validation.js: `userValidationRules`, and `PUT /users/:id` -/

/-- A body field that is absent, a string, or an array of strings. Other JSON
values are not modelled. -/
inductive TextField where
  | absent
  | text (s : String)
  | texts (elems : List String)
deriving DecidableEq, Repr

/-- The texts a validator of a chain is run on: the field written as text
(the empty text for an absent field), or each element of an array; an empty
array is checked by no run. -/
def TextField.values : TextField → List String
  | .absent => [""]
  | .text s => [s]
  | .texts elems => elems

/-- Body of `PUT /users/:id`: `name`, `email`, `address` and `role` as the
strings the body carries (other shapes of these four are not modelled), and
the `password` field. -/
structure UserBody where
  name : String
  email : String
  password : TextField
  address : String
  role : String
deriving DecidableEq, Repr

/-- The length `.isLength()` compares: characters, not counting the variation
selectors U+FE0E and U+FE0F. -/
def validatorLength (s : String) : Nat :=
  (s.data.filter (fun c => c.toNat != 65038 && c.toNat != 65039)).length

/-- Line terminators, which `.` of a regular expression does not match. -/
def isLineTerminator (c : Char) : Bool :=
  c.toNat = 10 || c.toNat = 13 || c.toNat = 8232 || c.toNat = 8233

/-- The pattern
`/^(?=.*[A-Z])(?=.*[!@#$%^&*()_+\-=\[\]{};':"\\|,.<>\/?])/`: from the start
of the text, an uppercase letter and a special character are each reachable
over characters that are not line terminators. -/
def passwordPattern (password : String) : Bool :=
  let reachable := password.data.takeWhile (fun c => !isLineTerminator c)
  reachable.any isUpperAZ && reachable.any (fun c => specialChars.contains c)

/-- `userValidationRules()`: the messages of the failed checks, for the
password one for each value that fails. -/
def userValidationRules (lib : EmailLib) (body : UserBody) : List String :=
  (if 20 ≤ validatorLength body.name ∧ validatorLength body.name ≤ 60 then []
    else ["Name must be between 20 and 60 characters"]) ++
  (if lib.isEmail body.email then [] else ["Please provide a valid email"]) ++
  ((body.password.values.filter
      (fun p => !(decide (8 ≤ validatorLength p) && decide (validatorLength p ≤ 16)))).map
    (fun _ => "Password must be between 8 and 16 characters")) ++
  ((body.password.values.filter (fun p => !passwordPattern p)).map
    (fun _ =>
      "Password must contain at least one uppercase letter and one special character")) ++
  (if validatorLength body.address ≤ 400 then []
    else ["Address must not exceed 400 characters"])

/-- `router.put('/:id', userValidationRules(), validate, updateUser)` behind
the two gates of the router. -/
def putUser (lib : EmailLib) (db : Db) (env : Env) (id : String) (body : UserBody) :
    Res (Option UserUpdated) × Db :=
  match validate (userValidationRules lib body) with
  | some answer => (answer, db)
  | none => updateUser db env id body.name (lib.normalizeEmail body.email) body.address body.role

/-- The text is a password as the rules describe it: 8 to 16 characters
(variation selectors not counted), an uppercase letter and a special character
among them. -/
def IsStrongPassword (password : String) : Prop :=
  8 ≤ validatorLength password ∧ validatorLength password ≤ 16
    ∧ password.data.any isUpperAZ = true
    ∧ password.data.any (fun c => specialChars.contains c) = true

/-- The body value is the integer `n`: the JSON number `n`, or a string
spelling `n` in decimal with an optional sign. -/
def IsInteger (v : JVal) (n : Int) : Prop :=
  v = .num n ∨ ∃ s : String, v = .str s ∧ intText s.data = some n

/-- Every stored rating value lies in 1..5. -/
def RatingsInRange (rs : List Rating) : Prop :=
  ∀ r ∈ rs, 1 ≤ r.rating ∧ r.rating ≤ 5

/-- What a store row reports about the ratings of store `id`: the count is the
number of its rating rows; with no rating the average shown is 0; otherwise
the average shown (in tenths) is within 0.05 of the mean, that is, the mean
rounded to one decimal. -/
def ReportsStore (db : Db) (id : String) (average_rating : Int) (total_ratings : Nat) : Prop :=
  total_ratings = (db.ratings.filter (fun r => id == r.store_id)).length ∧
  (total_ratings = 0 → average_rating = 0) ∧
  (0 < total_ratings →
    |(average_rating : ℚ) / 10 - meanRating (db.ratings.filter (fun r => id == r.store_id))|
      ≤ 1 / 20)

/-! ## A small database used to exercise the statements -/

/-- Three users, one of each role. -/
def sampleUsers : List User :=
  [⟨"u1", "Alice", "alice@x.io", "h1", "1 Main St", "user", 1, 1⟩,
   ⟨"u2", "Bob", "bob@x.io", "h2", "2 Main St", "admin", 2, 2⟩,
   ⟨"u3", "Carol", "carol@x.io", "h3", "3 Main St", "store_owner", 3, 3⟩]

/-- Two stores owned by `u3`. -/
def sampleStores : List Store :=
  [⟨"s1", "Shop", "shop@x.io", "4 Main St", "u3", 4, 4⟩,
   ⟨"s2", "Market", "market@x.io", "5 Main St", "u3", 5, 5⟩]

/-- User `u1` has rated store `s1` with 3; store `s2` has no rating. -/
def sampleDb : Db :=
  ⟨sampleUsers, sampleStores, [⟨"r1", "u1", "s1", 3, 6, 6⟩]⟩

/-- The sample users with one store whose id is a UUID, and no rating. -/
def uuidStoreDb : Db :=
  ⟨sampleUsers,
    [⟨"123e4567-e89b-12d3-a456-426614174000", "Shop", "shop@x.io", "4 Main St", "u3", 4, 4⟩], []⟩

/-- Store `s1` rated 1, 1 and 2 by the three users; store `s2` unrated. -/
def thirdsDb : Db :=
  ⟨sampleUsers, sampleStores,
    [⟨"r1", "u1", "s1", 1, 6, 6⟩, ⟨"r2", "u2", "s1", 1, 7, 7⟩, ⟨"r3", "u3", "s1", 2, 8, 8⟩]⟩

/-- Twenty-five user rows `u0 … u24`. -/
def twentyFiveUsers : Db :=
  ⟨(List.range 25).map (fun i =>
      ⟨String.mk ['u', Char.ofNat (48 + i / 10), Char.ofNat (48 + i % 10)], "Name", "mail@x.io",
        "h", "Street", "user", i, i⟩),
    [], []⟩

/-- A stand-in for the e-mail functions of the validator library: an address
holds an `@`, and normalising lower-cases it. -/
def sampleEmailLib : EmailLib :=
  ⟨fun e => e.data.contains '@', toLowerCase⟩

/-- Run `deleteUser` for each id in turn. -/
def deleteUsers (db : Db) (ids : List String) : Db :=
  ids.foldl (fun d id => (deleteUser d id).2) db

/-- A token library that accepts exactly the token `tok-u1` (of user `u1`) and
throws on every other text. -/
def sampleVerifyToken (token : String) : Option TokenPayload :=
  if token = "tok-u1" then some ⟨"u1", "alice@x.io", "user"⟩ else none

/-- Seven stores: `t1` rated 5 and 3, `t2` rated 4, `t3` rated 4 and 4, `t4`
rated 2, `t5`, `t6` and `t7` unrated. -/
def sevenStoresDb : Db :=
  ⟨sampleUsers,
    [⟨"t1", "One", "one@x.io", "1 High St", "u3", 1, 1⟩,
     ⟨"t2", "Two", "two@x.io", "2 High St", "u3", 2, 2⟩,
     ⟨"t3", "Three", "three@x.io", "3 High St", "u3", 3, 3⟩,
     ⟨"t4", "Four", "four@x.io", "4 High St", "u3", 4, 4⟩,
     ⟨"t5", "Five", "five@x.io", "5 High St", "u3", 5, 5⟩,
     ⟨"t6", "Six", "six@x.io", "6 High St", "u3", 6, 6⟩,
     ⟨"t7", "Seven", "seven@x.io", "7 High St", "u3", 7, 7⟩],
    [⟨"q1", "u1", "t1", 5, 10, 10⟩, ⟨"q2", "u2", "t1", 3, 11, 11⟩,
     ⟨"q3", "u1", "t2", 4, 12, 12⟩,
     ⟨"q4", "u1", "t3", 4, 13, 13⟩, ⟨"q5", "u2", "t3", 4, 14, 14⟩,
     ⟨"q6", "u1", "t4", 2, 15, 15⟩]⟩

/-- A calendar with months of 30 time units and the cut-off at time 0. -/
def sampleCalendar : Calendar :=
  ⟨fun t => t / 30, 0⟩

/-- Owner `u3` has two stores that are both named `Shop`; each has one rating
of 5. -/
def twinStoresDb : Db :=
  ⟨sampleUsers,
    [⟨"d1", "Shop", "north@x.io", "1 North St", "u3", 1, 1⟩,
     ⟨"d2", "Shop", "south@x.io", "2 South St", "u3", 2, 2⟩],
    [⟨"e1", "u1", "d1", 5, 10, 10⟩, ⟨"e2", "u2", "d2", 5, 11, 11⟩]⟩

/-- Stand-ins for the hash and token libraries: the hash puts `#` before the
password, the token of a payload is `tok-` followed by the user id. -/
def sampleAuthLib : AuthLib :=
  { hash := fun p => "#" ++ p,
    compare := fun p h => h == "#" ++ p,
    generateToken := fun t => "tok-" ++ t.userId,
    verifyToken := sampleVerifyToken }

/-- The third statement of a handler raises a duplicate-key violation. -/
def raiseThird : Nat → Option String :=
  fun k => if k = 3 then some "23505" else none

/-- The second statement of a handler raises a duplicate-key violation. -/
def raiseSecond : Nat → Option String :=
  fun k => if k = 2 then some "23505" else none

/-- The fourth statement of a handler raises a duplicate-key violation. -/
def raiseFourth : Nat → Option String :=
  fun k => if k = 4 then some "23505" else none

/-- A registration form within every stated limit: a name of 25 characters, a
password of 12 characters with an uppercase letter and `!`, a short address. -/
def validRegisterForm : RegisterForm :=
  ⟨"Alexander Hamilton Junior", "alex@x.io", "Secret!Pass1", "1 Main St"⟩

/-- Stand-ins for the libraries with a token that can be decoded: the token is
`tok-` followed by the user id, and decoding reads the id back. -/
def decodingAuthLib : AuthLib :=
  { hash := fun p => "#" ++ p,
    compare := fun p h => h == "#" ++ p,
    generateToken := fun t => "tok-" ++ t.userId,
    verifyToken := fun token => some ⟨String.mk (token.data.drop 4), "", ""⟩ }

/-- The sample database with other stored password hashes. -/
def rehashedDb : Db :=
  { sampleDb with users := sampleDb.users.map (fun u => { u with password := "x-" ++ u.id }) }


/-- The third statement of a handler raises a check-constraint violation. -/
def raiseCheckThird : Nat → Option String :=
  fun k => if k = 3 then some "23514" else none


/-- A token library whose tokens carry an e-mail and a role: two tokens name
user `u1`, one with the stored e-mail and role, one with another e-mail and
the role `admin`. -/
def carryingVerifyToken (token : String) : Option TokenPayload :=
  if token = "tok-u1-user" then some ⟨"u1", "alice@x.io", "user"⟩
  else if token = "tok-u1-admin" then some ⟨"u1", "root@x.io", "admin"⟩
  else none


/-- A filled rating form: a store id that is a UUID, the rating 4 and a
comment of 18 characters. -/
def filledRatingForm : RatingFormData :=
  ⟨.str "123e4567-e89b-12d3-a456-426614174000", .num 4, "A fine shop indeed"⟩


/-- A body of `PUT /users/:id` that passes `userValidationRules` and carries
the role `superuser`. -/
def superuserBody : UserBody :=
  ⟨"Alexander Hamilton Junior", "alice@x.io", .text "Secret!Pass1", "1 Main St", "superuser"⟩


/-! ## Theorems -/

theorem filter_key_map_update (rs : List Rating) (hit : Rating → Bool) (n : Int) (t : Nat)
    (u s : String) :
    (rs.map (fun r => if hit r then { r with rating := n, updated_at := t } else r)).filter
        (fun r => r.user_id == u && r.store_id == s)
      = (rs.filter (fun r => r.user_id == u && r.store_id == s)).map
        (fun r => if hit r then { r with rating := n, updated_at := t } else r) := by
  induction rs with
  | nil => rfl
  | cons r rs ih =>
    by_cases hr : hit r <;> by_cases hk : (r.user_id == u && r.store_id == s) = true <;>
      simp_all [List.filter_cons]

theorem uniquePairs_submit (db : Db) (env : Env) (userId : String) (storeId : Option String)
    (rating : Option Int) (h : UniquePairs db.ratings) :
    UniquePairs (submitRating db env userId storeId rating).2.ratings := by
  unfold submitRating
  simp only
  split
  · exact h
  · split
    · exact h
    · rename_i hfree
      rcases storeId with _ | sid
      · exact h
      · rcases rating with _ | n
        · exact h
        · intro u s
          have hnone :
              db.ratings.filter (fun r => r.user_id == userId && r.store_id == sid) = [] := by
            have : (existingRating db userId (some sid)).length = 0 := by omega
            simpa [existingRating, sqlEq] using this
          simp only [List.filter_append, List.length_append]
          by_cases hk : (userId == u && sid == s) = true
          · have hu : userId = u := by simp_all
            have hs : sid = s := by simp_all
            subst hu; subst hs
            rw [hnone]; simp [List.filter_cons]
          · have := h u s
            simp only [List.filter_cons, hk]
            simpa using this

theorem uniquePairs_update (db : Db) (env : Env) (userId : String) (storeId : Option String)
    (rating : Option Int) (h : UniquePairs db.ratings) :
    UniquePairs (updateRating db env userId storeId rating).2.ratings := by
  unfold updateRating
  simp only
  split
  · exact h
  · split
    · intro u s
      rw [filter_key_map_update, List.length_map]
      exact h u s
    · exact h

theorem uniquePairs_delete (db : Db) (userId storeId : String) (h : UniquePairs db.ratings) :
    UniquePairs (deleteRating db userId storeId).2.ratings := by
  unfold deleteRating
  simp only
  split
  · exact h
  · intro u s
    exact le_trans ((List.filter_sublist _).filter _).length_le (h u s)

/-- C1: each of `submitRating`, `updateRating` and `deleteRating`, run on a
database whose ratings table has at most one row per `(user_id, store_id)`
pair, leaves a ratings table with the same property, for every caller and
every request body. -/
theorem C1_ratings_ops_preserve_unique_pairs (db : Db) (env : Env) (userId : String)
    (storeId : Option String) (rating : Option Int) (paramStoreId : String)
    (h : UniquePairs db.ratings) :
    UniquePairs (submitRating db env userId storeId rating).2.ratings ∧
    UniquePairs (updateRating db env userId storeId rating).2.ratings ∧
    UniquePairs (deleteRating db userId paramStoreId).2.ratings :=
  ⟨uniquePairs_submit db env userId storeId rating h,
   uniquePairs_update db env userId storeId rating h,
   uniquePairs_delete db userId paramStoreId h⟩

theorem existingRating_length_pos (db : Db) (U S : String)
    (h : ∃ r ∈ db.ratings, r.user_id = U ∧ r.store_id = S) :
    (existingRating db U (some S)).length > 0 := by
  obtain ⟨r, hr, hu, hs⟩ := h
  apply List.length_pos_of_mem (a := r)
  simp [existingRating, sqlEq, List.mem_filter, hr, hu, hs]

theorem existingRating_eq_nil (db : Db) (U : String) (S : Option String)
    (h : ∀ r ∈ db.ratings, ¬ (r.user_id = U ∧ some r.store_id = S)) :
    existingRating db U S = [] := by
  rw [existingRating, List.filter_eq_nil_iff]
  intro r hr
  have := h r hr
  cases S with
  | none => simp [sqlEq]
  | some S => simpa [sqlEq] using this

theorem storeCheck_length_pos (db : Db) (S : String) (h : ∃ s ∈ db.stores, s.id = S) :
    ¬ (db.stores.filter (fun s => sqlEq s.id (some S))).length = 0 := by
  obtain ⟨s, hs, hid⟩ := h
  have : (db.stores.filter (fun s => sqlEq s.id (some S))).length > 0 := by
    apply List.length_pos_of_mem (a := s)
    simp [sqlEq, List.mem_filter, hs, hid]
  omega

theorem submitRating_conflict (db : Db) (env : Env) (U S : String) (rating : Option Int)
    (hS : ∃ s ∈ db.stores, s.id = S)
    (hR : ∃ r ∈ db.ratings, r.user_id = U ∧ r.store_id = S) :
    (submitRating db env U (some S) rating).1.status = 409 ∧
      (submitRating db env U (some S) rating).2 = db := by
  have h1 := storeCheck_length_pos db S hS
  have h2 := existingRating_length_pos db U S hR
  simp [submitRating, h1, h2]

theorem submitRating_created (db : Db) (env : Env) (U S : String) (n : Int)
    (hS : ∃ s ∈ db.stores, s.id = S)
    (hR : ∀ r ∈ db.ratings, ¬ (r.user_id = U ∧ r.store_id = S)) :
    submitRating db env U (some S) (some n) =
      (⟨201, .ok ⟨env.newId, n, env.now⟩⟩,
        { db with ratings := db.ratings ++ [⟨env.newId, U, S, n, env.now, env.now⟩] }) := by
  have h1 := storeCheck_length_pos db S hS
  have h2 : existingRating db U (some S) = [] :=
    existingRating_eq_nil db U (some S) (by simpa using hR)
  simp [submitRating, h1, h2]

/-- C2: when store `S` exists and a rating row of `(U, S)` exists, `submitRating`
by `U` for `S` answers 409 and leaves the database as it was; hence, when `S`
exists, whatever a first submit with an integer rating answers, a second submit
for the same pair answers 409 and changes nothing. When no store has id `S`
the answer is 404 and the database is unchanged. -/
theorem C2_submit_conflict_and_not_found (db : Db) (env env2 : Env) (U S : String)
    (rating rating2 : Option Int) (n : Int) :
    ((∃ s ∈ db.stores, s.id = S) → (∃ r ∈ db.ratings, r.user_id = U ∧ r.store_id = S) →
      (submitRating db env U (some S) rating).1.status = 409 ∧
      (submitRating db env U (some S) rating).2 = db) ∧
    ((∃ s ∈ db.stores, s.id = S) →
      (submitRating (submitRating db env U (some S) (some n)).2 env2 U (some S) rating2).1.status
        = 409 ∧
      (submitRating (submitRating db env U (some S) (some n)).2 env2 U (some S) rating2).2
        = (submitRating db env U (some S) (some n)).2) ∧
    ((∀ s ∈ db.stores, s.id ≠ S) →
      (submitRating db env U (some S) rating).1.status = 404 ∧
      (submitRating db env U (some S) rating).2 = db) := by
  refine ⟨submitRating_conflict db env U S rating, ?_, ?_⟩
  · intro hS
    by_cases hR : ∃ r ∈ db.ratings, r.user_id = U ∧ r.store_id = S
    · have h := submitRating_conflict db env U S (some n) hS hR
      rw [h.2]
      exact submitRating_conflict db env2 U S rating2 hS hR
    · have hR2 : ∀ r ∈ db.ratings, ¬ (r.user_id = U ∧ r.store_id = S) := by
        intro r hr hc; exact hR ⟨r, hr, hc⟩
      rw [submitRating_created db env U S n hS hR2]
      apply submitRating_conflict
      · exact hS
      · exact ⟨⟨env.newId, U, S, n, env.now, env.now⟩, by simp, rfl, rfl⟩
  · intro hS
    have : db.stores.filter (fun s => sqlEq s.id (some S)) = [] := by
      rw [List.filter_eq_nil_iff]
      intro s hs
      simpa [sqlEq] using hS s hs
    simp [submitRating, this]

theorem updateRating_ratings (db : Db) (env : Env) (U S : String) (n : Int)
    (hR : ∃ r ∈ db.ratings, r.user_id = U ∧ r.store_id = S) :
    (updateRating db env U (some S) (some n)).1.status = 200 ∧
    (updateRating db env U (some S) (some n)).2 =
      { db with ratings := db.ratings.map (fun r =>
          if (r.user_id == U && sqlEq r.store_id (some S)) = true
          then { r with rating := n, updated_at := env.now } else r) } := by
  have h2 := existingRating_length_pos db U S hR
  have h3 : ¬ (existingRating db U (some S)).length = 0 := by omega
  simp [updateRating, h3]

/-- C3: when no rating row of `(U, S)` exists, `updateRating` answers 404 and
the database is unchanged. When such a row exists (and the rating is an
integer `n`) it answers 200, the users and stores tables are unchanged, the
ratings table keeps its length, and at every position the row keeps its id,
user, store and creation time; a row of another pair is unchanged altogether
and a row of `(U, S)` gets rating `n` and `updated_at` set to now. -/
theorem C3_update_not_found_or_in_place (db : Db) (env : Env) (U S : String)
    (rating : Option Int) (n : Int) :
    ((∀ r ∈ db.ratings, ¬ (r.user_id = U ∧ r.store_id = S)) →
      (updateRating db env U (some S) rating).1.status = 404 ∧
      (updateRating db env U (some S) rating).2 = db) ∧
    ((∃ r ∈ db.ratings, r.user_id = U ∧ r.store_id = S) →
      (updateRating db env U (some S) (some n)).1.status = 200 ∧
      (updateRating db env U (some S) (some n)).2.users = db.users ∧
      (updateRating db env U (some S) (some n)).2.stores = db.stores ∧
      (updateRating db env U (some S) (some n)).2.ratings.length = db.ratings.length ∧
      ∀ (i : Nat) (old : Rating), db.ratings[i]? = some old →
        ∃ new, (updateRating db env U (some S) (some n)).2.ratings[i]? = some new ∧
          new.id = old.id ∧ new.user_id = old.user_id ∧ new.store_id = old.store_id ∧
          new.created_at = old.created_at ∧
          (¬ (old.user_id = U ∧ old.store_id = S) → new = old) ∧
          ((old.user_id = U ∧ old.store_id = S) →
            new.rating = n ∧ new.updated_at = env.now)) := by
  constructor
  · intro hR
    have h2 : existingRating db U (some S) = [] :=
      existingRating_eq_nil db U (some S) (by simpa using hR)
    simp [updateRating, h2]
  · intro hR
    obtain ⟨hst, hdb⟩ := updateRating_ratings db env U S n hR
    rw [hdb]
    refine ⟨hst, rfl, rfl, by simp, ?_⟩
    intro i old hold
    simp only [List.getElem?_map, hold, Option.map_some']
    by_cases hk : old.user_id = U ∧ old.store_id = S
    · refine ⟨_, rfl, ?_⟩
      simp [sqlEq, hk]
    · refine ⟨_, rfl, ?_⟩
      have : ¬ ((old.user_id == U && sqlEq old.store_id (some S)) = true) := by
        simpa [sqlEq] using hk
      simp [this, hk]

theorem orderBy_perm {α : Type} (le : α → α → Bool) (direction : String) (rows : List α) :
    (orderBy le direction rows).Perm rows := by
  unfold orderBy
  split <;> exact List.perm_insertionSort _ _

theorem limitOffset_all {α : Type} (limit : Nat) (rows : List α) (h : rows.length ≤ limit) :
    limitOffset limit 0 rows = rows := by
  simp [limitOffset, List.take_of_length_le h]

theorem filter_rater_joinUsers (users : List User) (A : String) (rs : List Rating) :
    (rs.flatMap (fun r => (users.filter (fun u => r.user_id == u.id)).map (fun u => (r, u)))).filter
        (fun p => p.1.user_id == A)
      = (rs.filter (fun r => r.user_id == A)).flatMap
          (fun r => (users.filter (fun u => r.user_id == u.id)).map (fun u => (r, u))) := by
  induction rs with
  | nil => rfl
  | cons r rs ih =>
    simp only [List.flatMap_cons, List.filter_append, ih]
    by_cases hr : (r.user_id == A) = true
    · simp [List.filter_cons, hr, List.filter_map, Function.comp_def]
    · simp [List.filter_cons, hr, List.filter_map, Function.comp_def]

theorem submit_then_update_ratings (db : Db) (env1 env2 : Env) (A S : String)
    (hS : ∃ s ∈ db.stores, s.id = S)
    (hR : ∀ r ∈ db.ratings, ¬ (r.user_id = A ∧ r.store_id = S)) :
    ((ratingsOfStore
        (updateRating (submitRating db env1 A (some S) (some 4)).2 env2 A (some S) (some 2)).2
        S).filter (fun r => r.user_id == A))
      = [⟨env1.newId, A, S, 2, env1.now, env2.now⟩] ∧
    (updateRating (submitRating db env1 A (some S) (some 4)).2 env2 A (some S) (some 2)).2.users
      = db.users := by
  rw [submitRating_created db env1 A S 4 hS hR]
  have hex : ∃ r ∈ (db.ratings ++ [(⟨env1.newId, A, S, 4, env1.now, env1.now⟩ : Rating)]),
      r.user_id = A ∧ r.store_id = S :=
    ⟨⟨env1.newId, A, S, 4, env1.now, env1.now⟩, by simp, rfl, rfl⟩
  have hupd := (updateRating_ratings
    { db with ratings := db.ratings ++ [⟨env1.newId, A, S, 4, env1.now, env1.now⟩] }
    env2 A S 2 hex).2
  rw [hupd]
  refine ⟨?_, rfl⟩
  have hnone : db.ratings.filter (fun r => r.user_id == A && r.store_id == S) = [] := by
    rw [List.filter_eq_nil_iff]
    intro r hr
    simpa using hR r hr
  simp only [ratingsOfStore, List.filter_filter]
  rw [filter_key_map_update, List.filter_append, hnone]
  simp [sqlEq]

/-- C4: when store `S` exists and `A` has no rating of `S`, after
`submitRating(S, 4)` and `updateRating(S, 2)` by `A` the ratings that
`getRatingsByStore(S)` selects (`WHERE r.store_id = S`) hold exactly one row of
`A`, with rating 2. When `A` has one user row and the first page is large
enough for all rows of the store, the answer is 200 and the page holds exactly
one row of `A`, with rating 2. -/
theorem C4_submit_update_then_list (db : Db) (env1 env2 : Env) (A S : String) (a : User)
    (q : PageQuery)
    (hS : ∃ s ∈ db.stores, s.id = S)
    (hR : ∀ r ∈ db.ratings, ¬ (r.user_id = A ∧ r.store_id = S)) :
    ((ratingsOfStore
        (updateRating (submitRating db env1 A (some S) (some 4)).2 env2 A (some S) (some 2)).2
        S).filter (fun r => r.user_id == A))
      = [⟨env1.newId, A, S, 2, env1.now, env2.now⟩] ∧
    (db.users.filter (fun u => A == u.id) = [a] → q.page = 1 →
      ((ratingsJoinUsers
        (updateRating (submitRating db env1 A (some S) (some 4)).2 env2 A (some S) (some 2)).2
        S).length : Int) ≤ q.limit →
      (getRatingsByStore
        (updateRating (submitRating db env1 A (some S) (some 4)).2 env2 A (some S) (some 2)).2
        S q).status = 200 ∧
      (ratingsByStorePage
        (updateRating (submitRating db env1 A (some S) (some 4)).2 env2 A (some S) (some 2)).2
        S q).filter (fun p => p.1.user_id == A)
        = [(⟨env1.newId, A, S, 2, env1.now, env2.now⟩, a)]) := by
  obtain ⟨hrows, husers⟩ := submit_then_update_ratings db env1 env2 A S hS hR
  refine ⟨hrows, ?_⟩
  intro hA hpage hlimit
  generalize
    (updateRating (submitRating db env1 A (some S) (some 4)).2 env2 A (some S) (some 2)).2 = db2
    at hrows husers hlimit ⊢
  have hlim0 : (0 : Int) ≤ q.limit := le_trans (Int.ofNat_nonneg _) hlimit
  constructor
  · have : ¬ (q.limit < 0 ∨ (q.page - 1) * q.limit < 0) := by
      rw [hpage]; simp; exact hlim0
    simp [getRatingsByStore, this]
  · have hjoin : (ratingsJoinUsers db2 S).filter (fun p => p.1.user_id == A)
        = [(⟨env1.newId, A, S, 2, env1.now, env2.now⟩, a)] := by
      unfold ratingsJoinUsers
      rw [filter_rater_joinUsers, hrows, husers]
      simp [hA]
    have hlen : (ratingsJoinUsers db2 S).length ≤ q.limit.toNat := by omega
    unfold ratingsByStorePage
    simp only [hpage, sub_self, zero_mul, Int.toNat_zero]
    split
    · rw [limitOffset_all _ _ (by rw [(orderBy_perm _ _ _).length_eq]; exact hlen)]
      exact List.perm_singleton.mp (hjoin ▸ (orderBy_perm _ _ _).filter _)
    · rw [limitOffset_all _ _ (by rw [(orderBy_perm _ _ _).length_eq]; exact hlen)]
      exact List.perm_singleton.mp (hjoin ▸ (orderBy_perm _ _ _).filter _)

theorem uniquePairs_sampleDb : UniquePairs sampleDb.ratings := by
  intro u s
  simp only [sampleDb, List.filter_cons, List.filter_nil]
  split <;> simp

/-- C1 on the sample database, for a request of user `u2` about store `s1`. -/
theorem C1_witness :
    UniquePairs sampleDb.ratings ∧
    UniquePairs (submitRating sampleDb ⟨"r2", 7⟩ "u2" (some "s1") (some 5)).2.ratings ∧
    UniquePairs (updateRating sampleDb ⟨"r2", 7⟩ "u2" (some "s1") (some 5)).2.ratings ∧
    UniquePairs (deleteRating sampleDb "u2" "s1").2.ratings :=
  ⟨uniquePairs_sampleDb,
   C1_ratings_ops_preserve_unique_pairs sampleDb ⟨"r2", 7⟩ "u2" (some "s1") (some 5) "s1"
     uniquePairs_sampleDb⟩

/-- C2 on the sample database: `u1` has rated `s1` (409), `u2` submits twice
(409 the second time), and store `s9` does not exist (404). -/
theorem C2_witness :
    ((submitRating sampleDb ⟨"r2", 7⟩ "u1" (some "s1") (some 5)).1.status = 409 ∧
      (submitRating sampleDb ⟨"r2", 7⟩ "u1" (some "s1") (some 5)).2 = sampleDb) ∧
    ((submitRating (submitRating sampleDb ⟨"r2", 7⟩ "u2" (some "s1") (some 4)).2 ⟨"r3", 8⟩ "u2"
        (some "s1") (some 5)).1.status = 409) ∧
    ((submitRating sampleDb ⟨"r2", 7⟩ "u1" (some "s9") (some 5)).1.status = 404 ∧
      (submitRating sampleDb ⟨"r2", 7⟩ "u1" (some "s9") (some 5)).2 = sampleDb) :=
  ⟨(C2_submit_conflict_and_not_found sampleDb ⟨"r2", 7⟩ ⟨"r3", 8⟩ "u1" "s1" (some 5) (some 5) 4).1
      ⟨⟨"s1", "Shop", "shop@x.io", "4 Main St", "u3", 4, 4⟩, by simp [sampleDb, sampleStores], rfl⟩
      ⟨⟨"r1", "u1", "s1", 3, 6, 6⟩, by simp [sampleDb], rfl, rfl⟩,
   ((C2_submit_conflict_and_not_found sampleDb ⟨"r2", 7⟩ ⟨"r3", 8⟩ "u2" "s1" (some 5) (some 5)
      4).2.1
      ⟨⟨"s1", "Shop", "shop@x.io", "4 Main St", "u3", 4, 4⟩, by simp [sampleDb, sampleStores],
        rfl⟩).1,
   (C2_submit_conflict_and_not_found sampleDb ⟨"r2", 7⟩ ⟨"r3", 8⟩ "u1" "s9" (some 5) (some 5)
      4).2.2 (by simp [sampleDb, sampleStores])⟩

/-- C3 on the sample database: `u2` has no rating of `s1` (404); `u1` has one
(200, still one row). -/
theorem C3_witness :
    ((updateRating sampleDb ⟨"r2", 7⟩ "u2" (some "s1") (some 5)).1.status = 404 ∧
      (updateRating sampleDb ⟨"r2", 7⟩ "u2" (some "s1") (some 5)).2 = sampleDb) ∧
    ((updateRating sampleDb ⟨"r2", 7⟩ "u1" (some "s1") (some 5)).1.status = 200 ∧
      (updateRating sampleDb ⟨"r2", 7⟩ "u1" (some "s1") (some 5)).2.ratings.length = 1) :=
  ⟨(C3_update_not_found_or_in_place sampleDb ⟨"r2", 7⟩ "u2" "s1" (some 5) 5).1
      (by simp [sampleDb]),
   ((C3_update_not_found_or_in_place sampleDb ⟨"r2", 7⟩ "u1" "s1" (some 5) 5).2
      ⟨⟨"r1", "u1", "s1", 3, 6, 6⟩, by simp [sampleDb], rfl, rfl⟩).1,
   ((C3_update_not_found_or_in_place sampleDb ⟨"r2", 7⟩ "u1" "s1" (some 5) 5).2
      ⟨⟨"r1", "u1", "s1", 3, 6, 6⟩, by simp [sampleDb], rfl, rfl⟩).2.2.2.1⟩

/-- C4 on the sample database with `A = u1` and the unrated store `s2`. -/
theorem C4_witness :
    (ratingsOfStore
      (updateRating (submitRating sampleDb ⟨"r2", 7⟩ "u1" (some "s2") (some 4)).2 ⟨"r3", 8⟩ "u1"
        (some "s2") (some 2)).2 "s2").filter (fun r => r.user_id == "u1")
      = [⟨"r2", "u1", "s2", 2, 7, 8⟩] ∧
    (getRatingsByStore
      (updateRating (submitRating sampleDb ⟨"r2", 7⟩ "u1" (some "s2") (some 4)).2 ⟨"r3", 8⟩ "u1"
        (some "s2") (some 2)).2 "s2" ⟨1, 10, "created_at", "desc"⟩).status = 200 ∧
    (ratingsByStorePage
      (updateRating (submitRating sampleDb ⟨"r2", 7⟩ "u1" (some "s2") (some 4)).2 ⟨"r3", 8⟩ "u1"
        (some "s2") (some 2)).2 "s2" ⟨1, 10, "created_at", "desc"⟩).filter
        (fun p => p.1.user_id == "u1")
      = [(⟨"r2", "u1", "s2", 2, 7, 8⟩,
          ⟨"u1", "Alice", "alice@x.io", "h1", "1 Main St", "user", 1, 1⟩)] :=
  ⟨(C4_submit_update_then_list sampleDb ⟨"r2", 7⟩ ⟨"r3", 8⟩ "u1" "s2"
      ⟨"u1", "Alice", "alice@x.io", "h1", "1 Main St", "user", 1, 1⟩
      ⟨1, 10, "created_at", "desc"⟩
      ⟨⟨"s2", "Market", "market@x.io", "5 Main St", "u3", 5, 5⟩,
        by simp [sampleDb, sampleStores], rfl⟩
      (by simp [sampleDb])).1,
   (C4_submit_update_then_list sampleDb ⟨"r2", 7⟩ ⟨"r3", 8⟩ "u1" "s2"
      ⟨"u1", "Alice", "alice@x.io", "h1", "1 Main St", "user", 1, 1⟩
      ⟨1, 10, "created_at", "desc"⟩
      ⟨⟨"s2", "Market", "market@x.io", "5 Main St", "u3", 5, 5⟩,
        by simp [sampleDb, sampleStores], rfl⟩
      (by simp [sampleDb])).2 (by decide) rfl (by decide)⟩

theorem isInt_false_of_not_integer (v : JVal)
    (h : ∀ n : Int, IsInteger v n → ¬ (1 ≤ n ∧ n ≤ 5)) : isInt 1 5 v = false := by
  unfold isInt
  cases hv : intOf v with
  | none => rfl
  | some n =>
    have hn : IsInteger v n := by
      cases v with
      | num m => left; simp [intOf] at hv; rw [hv]
      | str s => right; exact ⟨s, rfl, by simpa [intOf] using hv⟩
      | undefined => simp [intOf] at hv
      | null => simp [intOf] at hv
      | bool b => simp [intOf] at hv
      | real => simp [intOf] at hv
    have := h n hn
    simp only [Bool.and_eq_false_imp, decide_eq_true_eq, decide_eq_false_iff_not]
    intro h1 h2
    exact this ⟨h1, h2⟩

theorem validate_passed_rating (body : RatingBody)
    (h : validate (α := Unit) (ratingValidationRules body) = none) :
    ∀ n : Int, fieldInt body.rating = some n → 1 ≤ n ∧ n ≤ 5 := by
  intro n hn
  unfold validate ratingValidationRules at h
  cases hr : body.rating with
  | many elems => rw [hr] at hn; cases hn
  | one v =>
    rw [hr] at hn h
    have hv : intOf v = some n := hn
    by_cases hi : isInt 1 5 v = true
    · unfold isInt at hi
      rw [hv] at hi
      simpa using hi
    · simp [JField.values, hi] at h

theorem validate_none_irrel {α β : Type} (errors : List String)
    (h : validate (α := α) errors = none) : validate (α := β) errors = none := by
  unfold validate at h ⊢
  split at h
  · rename_i he; simp [he]
  · simp at h

theorem ratingsInRange_submit (db : Db) (env : Env) (U : String) (S : Option String)
    (rating : Option Int) (hn : ∀ n, rating = some n → 1 ≤ n ∧ n ≤ 5)
    (h : RatingsInRange db.ratings) :
    RatingsInRange (submitRating db env U S rating).2.ratings := by
  unfold submitRating
  simp only
  split
  · exact h
  · split
    · exact h
    · rcases S with _ | sid
      · exact h
      · rcases rating with _ | n
        · exact h
        · intro r hr
          simp only [List.mem_append, List.mem_singleton] at hr
          rcases hr with hr | hr
          · exact h r hr
          · rw [hr]; exact hn n rfl

theorem ratingsInRange_update (db : Db) (env : Env) (U : String) (S : Option String)
    (rating : Option Int) (hn : ∀ n, rating = some n → 1 ≤ n ∧ n ≤ 5)
    (h : RatingsInRange db.ratings) :
    RatingsInRange (updateRating db env U S rating).2.ratings := by
  unfold updateRating
  simp only
  split
  · exact h
  · rcases rating with _ | n
    · exact h
    · intro r hr
      simp only [List.mem_map] at hr
      obtain ⟨o, ho, rfl⟩ := hr
      split
      · exact hn n rfl
      · exact h o ho

theorem submitRating_unreadable (db : Db) (env : Env) (U : String) (S : Option String) :
    (submitRating db env U S none).2 = db := by
  unfold submitRating
  simp only
  split
  · rfl
  · split
    · rfl
    · rcases S with _ | sid <;> rfl

theorem updateRating_unreadable (db : Db) (env : Env) (U : String) (S : Option String) :
    (updateRating db env U S none).2 = db := by
  unfold updateRating
  simp only
  split <;> rfl

theorem rules_of_valid_elements (elems : List JVal) (sid : String)
    (helems : ∀ v ∈ elems, isInt 1 5 v = true) (huuid : uuidText sid.data = true) :
    ratingValidationRules ⟨.one (.str sid), .many elems⟩ = [] := by
  have hf : elems.filter (fun v => !isInt 1 5 v) = [] := by
    rw [List.filter_eq_nil_iff]
    intro v hv
    simp [helems v hv]
  have hu : isUUID (JVal.str sid) = true := huuid
  simp [ratingValidationRules, JField.values, hf, hu]

/-- C5 as stated fails: a body whose `rating` is the array `[4]`, or the empty
array, passes `ratingValidationRules`; `POST /ratings` then runs `submitRating`
for the existing, unrated store and answers 500, not 400. -/
theorem C5_counterexample :
    ratingValidationRules ⟨.one (.str "123e4567-e89b-12d3-a456-426614174000"), .many [.num 4]⟩
        = []
    ∧ ratingValidationRules ⟨.one (.str "123e4567-e89b-12d3-a456-426614174000"), .many []⟩ = []
    ∧ postRatings uuidStoreDb ⟨"r2", 7⟩ ⟨"u2", "bob@x.io", "admin"⟩
          ⟨.one (.str "123e4567-e89b-12d3-a456-426614174000"), .many [.num 4]⟩
        = (⟨500, .error "Internal server error"⟩, uuidStoreDb)
    ∧ postRatings uuidStoreDb ⟨"r2", 7⟩ ⟨"u2", "bob@x.io", "admin"⟩
          ⟨.one (.str "123e4567-e89b-12d3-a456-426614174000"), .many []⟩
        = (⟨500, .error "Internal server error"⟩, uuidStoreDb)
    ∧ postRatings uuidStoreDb ⟨"r2", 7⟩ ⟨"u2", "bob@x.io", "admin"⟩
          ⟨.one (.str "123e4567-e89b-12d3-a456-426614174000"), .one (.num 4)⟩
        = (⟨201, .ok ⟨"r2", 4, 7⟩⟩,
            { uuidStoreDb with ratings :=
                [⟨"r2", "u2", "123e4567-e89b-12d3-a456-426614174000", 4, 7, 7⟩] }) := by
  refine ⟨by decide, by decide, by decide, by decide, by decide⟩

/-- C5 (amended): on `POST /ratings` and `PUT /ratings`, a body whose `rating`
is a scalar that is not an integer in 1..5 is answered 400 `Validation failed`
without running the controller, so the database is unchanged; for every body,
arrays included, both routes keep every stored rating value in 1..5; a body
with a scalar integer rating in 1..5 and a UUID as `storeId` is handed to the
controller; and a body whose `rating` is an array of such integers (the empty
array included) passes validation too, the controller runs with a parameter
that is no integer, and nothing is written. -/
theorem C5_scalar_rating_out_of_range_rejected (db : Db) (env : Env) (user : AuthUser)
    (body : RatingBody) :
    (∀ v : JVal, body.rating = .one v → (∀ n : Int, IsInteger v n → ¬ (1 ≤ n ∧ n ≤ 5)) →
      postRatings db env user body = (⟨400, .error "Validation failed"⟩, db) ∧
      putRatings db env user body = (⟨400, .error "Validation failed"⟩, db)) ∧
    (RatingsInRange db.ratings →
      RatingsInRange (postRatings db env user body).2.ratings ∧
      RatingsInRange (putRatings db env user body).2.ratings) ∧
    (∀ (v : JVal) (n : Int) (sid : String), body.rating = .one v → IsInteger v n → 1 ≤ n →
      n ≤ 5 → body.storeId = .one (.str sid) → uuidText sid.data = true →
      postRatings db env user body = submitRating db env user.id (some sid) (some n) ∧
      putRatings db env user body = updateRating db env user.id (some sid) (some n)) ∧
    (∀ (elems : List JVal) (sid : String), body.rating = .many elems →
      (∀ v ∈ elems, isInt 1 5 v = true) →
      body.storeId = .one (.str sid) → uuidText sid.data = true →
      postRatings db env user body = submitRating db env user.id (some sid) none ∧
      putRatings db env user body = updateRating db env user.id (some sid) none ∧
      (postRatings db env user body).2 = db ∧ (putRatings db env user body).2 = db) := by
  refine ⟨?_, ?_, ?_, ?_⟩
  · intro v hv h
    have hi := isInt_false_of_not_integer v h
    simp [postRatings, putRatings, validate, ratingValidationRules, hv, JField.values, hi]
  · intro h
    constructor
    · unfold postRatings
      cases hv : validate (α := RatingReturned) (ratingValidationRules body) with
      | some a => exact h
      | none =>
        exact ratingsInRange_submit db env _ _ _
          (validate_passed_rating body (validate_none_irrel _ hv)) h
    · unfold putRatings
      cases hv : validate (α := Option RatingReturned) (ratingValidationRules body) with
      | some a => exact h
      | none =>
        exact ratingsInRange_update db env _ _ _
          (validate_passed_rating body (validate_none_irrel _ hv)) h
  · intro v n sid hv hint h1 h5 hsid huuid
    have hval : intOf v = some n := by
      rcases hint with hnum | ⟨t, ht, hparse⟩
      · rw [hnum]; rfl
      · rw [ht]; exact hparse
    have hi : isInt 1 5 v = true := by
      simp [isInt, hval, h1, h5]
    have hu : isUUID (JVal.str sid) = true := huuid
    simp [postRatings, putRatings, validate, ratingValidationRules, JField.values, hi, hu, hval,
      hv, hsid, paramText, fieldText, fieldInt]
  · intro elems sid hr helems hsid huuid
    have hbody : body = ⟨.one (.str sid), .many elems⟩ := by
      cases body
      simp only at hr hsid
      rw [hr, hsid]
    have hrules := rules_of_valid_elements elems sid helems huuid
    have hpost : postRatings db env user body
        = submitRating db env user.id (some sid) none := by
      rw [hbody]
      simp [postRatings, validate, hrules, fieldText, fieldInt, paramText]
    have hput : putRatings db env user body
        = updateRating db env user.id (some sid) none := by
      rw [hbody]
      simp [putRatings, validate, hrules, fieldText, fieldInt, paramText]
    refine ⟨hpost, hput, ?_, ?_⟩
    · rw [hpost]; exact submitRating_unreadable db env _ _
    · rw [hput]; exact updateRating_unreadable db env _ _

/-- C5 at concrete requests: the scalar rating 6 is answered 400, the sample
ratings stay in range, the rating `"4"` for a UUID store id reaches the
controllers, and the array `[4]` passes validation and writes nothing. -/
theorem C5_witness :
    (postRatings sampleDb ⟨"r2", 7⟩ ⟨"u2", "bob@x.io", "admin"⟩
        ⟨.one (.str "123e4567-e89b-12d3-a456-426614174000"), .one (.num 6)⟩
      = (⟨400, .error "Validation failed"⟩, sampleDb) ∧
     putRatings sampleDb ⟨"r2", 7⟩ ⟨"u2", "bob@x.io", "admin"⟩
        ⟨.one (.str "123e4567-e89b-12d3-a456-426614174000"), .one (.num 6)⟩
      = (⟨400, .error "Validation failed"⟩, sampleDb)) ∧
    (RatingsInRange (postRatings sampleDb ⟨"r2", 7⟩ ⟨"u2", "bob@x.io", "admin"⟩
        ⟨.one (.str "123e4567-e89b-12d3-a456-426614174000"), .one (.num 6)⟩).2.ratings ∧
     RatingsInRange (putRatings sampleDb ⟨"r2", 7⟩ ⟨"u2", "bob@x.io", "admin"⟩
        ⟨.one (.str "123e4567-e89b-12d3-a456-426614174000"), .one (.num 6)⟩).2.ratings) ∧
    (postRatings sampleDb ⟨"r2", 7⟩ ⟨"u2", "bob@x.io", "admin"⟩
        ⟨.one (.str "123e4567-e89b-12d3-a456-426614174000"), .one (.str "4")⟩
      = submitRating sampleDb ⟨"r2", 7⟩ "u2" (some "123e4567-e89b-12d3-a456-426614174000")
          (some 4) ∧
     putRatings sampleDb ⟨"r2", 7⟩ ⟨"u2", "bob@x.io", "admin"⟩
        ⟨.one (.str "123e4567-e89b-12d3-a456-426614174000"), .one (.str "4")⟩
      = updateRating sampleDb ⟨"r2", 7⟩ "u2" (some "123e4567-e89b-12d3-a456-426614174000")
          (some 4)) ∧
    (postRatings uuidStoreDb ⟨"r2", 7⟩ ⟨"u2", "bob@x.io", "admin"⟩
        ⟨.one (.str "123e4567-e89b-12d3-a456-426614174000"), .many [.num 4]⟩).2
      = uuidStoreDb :=
  ⟨(C5_scalar_rating_out_of_range_rejected sampleDb ⟨"r2", 7⟩ ⟨"u2", "bob@x.io", "admin"⟩
      ⟨.one (.str "123e4567-e89b-12d3-a456-426614174000"), .one (.num 6)⟩).1 (.num 6) rfl
      (by
        intro n hn
        rcases hn with hn | ⟨s, hs, _⟩
        · cases hn; decide
        · cases hs),
   (C5_scalar_rating_out_of_range_rejected sampleDb ⟨"r2", 7⟩ ⟨"u2", "bob@x.io", "admin"⟩
      ⟨.one (.str "123e4567-e89b-12d3-a456-426614174000"), .one (.num 6)⟩).2.1
      (by intro r hr; simp [sampleDb] at hr; subst hr; decide),
   (C5_scalar_rating_out_of_range_rejected sampleDb ⟨"r2", 7⟩ ⟨"u2", "bob@x.io", "admin"⟩
      ⟨.one (.str "123e4567-e89b-12d3-a456-426614174000"), .one (.str "4")⟩).2.2.1 (.str "4") 4
      "123e4567-e89b-12d3-a456-426614174000" rfl (Or.inr ⟨"4", rfl, by decide⟩) (by decide)
      (by decide) rfl (by decide),
   ((C5_scalar_rating_out_of_range_rejected uuidStoreDb ⟨"r2", 7⟩ ⟨"u2", "bob@x.io", "admin"⟩
      ⟨.one (.str "123e4567-e89b-12d3-a456-426614174000"), .many [.num 4]⟩).2.2.2 [.num 4]
      "123e4567-e89b-12d3-a456-426614174000" rfl (by decide) rfl (by decide)).2.2.1⟩

theorem nearestTenths_near (sum : Int) (count : Nat) (h : 0 < count) :
    |(nearestTenths sum count : ℚ) / 10 - (sum : ℚ) / (count : ℚ)| ≤ 1 / 20 := by
  have hpos : (0 : Int) < 2 * (count : Int) := by omega
  have hq : (0 : ℚ) < (count : ℚ) := by exact_mod_cast h
  unfold nearestTenths
  set n : Int := (20 * sum + (count : Int)) / (2 * (count : Int)) with hn
  have h1 : n * (2 * (count : Int)) ≤ 20 * sum + count := Int.ediv_mul_le _ (by omega)
  have h2 : 20 * sum + count < (n + 1) * (2 * (count : Int)) := by
    have := Int.lt_ediv_add_one_mul_self (20 * sum + (count : Int)) hpos
    simpa [hn] using this
  have h1q : (n : ℚ) * (2 * (count : ℚ)) ≤ 20 * (sum : ℚ) + count := by exact_mod_cast h1
  have h2q : 20 * (sum : ℚ) + count < ((n : ℚ) + 1) * (2 * (count : ℚ)) := by exact_mod_cast h2
  set m : ℚ := (sum : ℚ) / (count : ℚ) with hm
  have hsum : (sum : ℚ) = m * count := by
    rw [hm]; field_simp
  rw [hsum] at h1q h2q
  have e1 : (2 * (n : ℚ)) * count ≤ (20 * m + 1) * count := by
    calc (2 * (n : ℚ)) * count = (n : ℚ) * (2 * (count : ℚ)) := by ring
      _ ≤ 20 * (m * count) + count := h1q
      _ = (20 * m + 1) * count := by ring
  have e2 : (20 * m + 1) * count < (2 * (n : ℚ) + 2) * count := by
    calc (20 * m + 1) * count = 20 * (m * count) + count := by ring
      _ < ((n : ℚ) + 1) * (2 * (count : ℚ)) := h2q
      _ = (2 * (n : ℚ) + 2) * count := by ring
  have f1 : 2 * (n : ℚ) ≤ 20 * m + 1 := le_of_mul_le_mul_right e1 hq
  have f2 : 20 * m + 1 < 2 * (n : ℚ) + 2 := lt_of_mul_lt_mul_right e2 (le_of_lt hq)
  rw [abs_le]
  constructor <;> linarith

theorem toFixed1_near_mean (sum : Int) (count : Nat) (h : 0 < count) :
    |(toFixed1 sum count : ℚ) / 10 - (sum : ℚ) / (count : ℚ)| ≤ 1 / 20 := by
  have hc : count ≠ 0 := by omega
  unfold toFixed1
  simp only [hc, if_false]
  split
  · have := nearestTenths_near (- sum) count h
    rw [← abs_neg]
    convert this using 2
    push_cast
    ring
  · exact nearestTenths_near sum count h

theorem reportsStore_storeRow (db : Db) (userId : Option String) (s : Store) :
    ReportsStore db (storeRow db userId s).id (storeRow db userId s).average_rating
      (storeRow db userId s).total_ratings := by
  refine ⟨rfl, ?_, ?_⟩
  · intro h
    simp only [storeRow] at h ⊢
    simp [toFixed1, h]
  · intro h
    exact toFixed1_near_mean _ _ h

/-- C6 as stated fails: store `s1` with the ratings 1, 1 and 2 has mean 4/3,
while `getStoreById` reports the average `1.3` (13 tenths). -/
theorem C6_counterexample :
    getStoreById thirdsDb none "s1"
      = ⟨200, .ok ⟨"s1", "Shop", "shop@x.io", "4 Main St", "u3", 4, 13, 3, none⟩⟩ ∧
    meanRating (storeRatings thirdsDb ⟨"s1", "Shop", "shop@x.io", "4 Main St", "u3", 4, 4⟩)
      = 4 / 3 ∧
    ((13 : Int) : ℚ) / 10 ≠ 4 / 3 := by
  refine ⟨by decide, ?_, by norm_num⟩
  have h : storeRatings thirdsDb ⟨"s1", "Shop", "shop@x.io", "4 Main St", "u3", 4, 4⟩
      = thirdsDb.ratings := by decide
  rw [h]
  simp [meanRating, ratingSum, thirdsDb]

/-- C6 (amended): `getStoreById` answers 200 for every existing store, and
`getAllStores` (for a non-negative limit and page at least 1) and
`getMyStores` answer 200; every store row they report has `total_ratings`
equal to the number of the store's rating rows, shows average 0 when there is
none, and otherwise shows the mean of the rating values rounded to one decimal
(within 0.05 of the mean). `getMyStores` reports every store of the owner. -/
theorem C6_reported_average (db : Db) (userId : Option String) (q : StoresQuery)
    (ownerId : String) :
    (∀ s ∈ db.stores, ∃ row, getStoreById db userId s.id = ⟨200, .ok row⟩ ∧ row.id = s.id ∧
      ReportsStore db row.id row.average_rating row.total_ratings) ∧
    (0 ≤ q.limit → 1 ≤ q.page →
      ∃ rows pg, getAllStores db userId q = ⟨200, .ok (rows, pg)⟩ ∧
        ∀ row ∈ rows, ReportsStore db row.id row.average_rating row.total_ratings) ∧
    (∃ rows, getMyStores db ownerId = ⟨200, .ok rows⟩ ∧
      (∀ row ∈ rows, ReportsStore db row.id row.average_rating row.total_ratings) ∧
      (∀ s ∈ db.stores, s.owner_id = ownerId → ∃ row ∈ rows, row.id = s.id)) := by
  refine ⟨?_, ?_, ?_⟩
  · intro s hs
    unfold getStoreById
    have hmem : s ∈ db.stores.filter (fun t => t.id == s.id) := by
      simp [List.mem_filter, hs]
    cases hf : db.stores.filter (fun t => t.id == s.id) with
    | nil => rw [hf] at hmem; cases hmem
    | cons t ts =>
      have ht : t ∈ db.stores.filter (fun t => t.id == s.id) := by rw [hf]; simp
      have hid : t.id = s.id := by simpa using (List.mem_filter.mp ht).2
      exact ⟨_, rfl, hid, reportsStore_storeRow db _ t⟩
  · intro hl hp
    have hoff : ¬ (q.limit < 0 ∨ (q.page - 1) * q.limit < 0) := by
      have : 0 ≤ (q.page - 1) * q.limit := mul_nonneg (by omega) hl
      omega
    unfold getAllStores
    simp only [hoff, if_false]
    refine ⟨_, _, rfl, ?_⟩
    intro row hrow
    obtain ⟨s, _, rfl⟩ := List.mem_map.mp hrow
    exact reportsStore_storeRow db _ s
  · unfold getMyStores
    refine ⟨_, rfl, ?_, ?_⟩
    · intro row hrow
      obtain ⟨s, _, rfl⟩ := List.mem_map.mp hrow
      exact reportsStore_storeRow db none s
    · intro s hs ho
      refine ⟨_, List.mem_map.mpr ⟨s, ?_, rfl⟩, rfl⟩
      rw [(orderBy_perm _ _ _).mem_iff]
      simp [List.mem_filter, hs, ho]

/-- C6 for the first page of ten stores of `thirdsDb`. -/
theorem C6_witness :
    ∃ rows pg, getAllStores thirdsDb (some "u1") ⟨1, 10, "name", "asc", none, none, none⟩
        = ⟨200, .ok (rows, pg)⟩ ∧
      ∀ row ∈ rows, ReportsStore thirdsDb row.id row.average_rating row.total_ratings :=
  (C6_reported_average thirdsDb (some "u1") ⟨1, 10, "name", "asc", none, none, none⟩ "u3").2.1
    (by decide) (by decide)

/-- C7: when `U` is the id of exactly one user row `owner` and no store uses the
e-mail, `createStore` with `ownerId = U` answers 201, appends exactly one store
row whose `owner_id` is `U`, leaves the ratings alone, and in the users table
the row of `U` ends with role `store_owner` while every row of another user is
unchanged. -/
theorem C7_createStore_promotes_owner (db : Db) (env : Env) (name email address U : String)
    (owner : User)
    (hU : db.users.filter (fun u => u.id == U) = [owner])
    (hE : ∀ s ∈ db.stores, s.email ≠ email) :
    (createStore db env name email address (some U)).1.status = 201 ∧
    (createStore db env name email address (some U)).2.stores
      = db.stores ++ [⟨env.newId, name, email, address, U, env.now, env.now⟩] ∧
    (createStore db env name email address (some U)).2.ratings = db.ratings ∧
    (∃ u ∈ (createStore db env name email address (some U)).2.users, u.id = U) ∧
    (∀ u ∈ (createStore db env name email address (some U)).2.users,
      u.id = U → u.role = "store_owner") ∧
    (∀ (i : Nat) (old : User), db.users[i]? = some old →
      ∃ new, (createStore db env name email address (some U)).2.users[i]? = some new ∧
        new.id = old.id ∧ (old.id ≠ U → new = old)) := by
  have hnone : db.stores.filter (fun s => s.email == email) = [] := by
    rw [List.filter_eq_nil_iff]
    intro s hs
    simpa using hE s hs
  have hfun : (fun u : User => sqlEq u.id (some U)) = (fun u : User => u.id == U) := by
    funext u; simp [sqlEq]
  have hown : owner ∈ db.users ∧ owner.id = U := by
    have : owner ∈ db.users.filter (fun u => u.id == U) := by rw [hU]; simp
    simpa [List.mem_filter] using this
  have hrows : ∀ u ∈ db.users, u.id = U → u = owner := by
    intro u hu hid
    have : u ∈ db.users.filter (fun u => u.id == U) := by simp [List.mem_filter, hu, hid]
    rw [hU] at this
    simpa using this
  have hsql : ∀ c : String, sqlEq c (some U) = (c == U) := fun _ => rfl
  unfold createStore
  simp only [hnone, List.length_nil, gt_iff_lt, lt_self_iff_false, if_false, hsql, hU]
  by_cases hrole : owner.role = "store_owner"
  · have hne : (owner.role != "store_owner") = false := by simp [hrole]
    simp only [hne]
    refine ⟨by simp, by simp, by simp, ⟨owner, by simpa using hown.1, hown.2⟩, ?_, ?_⟩
    · intro u hu hid
      have hu2 : u ∈ db.users := by simpa using hu
      rw [hrows u hu2 hid]; exact hrole
    · intro i old hold
      exact ⟨old, by simpa using hold, rfl, fun _ => rfl⟩
  · have hne : (owner.role != "store_owner") = true := by simp [hrole]
    simp only [hne, if_true]
    refine ⟨by simp, by simp, by simp, ?_, ?_, ?_⟩
    · refine ⟨{ owner with role := "store_owner", updated_at := env.now }, ?_, hown.2⟩
      simp only [List.mem_map]
      exact ⟨owner, hown.1, by simp [hown.2]⟩
    · intro u hu hid
      simp only [List.mem_map] at hu
      obtain ⟨o, _, rfl⟩ := hu
      by_cases ho : o.id = U
      · simp [ho]
      · simp [ho] at hid
    · intro i old hold
      simp only [List.getElem?_map, hold, Option.map_some']
      refine ⟨_, rfl, ?_, ?_⟩
      · split <;> rfl
      · intro hid
        simp [hid]

/-- C7 on the sample database: a store created for the plain user `u1`. -/
theorem C7_witness :
    (createStore sampleDb ⟨"s3", 9⟩ "Bakery" "bakery@x.io" "6 Main St" (some "u1")).1.status
      = 201 ∧
    (∀ u ∈ (createStore sampleDb ⟨"s3", 9⟩ "Bakery" "bakery@x.io" "6 Main St"
      (some "u1")).2.users, u.id = "u1" → u.role = "store_owner") :=
  ⟨(C7_createStore_promotes_owner sampleDb ⟨"s3", 9⟩ "Bakery" "bakery@x.io" "6 Main St" "u1"
      ⟨"u1", "Alice", "alice@x.io", "h1", "1 Main St", "user", 1, 1⟩ (by decide)
      (by decide)).1,
   (C7_createStore_promotes_owner sampleDb ⟨"s3", 9⟩ "Bakery" "bakery@x.io" "6 Main St" "u1"
      ⟨"u1", "Alice", "alice@x.io", "h1", "1 Main St", "user", 1, 1⟩ (by decide)
      (by decide)).2.2.2.2.1⟩

theorem ceil_div_eq (N L : Nat) (hL : 0 < L) :
    Nat.ceil ((N : ℚ) / (L : ℚ)) = (N + L - 1) / L := by
  have hLq : (0 : ℚ) < (L : ℚ) := by exact_mod_cast hL
  apply le_antisymm
  · rw [Nat.ceil_le, div_le_iff₀ hLq]
    have h1 : N + L - 1 < ((N + L - 1) / L + 1) * L := by
      have := Nat.lt_div_mul_add (a := N + L - 1) hL
      rw [Nat.add_mul, Nat.one_mul]
      exact this
    have h2 : N ≤ (N + L - 1) / L * L := by
      rw [Nat.add_mul, Nat.one_mul] at h1
      omega
    exact_mod_cast h2
  · have hc : (N : ℚ) / (L : ℚ) ≤ (Nat.ceil ((N : ℚ) / (L : ℚ)) : ℚ) := Nat.le_ceil _
    rw [div_le_iff₀ hLq] at hc
    have hc2 : N ≤ Nat.ceil ((N : ℚ) / (L : ℚ)) * L := by exact_mod_cast hc
    have : (N + L - 1) / L < Nat.ceil ((N : ℚ) / (L : ℚ)) + 1 := by
      rw [Nat.div_lt_iff_lt_mul hL, Nat.add_mul, Nat.one_mul]
      omega
    omega

theorem usersSorted_length (db : Db) (q : UsersQuery) :
    (usersSorted db q).length = (db.users.filter (usersWhere q)).length := by
  unfold usersSorted
  simp only
  split_ifs <;> exact (orderBy_perm _ _ _).length_eq

/-- C8 as stated fails: with 25 users, page 1 and limit 2^63 the claim
requires the 25 rows, but the LIMIT is beyond the engine's integers, the page
query raises and `getAllUsers` answers 500. -/
theorem C8_counterexample :
    getAllUsers twentyFiveUsers ⟨1, 9223372036854775808, "name", "asc", none, none, none, none⟩
        = ⟨500, .error "Internal server error"⟩
    ∧ (twentyFiveUsers.users.filter
        (usersWhere ⟨1, 9223372036854775808, "name", "asc", none, none, none, none⟩)).length = 25
    ∧ min (9223372036854775808 : Int) (max 0 (25 - (1 - 1) * 9223372036854775808)) = 25 := by
  refine ⟨by decide, by decide, by decide⟩

/-- C8 (amended): for page ≥ 1 and limit ≥ 1 with `limit` and
`(page-1)*limit` at most 2^53, with `N` user rows matching the filters,
`getAllUsers` answers 200 with exactly `min(limit, max(0, N - (page-1)*limit))`
rows, `totalCount = N` and `totalPages = ⌈N / limit⌉`; for a limit or an offset
above the engine's 64-bit integers it answers 500. -/
theorem C8_getAllUsers_pagination (db : Db) (q : UsersQuery) :
    (1 ≤ q.page → 1 ≤ q.limit → q.limit ≤ 9007199254740992 →
      (q.page - 1) * q.limit ≤ 9007199254740992 →
      ∃ rows pg, getAllUsers db q = ⟨200, .ok (rows, pg)⟩ ∧
        (rows.length : Int)
          = min q.limit (max 0 (((db.users.filter (usersWhere q)).length : Int)
              - (q.page - 1) * q.limit)) ∧
        pg.totalCount = (db.users.filter (usersWhere q)).length ∧
        pg.totalPages
          = some (Nat.ceil (((db.users.filter (usersWhere q)).length : ℚ) / (q.limit : ℚ))) ∧
        pg.currentPage = q.page ∧ pg.limit = q.limit) ∧
    (maxBigint < q.limit ∨ maxBigint < (q.page - 1) * q.limit →
      getAllUsers db q = ⟨500, .error "Internal server error"⟩) := by
  constructor
  · intro hp hl hlmax homax
    have hoff0 : 0 ≤ (q.page - 1) * q.limit := mul_nonneg (by omega) (by omega)
    have hoff : ¬ (q.limit < 0 ∨ (q.page - 1) * q.limit < 0 ∨ maxBigint < q.limit
        ∨ maxBigint < (q.page - 1) * q.limit) := by
      unfold maxBigint
      omega
    unfold getAllUsers
    simp only [hoff, if_false]
    refine ⟨_, _, rfl, ?_, rfl, ?_, rfl, rfl⟩
    · simp only [List.length_map, limitOffset, List.length_take, List.length_drop,
        usersSorted_length]
      generalize (q.page - 1) * q.limit = off at hoff0
      generalize (db.users.filter (usersWhere q)).length = N
      omega
    · simp only
      have hL : 0 < q.limit.toNat := by omega
      have hne : q.limit.toNat ≠ 0 := by omega
      have hcast : (q.limit : ℚ) = ((q.limit.toNat : Nat) : ℚ) := by
        have : q.limit = (q.limit.toNat : Int) := by omega
        conv_lhs => rw [this]
        norm_cast
      rw [hcast, ceil_div_eq _ _ hL]
      simp [totalPages, hne]
  · intro h
    have hoff : q.limit < 0 ∨ (q.page - 1) * q.limit < 0 ∨ maxBigint < q.limit
        ∨ maxBigint < (q.page - 1) * q.limit := by
      rcases h with h | h
      · exact Or.inr (Or.inr (Or.inl h))
      · exact Or.inr (Or.inr (Or.inr h))
    unfold getAllUsers
    simp only [hoff, if_true]

/-- C8 for 25 users, limit 10, page 2: exactly 10 rows and 3 pages. -/
theorem C8_witness :
    ∃ rows pg,
      getAllUsers twentyFiveUsers ⟨2, 10, "name", "asc", none, none, none, none⟩
        = ⟨200, .ok (rows, pg)⟩ ∧
      rows.length = 10 ∧ pg.totalCount = 25 ∧ pg.totalPages = some 3 := by
  obtain ⟨rows, pg, hres, hlen, hcount, hpages, _, _⟩ :=
    (C8_getAllUsers_pagination twentyFiveUsers
      ⟨2, 10, "name", "asc", none, none, none, none⟩).1
      (by decide) (by decide) (by decide) (by decide)
  have hN : (twentyFiveUsers.users.filter
      (usersWhere ⟨2, 10, "name", "asc", none, none, none, none⟩)).length = 25 := by decide
  rw [hN] at hlen hcount hpages
  refine ⟨rows, pg, hres, ?_, hcount, ?_⟩
  · have : (rows.length : Int) = 10 := by rw [hlen]; decide
    exact_mod_cast this
  · rw [hpages]
    have h := ceil_div_eq 25 10 (by decide)
    simp only [Nat.cast_ofNat] at h
    have h10 : ((10 : Int) : ℚ) = (10 : ℚ) := by norm_num
    simp only [h10, Nat.cast_ofNat]
    rw [h]

theorem owned_store_iff (db : Db) (user : AuthUser) (id : String) :
    (db.stores.filter (fun s => sqlEq s.id (some id) && s.owner_id == user.id)).length = 0 ↔
      ¬ ∃ s ∈ db.stores, s.id = id ∧ s.owner_id = user.id := by
  rw [List.length_eq_zero, List.filter_eq_nil_iff]
  constructor
  · rintro h ⟨s, hs, h1, h2⟩
    exact h s hs (by simp [sqlEq, h1, h2])
  · intro h s hs hc
    exact h ⟨s, hs, by simpa [sqlEq] using hc⟩

theorem putStoreGate_none_iff {α : Type} (db : Db) (user : AuthUser) (id : String)
    (bodyStoreId : Option String) (hid : id ≠ "") (hadmin : user.role ≠ "admin") :
    putStoreGate (α := α) db user id bodyStoreId = none ↔
      user.role = "store_owner" ∧ ∃ s ∈ db.stores, s.id = id ∧ s.owner_id = user.id := by
  have ht : truthy (some id) = true := by simp [truthy, hid]
  unfold putStoreGate authorizeStoreOwner
  simp only [hadmin, if_false, ht, if_true]
  by_cases hrole : user.role = "store_owner"
  · simp only [hrole, ne_eq, not_true_eq_false, if_false, true_and]
    by_cases hown : ∃ s ∈ db.stores, s.id = id ∧ s.owner_id = user.id
    · have := (owned_store_iff db user id).not.mpr (not_not.mpr hown)
      simp [this, hown]
    · have := (owned_store_iff db user id).mpr hown
      simp only [this, if_true, hown, iff_false]
      simp
  · simp [hrole]

theorem putStoreGate_denied {α : Type} (db : Db) (user : AuthUser) (id : String)
    (bodyStoreId : Option String) (hadmin : user.role ≠ "admin")
    (h : putStoreGate (α := α) db user id bodyStoreId ≠ none) :
    ∃ msg, putStoreGate (α := α) db user id bodyStoreId = some ⟨403, .error msg⟩ := by
  unfold putStoreGate authorizeStoreOwner at h ⊢
  simp only [hadmin, if_false] at h ⊢
  split_ifs at h ⊢ <;> first | exact ⟨_, rfl⟩ | exact absurd rfl h

/-- C9: on `PUT /stores/:id` an admin always passes the gate. A caller who is
not an admin passes it exactly when the caller's role is `store_owner` and a
store with the route id exists whose `owner_id` is the caller; in every other
case the route answers 403 and the database is unchanged. Behind the gate a
valid body reaches `updateStore`. -/
theorem C9_put_store_gate (lib : EmailLib) (db : Db) (env : Env) (user : AuthUser)
    (id : String) (body : StoreBody) (hid : id ≠ "") :
    (user.role = "admin" →
      putStoreGate (α := Option StoreUpdated) db user id body.storeId = none) ∧
    (user.role ≠ "admin" →
      (putStoreGate (α := Option StoreUpdated) db user id body.storeId = none ↔
        user.role = "store_owner" ∧ ∃ s ∈ db.stores, s.id = id ∧ s.owner_id = user.id)) ∧
    (user.role ≠ "admin" →
      ¬ (user.role = "store_owner" ∧ ∃ s ∈ db.stores, s.id = id ∧ s.owner_id = user.id) →
      (putStore lib db env user id body).1.status = 403 ∧
      (putStore lib db env user id body).2 = db) ∧
    (putStoreGate (α := Option StoreUpdated) db user id body.storeId = none →
      storeValidationRules lib body = [] →
      putStore lib db env user id body
        = updateStore db env id body.name (lib.normalizeEmail body.email) body.address) := by
  refine ⟨?_, ?_, ?_, ?_⟩
  · intro h
    simp [putStoreGate, h]
  · intro h
    exact putStoreGate_none_iff db user id body.storeId hid h
  · intro h hno
    have hgate : putStoreGate (α := Option StoreUpdated) db user id body.storeId ≠ none :=
      fun hc => hno ((putStoreGate_none_iff db user id body.storeId hid h).mp hc)
    obtain ⟨msg, hmsg⟩ := putStoreGate_denied db user id body.storeId h hgate
    simp [putStore, hmsg]
  · intro hgate hvalid
    simp [putStore, hgate, hvalid, validate]

/-- C9 at concrete callers: the admin passes, a plain user gets 403 with the
database unchanged, and the owner of `s1` passes and reaches `updateStore`. -/
theorem C9_witness :
    putStoreGate (α := Option StoreUpdated) sampleDb ⟨"u2", "bob@x.io", "admin"⟩ "s1" none
      = none ∧
    ((putStore sampleEmailLib sampleDb ⟨"r2", 7⟩ ⟨"u1", "alice@x.io", "user"⟩ "s1"
        ⟨"Shop 2", "shop2@x.io", "7 Main St", none⟩).1.status = 403 ∧
     (putStore sampleEmailLib sampleDb ⟨"r2", 7⟩ ⟨"u1", "alice@x.io", "user"⟩ "s1"
        ⟨"Shop 2", "shop2@x.io", "7 Main St", none⟩).2 = sampleDb) ∧
    putStoreGate (α := Option StoreUpdated) sampleDb ⟨"u3", "carol@x.io", "store_owner"⟩ "s1" none
      = none ∧
    putStore sampleEmailLib sampleDb ⟨"r2", 7⟩ ⟨"u3", "carol@x.io", "store_owner"⟩ "s1"
        ⟨"Shop 2", "shop2@x.io", "7 Main St", none⟩
      = updateStore sampleDb ⟨"r2", 7⟩ "s1" "Shop 2" "shop2@x.io" "7 Main St" :=
  ⟨(C9_put_store_gate sampleEmailLib sampleDb ⟨"r2", 7⟩ ⟨"u2", "bob@x.io", "admin"⟩ "s1"
      ⟨"Shop 2", "shop2@x.io", "7 Main St", none⟩ (by decide)).1 rfl,
   (C9_put_store_gate sampleEmailLib sampleDb ⟨"r2", 7⟩ ⟨"u1", "alice@x.io", "user"⟩ "s1"
      ⟨"Shop 2", "shop2@x.io", "7 Main St", none⟩ (by decide)).2.2.1 (by decide)
      (by intro h; exact absurd h.1 (by decide)),
   ((C9_put_store_gate sampleEmailLib sampleDb ⟨"r2", 7⟩ ⟨"u3", "carol@x.io", "store_owner"⟩
      "s1" ⟨"Shop 2", "shop2@x.io", "7 Main St", none⟩ (by decide)).2.1 (by decide)).mpr
      ⟨rfl, ⟨"s1", "Shop", "shop@x.io", "4 Main St", "u3", 4, 4⟩, by decide, rfl, rfl⟩,
   (C9_put_store_gate sampleEmailLib sampleDb ⟨"r2", 7⟩ ⟨"u3", "carol@x.io", "store_owner"⟩
      "s1" ⟨"Shop 2", "shop2@x.io", "7 Main St", none⟩ (by decide)).2.2.2 (by decide)
      (by decide)⟩

theorem filter_id_of_keyed (us : List User) (h : (us.map (fun u => u.id)).Nodup) (u : User)
    (hu : u ∈ us) : us.filter (fun v => v.id == u.id) = [u] := by
  induction us with
  | nil => cases hu
  | cons a t ih =>
    simp only [List.map_cons, List.nodup_cons, List.mem_map, not_exists, not_and] at h
    rcases List.mem_cons.mp hu with rfl | hmem
    · have hrest : t.filter (fun v => v.id == u.id) = [] := by
        rw [List.filter_eq_nil_iff]
        intro v hv
        simpa using h.1 v hv
      simp [List.filter_cons, hrest]
    · have hne : ¬ (a.id = u.id) := fun hc => h.1 u hmem hc.symm
      simp [List.filter_cons, hne, ih h.2 hmem]

theorem deleteUser_keyed (db : Db) (id : String) (h : UsersKeyed db) :
    UsersKeyed (deleteUser db id).2 := by
  unfold deleteUser
  split
  · exact h
  · split
    · exact h
    · exact h.sublist ((List.filter_sublist _).map _)

theorem deleteUser_adminCount (db : Db) (id : String) (h : UsersKeyed db) :
    adminCount (deleteUser db id).2 = adminCount db := by
  unfold deleteUser
  split
  · rfl
  · rename_i user rest hf
    split
    · rfl
    · rename_i hrole
      have huser : user ∈ db.users ∧ user.id = id := by
        have : user ∈ db.users.filter (fun u => u.id == id) := by rw [hf]; simp
        simpa [List.mem_filter] using this
      have hone := filter_id_of_keyed db.users h user huser.1
      rw [huser.2] at hone
      simp only [adminCount, cascadeDeleteUser, List.filter_filter]
      congr 1
      apply List.filter_congr
      intro v hv
      by_cases hvid : v.id = id
      · have : v ∈ db.users.filter (fun u => u.id == id) := by
          simp [List.mem_filter, hv, hvid]
        rw [hone] at this
        have hvu : v = user := by simpa using this
        simp [hvu, hrole]
      · simp [hvid]

theorem deleteUsers_keyed_adminCount (ids : List String) (db : Db) (h : UsersKeyed db) :
    UsersKeyed (deleteUsers db ids) ∧ adminCount (deleteUsers db ids) = adminCount db := by
  induction ids generalizing db with
  | nil => exact ⟨h, rfl⟩
  | cons id rest ih =>
    have hk := deleteUser_keyed db id h
    have := ih (deleteUser db id).2 hk
    simp only [deleteUsers, List.foldl_cons] at this ⊢
    exact ⟨this.1, this.2.trans (deleteUser_adminCount db id h)⟩

/-- C10: with `users.id` a key, `deleteUser` answers 403 and leaves the database
unchanged when the target row has role `admin`; it answers 404 and changes
nothing when no row has the id; when the target row exists with another role it
answers 200 and the users table loses exactly the rows with that id; the users
table changes in no other case; and no sequence of `deleteUser` calls changes
the number of admin rows. -/
theorem C10_deleteUser_guards_admins (db : Db) (id : String) (ids : List String)
    (hkey : UsersKeyed db) :
    ((∃ u ∈ db.users, u.id = id ∧ u.role = "admin") →
      deleteUser db id = (⟨403, .error "Cannot delete admin users"⟩, db)) ∧
    ((∀ u ∈ db.users, u.id ≠ id) →
      deleteUser db id = (⟨404, .error "User not found"⟩, db)) ∧
    ((∃ u ∈ db.users, u.id = id ∧ u.role ≠ "admin") →
      (deleteUser db id).1 = ⟨200, .ok ()⟩ ∧
      (deleteUser db id).2.users = db.users.filter (fun u => u.id != id)) ∧
    ((deleteUser db id).2.users ≠ db.users → ∃ u ∈ db.users, u.id = id ∧ u.role ≠ "admin") ∧
    adminCount (deleteUsers db ids) = adminCount db := by
  refine ⟨?_, ?_, ?_, ?_, (deleteUsers_keyed_adminCount ids db hkey).2⟩
  · rintro ⟨u, hu, rfl, hrole⟩
    have := filter_id_of_keyed db.users hkey u hu
    simp [deleteUser, this, hrole]
  · intro h
    have : db.users.filter (fun u => u.id == id) = [] := by
      rw [List.filter_eq_nil_iff]
      intro u hu
      simpa using h u hu
    simp [deleteUser, this]
  · rintro ⟨u, hu, rfl, hrole⟩
    have := filter_id_of_keyed db.users hkey u hu
    simp [deleteUser, this, hrole, cascadeDeleteUser]
  · intro hchg
    unfold deleteUser at hchg
    split at hchg
    · exact absurd rfl hchg
    · rename_i user rest hf
      split at hchg
      · exact absurd rfl hchg
      · rename_i hrole
        have hmem : user ∈ db.users.filter (fun u => u.id == id) := by rw [hf]; simp
        have hboth : user ∈ db.users ∧ user.id = id := by
          simpa [List.mem_filter] using hmem
        exact ⟨user, hboth.1, hboth.2, hrole⟩

theorem usersKeyed_sampleDb : UsersKeyed sampleDb := by
  unfold UsersKeyed
  decide

/-- C10 on the sample database: admin `u2` (403), unknown `u9` (404), user
`u1` (deleted), and a sequence of deletions keeping the admin count. -/
theorem C10_witness :
    deleteUser sampleDb "u2" = (⟨403, .error "Cannot delete admin users"⟩, sampleDb) ∧
    deleteUser sampleDb "u9" = (⟨404, .error "User not found"⟩, sampleDb) ∧
    ((deleteUser sampleDb "u1").1 = ⟨200, .ok ()⟩ ∧
      (deleteUser sampleDb "u1").2.users = sampleDb.users.filter (fun u => u.id != "u1")) ∧
    adminCount (deleteUsers sampleDb ["u1", "u2", "u3", "u2"]) = adminCount sampleDb :=
  ⟨(C10_deleteUser_guards_admins sampleDb "u2" [] usersKeyed_sampleDb).1
      ⟨⟨"u2", "Bob", "bob@x.io", "h2", "2 Main St", "admin", 2, 2⟩, by decide, rfl, rfl⟩,
   (C10_deleteUser_guards_admins sampleDb "u9" [] usersKeyed_sampleDb).2.1 (by decide),
   (C10_deleteUser_guards_admins sampleDb "u1" [] usersKeyed_sampleDb).2.2.1
      ⟨⟨"u1", "Alice", "alice@x.io", "h1", "1 Main St", "user", 1, 1⟩, by decide, rfl,
        by decide⟩,
   (C10_deleteUser_guards_admins sampleDb "u1" ["u1", "u2", "u3", "u2"]
      usersKeyed_sampleDb).2.2.2.2⟩

/-- C11: when a store with id `S` exists, `deleteStore(S)` answers 200 and
afterwards no rating row and no store row carries `S`, while the ratings of
every other store and the users table are as before; when no store has id `S`
the answer is 404 and the database is unchanged. -/
theorem C11_deleteStore_cascades (db : Db) (S : String) :
    ((∃ s ∈ db.stores, s.id = S) →
      (deleteStore db S).1 = ⟨200, .ok ()⟩ ∧
      (∀ r ∈ (deleteStore db S).2.ratings, r.store_id ≠ S) ∧
      (∀ s ∈ (deleteStore db S).2.stores, s.id ≠ S) ∧
      (∀ T : String, T ≠ S →
        (deleteStore db S).2.ratings.filter (fun r => r.store_id == T)
          = db.ratings.filter (fun r => r.store_id == T)) ∧
      (deleteStore db S).2.users = db.users) ∧
    ((∀ s ∈ db.stores, s.id ≠ S) →
      deleteStore db S = (⟨404, .error "Store not found"⟩, db)) := by
  constructor
  · rintro ⟨s, hs, hid⟩
    have hpos : ¬ (db.stores.filter (fun s => s.id == S)).length = 0 := by
      have : 0 < (db.stores.filter (fun s => s.id == S)).length :=
        List.length_pos_of_mem (a := s) (by simp [List.mem_filter, hs, hid])
      omega
    simp only [deleteStore, hpos, if_false, cascadeDeleteStore]
    refine ⟨trivial, ?_, ?_, ?_, trivial⟩
    · intro r hr
      simpa using (List.mem_filter.mp hr).2
    · intro t ht
      simpa using (List.mem_filter.mp ht).2
    · intro T hT
      rw [List.filter_filter]
      apply List.filter_congr
      intro r _
      by_cases h : r.store_id = T
      · simp [h, hT]
      · simp [h]
  · intro h
    have : db.stores.filter (fun s => s.id == S) = [] := by
      rw [List.filter_eq_nil_iff]
      intro s hs
      simpa using h s hs
    simp [deleteStore, this]

/-- C11 on the sample database: deleting `s1` removes its rating; `s9` does
not exist. -/
theorem C11_witness :
    ((deleteStore sampleDb "s1").1 = ⟨200, .ok ()⟩ ∧
      (∀ r ∈ (deleteStore sampleDb "s1").2.ratings, r.store_id ≠ "s1")) ∧
    deleteStore sampleDb "s9" = (⟨404, .error "Store not found"⟩, sampleDb) :=
  ⟨⟨((C11_deleteStore_cascades sampleDb "s1").1
        ⟨⟨"s1", "Shop", "shop@x.io", "4 Main St", "u3", 4, 4⟩, by decide, rfl⟩).1,
    ((C11_deleteStore_cascades sampleDb "s1").1
        ⟨⟨"s1", "Shop", "shop@x.io", "4 Main St", "u3", 4, 4⟩, by decide, rfl⟩).2.1⟩,
   (C11_deleteStore_cascades sampleDb "s9").2 (by decide)⟩

theorem authenticateToken_missing {α : Type} (verifyToken : String → Option TokenPayload)
    (db : Db) (authHeader : Option String)
    (h : (bearerToken authHeader).filter (fun t => t != "") = none) :
    authenticateToken (α := α) verifyToken db authHeader
      = .error ⟨401, .error "Access token required"⟩ := by
  simp [authenticateToken, h]

theorem authenticateToken_rejected {α : Type} (verifyToken : String → Option TokenPayload)
    (db : Db) (authHeader : Option String) (token : String)
    (h : (bearerToken authHeader).filter (fun t => t != "") = some token)
    (hv : verifyToken token = none) :
    authenticateToken (α := α) verifyToken db authHeader
      = .error ⟨403, .error "Invalid or expired token"⟩ := by
  simp [authenticateToken, h, hv]

/-- C12 at the failing input: a request with the header `Bearer garbage`,
whose token the library rejects, is answered by `authenticateToken` with
status 403, not 401 (a request without a token is answered 401). -/
theorem C12_invalid_token_answered_403 :
    authenticateToken (α := Unit) sampleVerifyToken sampleDb (some "Bearer garbage")
      = .error ⟨403, .error "Invalid or expired token"⟩ ∧
    authenticateToken (α := Unit) sampleVerifyToken sampleDb none
      = .error ⟨401, .error "Access token required"⟩ ∧
    authenticateToken (α := Unit) sampleVerifyToken sampleDb (some "Bearer tok-u1")
      = .ok ⟨"u1", "alice@x.io", "user"⟩ :=
  ⟨authenticateToken_rejected sampleVerifyToken sampleDb (some "Bearer garbage") "garbage"
      (by decide) (by decide),
   authenticateToken_missing sampleVerifyToken sampleDb none (by decide),
   by rfl⟩

theorem authorizeRoles_admin_only {α : Type} (user : AuthUser) :
    authorizeRoles (α := α) ["admin"] user
      = if user.role = "admin" then none
        else some ⟨403, .error "Access denied. Insufficient permissions."⟩ := by
  by_cases h : user.role = "admin"
  · simp [authorizeRoles, h]
  · have : ¬ ("admin" = user.role) := fun hc => h hc.symm
    simp [authorizeRoles, h, this]

/-- C13: the middleware of `authorizeRoles(...roles)` calls `next` exactly when
the user's role is among `roles` and otherwise answers 403. Every route of the
users router, `DELETE /stores/:id`, `POST /stores` and `GET /ratings/all` runs
its handler for role `admin` and answers 403 with the database unchanged for
every other role. -/
theorem C13_authorizeRoles_gate (α : Type) (roles : List String) (user : AuthUser) (db : Db)
    (env : Env) (lib : EmailLib) (handler : Res α × Db) (id : String)
    (body : CreateStoreBody) (q : RatingsQuery) :
    (authorizeRoles (α := α) roles user = none ↔ user.role ∈ roles) ∧
    (user.role ∉ roles → authorizeRoles (α := α) roles user
      = some ⟨403, .error "Access denied. Insufficient permissions."⟩) ∧
    (user.role = "admin" →
      usersRoute db user handler = handler ∧
      deleteStoreRoute db user id = deleteStore db id ∧
      postStore lib db env user body
        = behind (validate (storeValidationRules lib ⟨body.name, body.email, body.address, none⟩))
            db (createStore db env body.name (lib.normalizeEmail body.email) body.address
              body.ownerId) ∧
      getAllRatingsRoute db user q = (getAllRatings db q, db)) ∧
    (user.role ≠ "admin" →
      usersRoute db user handler
        = (⟨403, .error "Access denied. Insufficient permissions."⟩, db) ∧
      deleteStoreRoute db user id
        = (⟨403, .error "Access denied. Insufficient permissions."⟩, db) ∧
      postStore lib db env user body
        = (⟨403, .error "Access denied. Insufficient permissions."⟩, db) ∧
      getAllRatingsRoute db user q
        = (⟨403, .error "Access denied. Insufficient permissions."⟩, db)) := by
  refine ⟨?_, ?_, ?_, ?_⟩
  · by_cases h : user.role ∈ roles <;> simp [authorizeRoles, h]
  · intro h
    simp [authorizeRoles, h]
  · intro h
    simp [usersRoute, deleteStoreRoute, postStore, getAllRatingsRoute,
      authorizeRoles_admin_only, h, behind]
  · intro h
    simp [usersRoute, deleteStoreRoute, postStore, getAllRatingsRoute,
      authorizeRoles_admin_only, h, behind]

/-- C13 on the sample database: the owner `u3` is turned away from
`DELETE /stores/s1`, the admin `u2` runs `deleteStore`. -/
theorem C13_witness :
    deleteStoreRoute sampleDb ⟨"u3", "carol@x.io", "store_owner"⟩ "s1"
      = (⟨403, .error "Access denied. Insufficient permissions."⟩, sampleDb) ∧
    deleteStoreRoute sampleDb ⟨"u2", "bob@x.io", "admin"⟩ "s1" = deleteStore sampleDb "s1" ∧
    authorizeRoles (α := Unit) ["admin", "store_owner"] ⟨"u1", "alice@x.io", "user"⟩
      = some ⟨403, .error "Access denied. Insufficient permissions."⟩ :=
  ⟨((C13_authorizeRoles_gate Unit ["admin"] ⟨"u3", "carol@x.io", "store_owner"⟩ sampleDb
      ⟨"x", 1⟩ sampleEmailLib (⟨200, .ok ()⟩, sampleDb) "s1" ⟨"n", "e@x", "a", none⟩
      ⟨1, 10, "rating", "asc", none, none, none⟩).2.2.2 (by decide)).2.1,
   ((C13_authorizeRoles_gate Unit ["admin"] ⟨"u2", "bob@x.io", "admin"⟩ sampleDb
      ⟨"x", 1⟩ sampleEmailLib (⟨200, .ok ()⟩, sampleDb) "s1" ⟨"n", "e@x", "a", none⟩
      ⟨1, 10, "rating", "asc", none, none, none⟩).2.2.1 rfl).2.1,
   (C13_authorizeRoles_gate Unit ["admin", "store_owner"] ⟨"u1", "alice@x.io", "user"⟩ sampleDb
      ⟨"x", 1⟩ sampleEmailLib (⟨200, .ok ()⟩, sampleDb) "s1" ⟨"n", "e@x", "a", none⟩
      ⟨1, 10, "rating", "asc", none, none, none⟩).2.1 (by decide)⟩

theorem storesWhereClause_search (q : StoresQuery) (h : truthy q.search = true) :
    storesWhereClause q
      = ⟨" WHERE (s.name ILIKE $1 OR s.address ILIKE $1)",
          [.text ("%" ++ q.search.getD "" ++ "%")], 1⟩ := by
  simp only [storesWhereClause, h, if_true, addCondition]
  refine congrArg (fun w => WhereBuilder.mk w _ _) ?_
  decide

theorem storesWhereClause_no_search (q : StoresQuery) (h : truthy q.search = false) :
    storesWhereClause q =
      if truthy q.name then
        if truthy q.address then
          ⟨" WHERE s.name ILIKE $1 AND s.address ILIKE $2",
            [.text ("%" ++ q.name.getD "" ++ "%"), .text ("%" ++ q.address.getD "" ++ "%")], 2⟩
        else ⟨" WHERE s.name ILIKE $1", [.text ("%" ++ q.name.getD "" ++ "%")], 1⟩
      else
        if truthy q.address then
          ⟨" WHERE s.address ILIKE $1", [.text ("%" ++ q.address.getD "" ++ "%")], 1⟩
        else ⟨"", [], 0⟩ := by
  by_cases hn : truthy q.name = true <;> by_cases ha : truthy q.address = true <;>
    simp only [storesWhereClause, h, hn, ha, if_true, if_false, addCondition,
      Bool.false_eq_true] <;>
    rfl

/-- C14: in `getAllStores` a non-empty `search` makes the filter the single
condition `(s.name ILIKE $1 OR s.address ILIKE $1)` with the one parameter
`%search%`, whatever `name` and `address` are; only when `search` is absent or
empty are `name` and `address` applied, joined by AND, each with its own
parameter. -/
theorem C14_search_overrides_name_address (q : StoresQuery) (s : Store)
    (name address : Option String) :
    (truthy q.search = true →
      storesWhereClause q
        = ⟨" WHERE (s.name ILIKE $1 OR s.address ILIKE $1)",
            [.text ("%" ++ q.search.getD "" ++ "%")], 1⟩ ∧
      storesWhereClause { q with name := name, address := address } = storesWhereClause q ∧
      storesWhere q s
        = (ilikeContains s.name (q.search.getD "") || ilikeContains s.address (q.search.getD ""))
      ∧ storesWhere { q with name := name, address := address } s = storesWhere q s) ∧
    (truthy q.search = false →
      storesWhereClause q =
        (if truthy q.name then
          if truthy q.address then
            ⟨" WHERE s.name ILIKE $1 AND s.address ILIKE $2",
              [.text ("%" ++ q.name.getD "" ++ "%"), .text ("%" ++ q.address.getD "" ++ "%")],
              2⟩
          else ⟨" WHERE s.name ILIKE $1", [.text ("%" ++ q.name.getD "" ++ "%")], 1⟩
        else
          if truthy q.address then
            ⟨" WHERE s.address ILIKE $1", [.text ("%" ++ q.address.getD "" ++ "%")], 1⟩
          else ⟨"", [], 0⟩) ∧
      storesWhere q s
        = ((if truthy q.name then ilikeContains s.name (q.name.getD "") else true) &&
           (if truthy q.address then ilikeContains s.address (q.address.getD "") else true))) := by
  constructor
  · intro h
    refine ⟨storesWhereClause_search q h, ?_, ?_, ?_⟩
    · rw [storesWhereClause_search q h,
        storesWhereClause_search { q with name := name, address := address } h]
    · simp [storesWhere, h]
    · simp [storesWhere, h]
  · intro h
    exact ⟨storesWhereClause_no_search q h, by simp [storesWhere, h]⟩

/-- C14 at a query with all three filters, and one with an empty `search`. -/
theorem C14_witness :
    storesWhereClause ⟨1, 10, "name", "asc", some "n", some "a", some "x"⟩
      = ⟨" WHERE (s.name ILIKE $1 OR s.address ILIKE $1)", [.text "%x%"], 1⟩ ∧
    storesWhereClause ⟨1, 10, "name", "asc", some "n", some "a", some ""⟩
      = ⟨" WHERE s.name ILIKE $1 AND s.address ILIKE $2", [.text "%n%", .text "%a%"], 2⟩ :=
  ⟨((C14_search_overrides_name_address ⟨1, 10, "name", "asc", some "n", some "a", some "x"⟩
      ⟨"s1", "Shop", "shop@x.io", "4 Main St", "u3", 4, 4⟩ none none).1 (by decide)).1,
   ((C14_search_overrides_name_address ⟨1, 10, "name", "asc", some "n", some "a", some ""⟩
      ⟨"s1", "Shop", "shop@x.io", "4 Main St", "u3", 4, 4⟩ none none).2 (by decide)).1⟩

theorem toUpper_of_toLower_mem (c l : Char) (hl : l ∈ ['a', 's', 'c', 'd', 'e'])
    (h : c.toLower = l) : c.toUpper = l.toUpper := by
  by_cases hr : 65 ≤ c.toNat ∧ c.toNat ≤ 90
  · have hc := (Char.ofNat_toNat c).symm
    generalize c.toNat = n at hr hc
    subst hc
    obtain ⟨h1, h2⟩ := hr
    interval_cases n <;> (subst h; revert hl; decide)
  · have hsame : c.toLower = c := by
      simp only [Char.toLower]
      rw [if_neg hr]
    rw [hsame] at h
    subst h
    rfl

theorem map_toUpper_of_map_toLower (cs ls : List Char)
    (hl : ∀ l ∈ ls, l ∈ ['a', 's', 'c', 'd', 'e']) (h : cs.map Char.toLower = ls) :
    cs.map Char.toUpper = ls.map Char.toUpper := by
  induction cs generalizing ls with
  | nil => subst h; rfl
  | cons c cs ih =>
    cases ls with
    | nil => simp at h
    | cons l ls =>
      simp only [List.map_cons, List.cons.injEq] at h ⊢
      exact ⟨toUpper_of_toLower_mem c l (hl l (by simp)) h.1,
        ih ls (fun x hx => hl x (by simp [hx])) h.2⟩

theorem finalSortOrder_mem (fallback sortOrder : String) :
    finalSortOrder fallback sortOrder = "ASC" ∨ finalSortOrder fallback sortOrder = "DESC" ∨
      (finalSortOrder fallback sortOrder = fallback ∧
        toLowerCase sortOrder ≠ "asc" ∧ toLowerCase sortOrder ≠ "desc") := by
  unfold finalSortOrder
  by_cases hasc : toLowerCase sortOrder = "asc"
  · left
    have hdata : sortOrder.data.map Char.toLower = ['a', 's', 'c'] := by
      have := congrArg String.data hasc
      simpa [toLowerCase] using this
    have hup := map_toUpper_of_map_toLower sortOrder.data _ (by decide) hdata
    simp only [hasc, toUpperCase, hup]
    rw [if_pos (by decide)]
    decide
  · by_cases hdesc : toLowerCase sortOrder = "desc"
    · right; left
      have hdata : sortOrder.data.map Char.toLower = ['d', 'e', 's', 'c'] := by
        have := congrArg String.data hdesc
        simpa [toLowerCase] using this
      have hup := map_toUpper_of_map_toLower sortOrder.data _ (by decide) hdata
      simp only [hdesc, toUpperCase, hup]
      rw [if_pos (by decide)]
      decide
    · right; right
      simp [hasc, hdesc]

theorem finalSortBy_mem (valid : List String) (fallback sortBy : String) :
    finalSortBy valid fallback sortBy ∈ fallback :: valid := by
  unfold finalSortBy
  by_cases h : sortBy ∈ valid <;> simp [h]

/-- C15: for every `sortBy` and `sortOrder` text the ORDER BY fragment that
`getAllUsers`, `getAllStores`, `getRatingsByStore`, `getMyRatings` and
`getAllRatings` put into their SQL is one of a fixed list of texts (an
allow-listed column followed by `ASC` or `DESC`); a `sortBy` outside the
allow-list gives the default column and a `sortOrder` that is neither `asc`
nor `desc` in any letter case gives the default direction. -/
theorem C15_order_by_from_fixed_set (sortBy sortOrder : String) (valid : List String)
    (fallback : String) :
    usersOrderBy sortBy sortOrder ∈
      ["name ASC", "name DESC", "email ASC", "email DESC", "role ASC", "role DESC",
        "created_at ASC", "created_at DESC"] ∧
    storesOrderBy sortBy sortOrder ∈
      ["s.name ASC", "s.name DESC", "s.address ASC", "s.address DESC", "average_rating ASC",
        "average_rating DESC", "s.created_at ASC", "s.created_at DESC"] ∧
    ratingsByStoreOrderBy sortBy sortOrder ∈
      ["r.rating ASC", "r.rating DESC", "r.created_at ASC", "r.created_at DESC"] ∧
    myRatingsOrderBy sortBy sortOrder ∈
      ["r.rating ASC", "r.rating DESC", "r.created_at ASC", "r.created_at DESC", "s.name ASC",
        "s.name DESC"] ∧
    allRatingsOrderBy sortBy sortOrder ∈
      ["r.rating ASC", "r.rating DESC", "r.created_at ASC", "r.created_at DESC", "u.name ASC",
        "u.name DESC", "s.name ASC", "s.name DESC"] ∧
    (sortBy ∉ valid → finalSortBy valid fallback sortBy = fallback) ∧
    (toLowerCase sortOrder ∉ ["asc", "desc"] → finalSortOrder fallback sortOrder = fallback) := by
  have hasc := finalSortOrder_mem "ASC" sortOrder
  have hdesc := finalSortOrder_mem "DESC" sortOrder
  refine ⟨?_, ?_, ?_, ?_, ?_, ?_, ?_⟩
  · have hb := finalSortBy_mem ["name", "email", "role", "created_at"] "name" sortBy
    unfold usersOrderBy
    generalize finalSortBy ["name", "email", "role", "created_at"] "name" sortBy = b at hb ⊢
    generalize finalSortOrder "ASC" sortOrder = o at hasc ⊢
    simp only [List.mem_cons, List.mem_singleton, List.not_mem_nil, or_false] at hb
    rcases hb with rfl | rfl | rfl | rfl | rfl <;> rcases hasc with rfl | rfl | ⟨rfl, _⟩ <;>
      decide
  · have hb :=
      finalSortBy_mem ["name", "address", "average_rating", "created_at"] "name" sortBy
    unfold storesOrderBy
    generalize finalSortBy ["name", "address", "average_rating", "created_at"] "name" sortBy
      = b at hb ⊢
    generalize finalSortOrder "ASC" sortOrder = o at hasc ⊢
    simp only [List.mem_cons, List.mem_singleton, List.not_mem_nil, or_false] at hb
    rcases hb with rfl | rfl | rfl | rfl | rfl <;> rcases hasc with rfl | rfl | ⟨rfl, _⟩ <;>
      decide
  · have hb := finalSortBy_mem ["rating", "created_at"] "created_at" sortBy
    unfold ratingsByStoreOrderBy
    generalize finalSortBy ["rating", "created_at"] "created_at" sortBy = b at hb ⊢
    generalize finalSortOrder "DESC" sortOrder = o at hdesc ⊢
    simp only [List.mem_cons, List.mem_singleton, List.not_mem_nil, or_false] at hb
    rcases hb with rfl | rfl | rfl <;> rcases hdesc with rfl | rfl | ⟨rfl, _⟩ <;> decide
  · have hb := finalSortBy_mem ["rating", "created_at", "store_name"] "created_at" sortBy
    unfold myRatingsOrderBy
    generalize finalSortBy ["rating", "created_at", "store_name"] "created_at" sortBy
      = b at hb ⊢
    generalize finalSortOrder "DESC" sortOrder = o at hdesc ⊢
    simp only [List.mem_cons, List.mem_singleton, List.not_mem_nil, or_false] at hb
    rcases hb with rfl | rfl | rfl | rfl <;> rcases hdesc with rfl | rfl | ⟨rfl, _⟩ <;> decide
  · have hb :=
      finalSortBy_mem ["rating", "created_at", "user_name", "store_name"] "created_at" sortBy
    unfold allRatingsOrderBy
    generalize
      finalSortBy ["rating", "created_at", "user_name", "store_name"] "created_at" sortBy
      = b at hb ⊢
    generalize finalSortOrder "DESC" sortOrder = o at hdesc ⊢
    simp only [List.mem_cons, List.mem_singleton, List.not_mem_nil, or_false] at hb
    rcases hb with rfl | rfl | rfl | rfl | rfl <;> rcases hdesc with rfl | rfl | ⟨rfl, _⟩ <;>
      decide
  · intro h
    simp [finalSortBy, h]
  · intro h
    have hno : ¬ ((["asc", "desc"].contains (toLowerCase sortOrder)) = true) := by
      simpa using h
    unfold finalSortOrder
    rw [if_neg hno]

/-- C15 at the request `sortBy = "name; DROP TABLE users"`, `sortOrder = "DeSc"`. -/
theorem C15_witness :
    usersOrderBy "name; DROP TABLE users" "DeSc" = "name DESC" ∧
    finalSortBy ["rating", "created_at"] "created_at" "name; DROP TABLE users" = "created_at" ∧
    finalSortOrder "ASC" "descending" = "ASC" :=
  ⟨by decide,
   (C15_order_by_from_fixed_set "name; DROP TABLE users" "descending" ["rating", "created_at"]
      "created_at").2.2.2.2.2.1 (by decide),
   (C15_order_by_from_fixed_set "name; DROP TABLE users" "descending" ["rating", "created_at"]
      "ASC").2.2.2.2.2.2 (by decide)⟩

theorem anySuffix_iff (k : List Char → Bool) (t : List Char) :
    anySuffix k t = true ↔ ∃ s, s <:+ t ∧ k s = true := by
  induction t with
  | nil =>
    simp only [anySuffix, List.suffix_nil]
    constructor
    · intro h; exact ⟨[], rfl, h⟩
    · rintro ⟨s, rfl, h⟩; exact h
  | cons c cs ih =>
    simp only [anySuffix, Bool.or_eq_true, ih, List.suffix_cons_iff]
    constructor
    · rintro (h | ⟨s, hs, hk⟩)
      · exact ⟨c :: cs, Or.inl rfl, h⟩
      · exact ⟨s, Or.inr hs, hk⟩
    · rintro ⟨s, rfl | hs, hk⟩
      · exact Or.inl hk
      · exact Or.inr ⟨s, hs, hk⟩

theorem containsText_iff_infix (needle hay : List Char) :
    containsText needle hay = true ↔ needle <:+: hay := by
  rw [containsText, anySuffix_iff, List.infix_iff_prefix_suffix]
  simp only [List.isPrefixOf_iff_prefix]
  constructor
  · rintro ⟨s, h1, h2⟩; exact ⟨s, h2, h1⟩
  · rintro ⟨s, h1, h2⟩; exact ⟨s, h2, h1⟩

theorem anySuffix_isEmpty (t : List Char) : anySuffix (fun s => s.isEmpty) t = true := by
  rw [anySuffix_iff]
  exact ⟨[], List.nil_suffix, rfl⟩

theorem likeMatch_nil (t : List Char) : likeMatch [] t = t.isEmpty := rfl

theorem likeMatch_percent (p t : List Char) :
    likeMatch ('%' :: p) t = anySuffix (likeMatch p) t := by
  delta likeMatch
  rfl

theorem likeMatch_literal_cons (c x : Char) (p t : List Char) (h1 : ¬ c = '%') (h2 : ¬ c = '_')
    (h3 : ¬ c = Char.ofNat 92) :
    likeMatch (c :: p) (x :: t) = (x == c && likeMatch p t) := by
  delta likeMatch
  simp only [List.brecOn, List.rec, h1, h2, h3, if_false]

theorem likeMatch_literal_nil (c : Char) (p : List Char) (h1 : ¬ c = '%') (h2 : ¬ c = '_')
    (h3 : ¬ c = Char.ofNat 92) :
    likeMatch (c :: p) [] = false := by
  delta likeMatch
  simp only [List.brecOn, List.rec, h1, h2, h3, if_false]

theorem likeMatch_literal_prefix (p t : List Char) (hp : ∀ c ∈ p, isLikeMeta c = false) :
    likeMatch (p ++ ['%']) t = p.isPrefixOf t := by
  induction p generalizing t with
  | nil =>
    have h : likeMatch [] = fun s => s.isEmpty := by
      funext s; exact likeMatch_nil s
    simp only [List.nil_append, likeMatch_percent, h, anySuffix_isEmpty, List.isPrefixOf]
  | cons c p ih =>
    have hc := hp c (by simp)
    simp only [isLikeMeta, Bool.or_eq_false_iff, decide_eq_false_iff_not] at hc
    obtain ⟨⟨h1, h2⟩, h3⟩ := hc
    have ih2 := fun t => ih t (fun x hx => hp x (by simp [hx]))
    cases t with
    | nil => simp only [List.cons_append, likeMatch_literal_nil c _ h1 h2 h3, List.isPrefixOf]
    | cons x t =>
      simp only [List.cons_append, likeMatch_literal_cons c x _ t h1 h2 h3, ih2,
        List.isPrefixOf]
      by_cases hxc : x = c
      · simp [hxc]
      · have hcx : ¬ c = x := fun h => hxc h.symm
        have e1 : (x == c) = false := beq_eq_false_iff_ne.mpr hxc
        have e2 : (c == x) = false := beq_eq_false_iff_ne.mpr hcx
        rw [e1, e2]

theorem toLower_not_meta (c : Char) (h : isLikeMeta c = false) : isLikeMeta c.toLower = false := by
  by_cases hr : 65 ≤ c.toNat ∧ c.toNat ≤ 90
  · have hc := (Char.ofNat_toNat c).symm
    generalize c.toNat = n at hr hc
    subst hc
    obtain ⟨h1, h2⟩ := hr
    interval_cases n <;> decide
  · have hsame : c.toLower = c := by
      simp only [Char.toLower]
      rw [if_neg hr]
    rw [hsame]; exact h

theorem ilikeContains_eq_containsIgnoreCase (column term : String)
    (h : ∀ c ∈ term.data, isLikeMeta c = false) :
    ilikeContains column term = containsIgnoreCase column term := by
  have hmap : (('%' :: term.data) ++ ['%']).map Char.toLower
      = '%' :: (term.data.map Char.toLower ++ ['%']) := by
    simp only [List.cons_append, List.map_cons, List.map_append, List.map_nil]
    have : Char.toLower '%' = '%' := by decide
    rw [this]
  have hlow : ∀ c ∈ term.data.map Char.toLower, isLikeMeta c = false := by
    intro c hc
    obtain ⟨d, hd, rfl⟩ := List.mem_map.mp hc
    exact toLower_not_meta d (h d hd)
  unfold ilikeContains containsIgnoreCase containsText
  rw [hmap, likeMatch_percent]
  congr 1
  funext t
  exact likeMatch_literal_prefix _ t hlow

theorem usersSorted_perm (db : Db) (q : UsersQuery) :
    (usersSorted db q).Perm (db.users.filter (usersWhere q)) := by
  unfold usersSorted
  simp only
  split_ifs <;> exact orderBy_perm _ _ _

theorem usersWhere_eq_substring (q : UsersQuery) (u : User)
    (hname : ∀ c ∈ (q.name.getD "").data, isLikeMeta c = false)
    (hemail : ∀ c ∈ (q.email.getD "").data, isLikeMeta c = false)
    (haddress : ∀ c ∈ (q.address.getD "").data, isLikeMeta c = false) :
    usersWhere q u = usersWhereSubstring q u := by
  unfold usersWhere usersWhereSubstring
  rw [ilikeContains_eq_containsIgnoreCase u.name _ hname,
    ilikeContains_eq_containsIgnoreCase u.email _ hemail,
    ilikeContains_eq_containsIgnoreCase u.address _ haddress]

/-- C16 as stated fails: with the name filter `_` the WHERE clause of
`getAllUsers` accepts the user named `Alice` (and all three sample users),
although `_` is not a substring of any of the names. -/
theorem C16_counterexample :
    usersWhere ⟨1, 10, "name", "asc", some "_", none, none, none⟩
      ⟨"u1", "Alice", "alice@x.io", "h1", "1 Main St", "user", 1, 1⟩ = true ∧
    ¬ ("_".data.map Char.toLower <:+: "Alice".data.map Char.toLower) ∧
    (sampleDb.users.filter
      (usersWhere ⟨1, 10, "name", "asc", some "_", none, none, none⟩)).length = 3 ∧
    (sampleDb.users.filter
      (usersWhereSubstring ⟨1, 10, "name", "asc", some "_", none, none, none⟩)).length = 0 := by
  refine ⟨by decide, ?_, by decide, by decide⟩
  rw [← containsText_iff_infix]
  decide

/-- C16 (amended): when the given name, email and address filters hold none of
the LIKE metacharacters `%`, `_` and backslash, the users that `getAllUsers`
counts and returns are exactly those whose name, email and address contain
the respective filter as a case-insensitive substring and whose role equals
the role filter when one is given. (A filter with a metacharacter is matched
as the ILIKE pattern `%filter%`.) -/
theorem C16_filters_without_wildcards_are_substrings (db : Db) (q : UsersQuery)
    (hname : ∀ c ∈ (q.name.getD "").data, isLikeMeta c = false)
    (hemail : ∀ c ∈ (q.email.getD "").data, isLikeMeta c = false)
    (haddress : ∀ c ∈ (q.address.getD "").data, isLikeMeta c = false) :
    db.users.filter (usersWhere q) = db.users.filter (usersWhereSubstring q) ∧
    (∀ rows pg, getAllUsers db q = ⟨200, .ok (rows, pg)⟩ →
      pg.totalCount = (db.users.filter (usersWhereSubstring q)).length ∧
      ∀ row ∈ rows, ∃ u ∈ db.users, usersWhereSubstring q u = true ∧ row = userRow db u) ∧
    (∀ column term : String, containsIgnoreCase column term = true ↔
      term.data.map Char.toLower <:+: column.data.map Char.toLower) := by
  have hfun : usersWhere q = usersWhereSubstring q :=
    funext (fun u => usersWhere_eq_substring q u hname hemail haddress)
  refine ⟨by rw [hfun], ?_, fun column term => containsText_iff_infix _ _⟩
  intro rows pg h
  unfold getAllUsers at h
  simp only at h
  split at h
  · simp at h
  · simp only [Res.mk.injEq, Except.ok.injEq, Prod.mk.injEq, true_and] at h
    obtain ⟨hrows, hpg⟩ := h
    subst hrows; subst hpg
    refine ⟨by rw [hfun], ?_⟩
    intro row hrow
    obtain ⟨u, hu, rfl⟩ := List.mem_map.mp hrow
    have hu2 : u ∈ usersSorted db q :=
      List.mem_of_mem_drop (List.mem_of_mem_take hu)
    have hu3 : u ∈ db.users.filter (usersWhere q) := (usersSorted_perm db q).mem_iff.mp hu2
    rw [hfun] at hu3
    exact ⟨u, (List.mem_filter.mp hu3).1, (List.mem_filter.mp hu3).2, rfl⟩

/-- C16 for the name filter `ali` on the sample database: exactly `Alice`. -/
theorem C16_witness :
    sampleDb.users.filter (usersWhere ⟨1, 10, "name", "asc", some "ali", none, none, none⟩)
      = sampleDb.users.filter
          (usersWhereSubstring ⟨1, 10, "name", "asc", some "ali", none, none, none⟩) :=
  (C16_filters_without_wildcards_are_substrings sampleDb
    ⟨1, 10, "name", "asc", some "ali", none, none, none⟩ (by decide) (by decide)
    (by decide)).1

theorem storeAverage_eq_div (db : Db) (s : Store) :
    storeAverage db s
      = (ratingSum (storeRatings db s) : ℚ) / ((max (storeRatings db s).length 1 : Nat) : ℚ) := by
  unfold storeAverage
  by_cases h : (storeRatings db s).length = 0
  · have hnil : storeRatings db s = [] := List.length_eq_zero.mp h
    simp [hnil, ratingSum]
  · have hmax : max (storeRatings db s).length 1 = (storeRatings db s).length := by omega
    rw [if_neg h, hmax]
    rfl

theorem ranksBefore_iff (db : Db) (a b : Store) :
    ranksBefore db a b = true ↔ RanksAtLeast db a b := by
  have hA : (0 : ℚ) < ((max (storeRatings db a).length 1 : Nat) : ℚ) := by
    exact_mod_cast (by omega : 0 < max (storeRatings db a).length 1)
  have hB : (0 : ℚ) < ((max (storeRatings db b).length 1 : Nat) : ℚ) := by
    exact_mod_cast (by omega : 0 < max (storeRatings db b).length 1)
  unfold ranksBefore RanksAtLeast
  rw [storeAverage_eq_div db a, storeAverage_eq_div db b, div_lt_div_iff₀ hB hA,
    div_eq_div_iff (ne_of_gt hB) (ne_of_gt hA)]
  simp only [Bool.or_eq_true, Bool.and_eq_true, decide_eq_true_eq]
  constructor
  · rintro (h | ⟨h1, h2⟩)
    · left; exact_mod_cast h
    · right; exact ⟨by exact_mod_cast h1, h2⟩
  · rintro (h | ⟨h1, h2⟩)
    · left; exact_mod_cast h
    · right; exact ⟨by exact_mod_cast h1, h2⟩

theorem ranksAtLeast_total (db : Db) (a b : Store) : RanksAtLeast db a b ∨ RanksAtLeast db b a := by
  unfold RanksAtLeast
  rcases lt_trichotomy (storeAverage db a) (storeAverage db b) with h | h | h
  · right; left; exact h
  · rcases le_total (storeRatings db a).length (storeRatings db b).length with hc | hc
    · right; right; exact ⟨h, hc⟩
    · left; right; exact ⟨h.symm, hc⟩
  · left; left; exact h

theorem ranksAtLeast_trans (db : Db) (a b c : Store) (hab : RanksAtLeast db a b)
    (hbc : RanksAtLeast db b c) : RanksAtLeast db a c := by
  unfold RanksAtLeast at *
  rcases hab with h1 | ⟨h1, h1c⟩ <;> rcases hbc with h2 | ⟨h2, h2c⟩
  · left; exact lt_trans h2 h1
  · left; rw [h2]; exact h1
  · left; rw [← h1]; exact h2
  · right; exact ⟨h2.trans h1, le_trans h2c h1c⟩

theorem ranked_sorted (db : Db) :
    List.Pairwise (RanksAtLeast db)
      (db.stores.insertionSort (fun a b => ranksBefore db a b = true)) := by
  haveI : IsTotal Store (fun a b => ranksBefore db a b = true) :=
    ⟨fun a b => by
      rw [ranksBefore_iff, ranksBefore_iff]; exact ranksAtLeast_total db a b⟩
  haveI : IsTrans Store (fun a b => ranksBefore db a b = true) :=
    ⟨fun a b c hab hbc => by
      rw [ranksBefore_iff] at *; exact ranksAtLeast_trans db a b c hab hbc⟩
  have h := List.sorted_insertionSort (fun a b => ranksBefore db a b = true) db.stores
  exact List.Pairwise.imp (fun hab => (ranksBefore_iff db _ _).mp hab) h

/-- C17: `getAdminStats` answers 200 and its `topStores` are the rows of
`topStoresRanked`: exactly `min(5, number of stores)` of them, ordered by
average rating descending and then by rating count descending; the remaining
stores all rank no higher than every listed store; a store without ratings
takes part with average 0. -/
theorem C17_top_stores_ranked (db : Db) :
    (∃ stats, getAdminStats db = ⟨200, .ok stats⟩ ∧
      stats.topStores.map (fun r => r.id) = (topStoresRanked db).map (fun s => s.id) ∧
      stats.topStores.length = min 5 db.stores.length) ∧
    (topStoresRanked db).length = min 5 db.stores.length ∧
    List.Pairwise (RanksAtLeast db) (topStoresRanked db) ∧
    (∃ rest, (topStoresRanked db ++ rest).Perm db.stores ∧
      ∀ t ∈ topStoresRanked db, ∀ s ∈ rest, RanksAtLeast db t s ∧
        ¬ (storeAverage db t < storeAverage db s)) ∧
    (∀ s : Store, storeRatings db s = [] → storeAverage db s = 0) := by
  have hlen : (topStoresRanked db).length = min 5 db.stores.length := by
    simp [topStoresRanked, List.length_take, List.length_insertionSort]
  have hsorted := ranked_sorted db
  refine ⟨⟨_, rfl, ?_, ?_⟩, hlen, ?_, ?_, ?_⟩
  · simp [List.map_map, Function.comp_def]
  · simpa using hlen
  · exact hsorted.sublist (List.take_sublist _ _)
  · refine ⟨(db.stores.insertionSort (fun a b => ranksBefore db a b = true)).drop 5, ?_, ?_⟩
    · unfold topStoresRanked
      rw [List.take_append_drop]
      exact List.perm_insertionSort _ _
    · intro t ht s hs
      unfold topStoresRanked at ht
      rw [← List.take_append_drop 5
        (db.stores.insertionSort (fun a b => ranksBefore db a b = true))] at hsorted
      have h := (List.pairwise_append.mp hsorted).2.2 t ht s hs
      refine ⟨h, ?_⟩
      rcases h with h | ⟨h, _⟩
      · exact not_lt.mpr (le_of_lt h)
      · rw [h]; exact lt_irrefl _
  · intro s hs
    simp [storeAverage, hs]

/-- C17 on seven stores: five are listed, in the order `t1, t3, t2, t4, t5`. -/
theorem C17_witness :
    (topStoresRanked sevenStoresDb).map (fun s => s.id) = ["t1", "t3", "t2", "t4", "t5"] ∧
    (topStoresRanked sevenStoresDb).length = min 5 sevenStoresDb.stores.length ∧
    storeAverage sevenStoresDb ⟨"t7", "Seven", "seven@x.io", "7 High St", "u3", 7, 7⟩ = 0 :=
  ⟨by decide, (C17_top_stores_ranked sevenStoresDb).2.1,
   (C17_top_stores_ranked sevenStoresDb).2.2.2.2 _ (by decide)⟩

theorem getStoreStats_denied (cal : Calendar) (db : Db) (user : AuthUser) (S : String)
    (hrole : user.role ≠ "admin")
    (hown : ∀ s ∈ db.stores, ¬ (s.id = S ∧ s.owner_id = user.id)) :
    getStoreStats cal db user S = ⟨403, .error "Access denied to this store"⟩ := by
  have hnil : db.stores.filter (fun s => s.id == S && s.owner_id == user.id) = [] := by
    rw [List.filter_eq_nil_iff]
    intro s hs
    simpa using hown s hs
  simp [getStoreStats, hrole, hnil]

theorem getStoreStats_ok_only (cal : Calendar) (db : Db) (user : AuthUser) (S : String)
    (h : (getStoreStats cal db user S).status = 200) :
    user.role = "admin" ∨ ∃ s ∈ db.stores, s.id = S ∧ s.owner_id = user.id := by
  by_contra hc
  push_neg at hc
  have := getStoreStats_denied cal db user S hc.1 (fun s hs hcon => hc.2 s hs hcon.1 hcon.2)
  rw [this] at h
  simp at h

/-- C18: `getStoreStats` answers 200 only when the caller is an admin or owns
the store; a caller who is neither gets 403 without store data, also for a
store id that does not exist, while an admin asking for a store id that does
not exist gets 404. An admin or the owner of an existing store whose owner
row exists gets 200 with that store. The same holds behind the role gate of
the route. -/
theorem C18_store_stats_access (cal : Calendar) (db : Db) (user : AuthUser) (S : String) :
    ((getStoreStats cal db user S).status = 200 →
      user.role = "admin" ∨ ∃ s ∈ db.stores, s.id = S ∧ s.owner_id = user.id) ∧
    (user.role ≠ "admin" → (∀ s ∈ db.stores, ¬ (s.id = S ∧ s.owner_id = user.id)) →
      getStoreStats cal db user S = ⟨403, .error "Access denied to this store"⟩ ∧
      (getStoreStatsRoute cal db user S).1.status = 403 ∧
      (getStoreStatsRoute cal db user S).2 = db) ∧
    (user.role = "admin" → (∀ s ∈ db.stores, s.id ≠ S) →
      getStoreStats cal db user S = ⟨404, .error "Store not found"⟩ ∧
      getStoreStatsRoute cal db user S = (⟨404, .error "Store not found"⟩, db)) ∧
    (user.role ≠ "admin" → (∀ s ∈ db.stores, s.id ≠ S) →
      getStoreStats cal db user S = ⟨403, .error "Access denied to this store"⟩) ∧
    ((user.role = "admin" ∨ ∃ s ∈ db.stores, s.id = S ∧ s.owner_id = user.id) →
      (∃ s ∈ db.stores, s.id = S ∧ ∃ u ∈ db.users, u.id = s.owner_id) →
      ∃ stats, getStoreStats cal db user S = ⟨200, .ok stats⟩ ∧ stats.store.id = S) := by
  refine ⟨getStoreStats_ok_only cal db user S, ?_, ?_, ?_, ?_⟩
  · intro hrole hown
    have h := getStoreStats_denied cal db user S hrole hown
    refine ⟨h, ?_, ?_⟩
    · unfold getStoreStatsRoute behind
      split
      · rename_i answer hgate
        unfold authorizeRoles at hgate
        split at hgate
        · cases hgate; rfl
        · cases hgate
      · rw [h]
    · unfold getStoreStatsRoute behind
      split <;> rfl
  · intro hrole hno
    have hnil : db.stores.filter (fun s => s.id == S) = [] := by
      rw [List.filter_eq_nil_iff]
      intro s hs
      simpa using hno s hs
    have h : getStoreStats cal db user S = ⟨404, .error "Store not found"⟩ := by
      simp [getStoreStats, hrole, hnil]
    refine ⟨h, ?_⟩
    simp [getStoreStatsRoute, behind, authorizeRoles, hrole, h]
  · intro hrole hno
    exact getStoreStats_denied cal db user S hrole (fun s hs hc => hno s hs hc.1)
  · intro hacc hex
    have hgate : ¬ (user.role ≠ "admin" ∧
        (db.stores.filter (fun s => s.id == S && s.owner_id == user.id)).length = 0) := by
      rintro ⟨hrole, hlen⟩
      rcases hacc with hadm | ⟨s, hs, h1, h2⟩
      · exact hrole hadm
      · have : s ∈ db.stores.filter (fun s => s.id == S && s.owner_id == user.id) := by
          simp [List.mem_filter, hs, h1, h2]
        rw [List.length_eq_zero.mp hlen] at this
        cases this
    obtain ⟨s, hs, hid, u, hu, huid⟩ := hex
    have hmem : (s, u) ∈ (db.stores.filter (fun s => s.id == S)).flatMap (fun s =>
        (db.users.filter (fun u => s.owner_id == u.id)).map (fun u => (s, u))) := by
      simp only [List.mem_flatMap, List.mem_filter, List.mem_map]
      exact ⟨s, ⟨hs, by simp [hid]⟩, u, ⟨hu, by simp [huid]⟩, rfl⟩
    unfold getStoreStats
    rw [if_neg hgate]
    simp only
    cases hres : (db.stores.filter (fun s => s.id == S)).flatMap (fun s =>
        (db.users.filter (fun u => s.owner_id == u.id)).map (fun u => (s, u))) with
    | nil => rw [hres] at hmem; cases hmem
    | cons p rest =>
      obtain ⟨s', u'⟩ := p
      have hp : (s', u') ∈ (db.stores.filter (fun s => s.id == S)).flatMap (fun s =>
          (db.users.filter (fun u => s.owner_id == u.id)).map (fun u => (s, u))) := by
        rw [hres]; simp
      simp only [List.mem_flatMap, List.mem_filter, List.mem_map, Prod.mk.injEq] at hp
      obtain ⟨s2, ⟨_, hs2⟩, u2, _, rfl, _⟩ := hp
      exact ⟨_, rfl, by simpa using hs2⟩

/-- C18 on the sample database: the plain user `u1` is denied store `s1`, the
admin `u2` gets 404 for the unknown `s9`, the owner `u3` gets the statistics
of `s1`. -/
theorem C18_witness :
    getStoreStats sampleCalendar sampleDb ⟨"u1", "alice@x.io", "user"⟩ "s1"
      = ⟨403, .error "Access denied to this store"⟩ ∧
    getStoreStats sampleCalendar sampleDb ⟨"u2", "bob@x.io", "admin"⟩ "s9"
      = ⟨404, .error "Store not found"⟩ ∧
    getStoreStats sampleCalendar sampleDb ⟨"u3", "carol@x.io", "store_owner"⟩ "s9"
      = ⟨403, .error "Access denied to this store"⟩ ∧
    (∃ stats, getStoreStats sampleCalendar sampleDb ⟨"u3", "carol@x.io", "store_owner"⟩ "s1"
      = ⟨200, .ok stats⟩ ∧ stats.store.id = "s1") :=
  ⟨((C18_store_stats_access sampleCalendar sampleDb ⟨"u1", "alice@x.io", "user"⟩ "s1").2.1
      (by decide) (by decide)).1,
   ((C18_store_stats_access sampleCalendar sampleDb ⟨"u2", "bob@x.io", "admin"⟩ "s9").2.2.1
      rfl (by decide)).1,
   (C18_store_stats_access sampleCalendar sampleDb ⟨"u3", "carol@x.io", "store_owner"⟩
      "s9").2.2.2.1 (by decide) (by decide),
   (C18_store_stats_access sampleCalendar sampleDb ⟨"u3", "carol@x.io", "store_owner"⟩
      "s1").2.2.2.2
      (Or.inr ⟨⟨"s1", "Shop", "shop@x.io", "4 Main St", "u3", 4, 4⟩, by decide, rfl, rfl⟩)
      ⟨⟨"s1", "Shop", "shop@x.io", "4 Main St", "u3", 4, 4⟩, by decide, rfl,
        ⟨"u3", "Carol", "carol@x.io", "h3", "3 Main St", "store_owner", 3, 3⟩, by decide, rfl⟩⟩

/-- C19 at the failing input: owner `u3` has two stores named `Shop`, each with
exactly one rating of 5; the `ratingDistribution` of `getStoreOwnerStats` has
the single entry `(rating 5, count 2, Shop)` instead of one entry of count 1
for each store. -/
theorem C19_same_name_stores_merged :
    (getStoreOwnerStats twinStoresDb "u3").status = 200 ∧
    ownerRatingDistribution twinStoresDb "u3" = [⟨5, 2, "Shop"⟩] ∧
    (∃ stats, getStoreOwnerStats twinStoresDb "u3" = ⟨200, .ok stats⟩ ∧
      stats.ratingDistribution = some [⟨5, 2, "Shop"⟩] ∧ stats.totalStores = 2) ∧
    ((twinStoresDb.ratings.filter (fun r => r.store_id == "d1" && r.rating == 5)).length = 1 ∧
     (twinStoresDb.ratings.filter (fun r => r.store_id == "d2" && r.rating == 5)).length = 1) := by
  refine ⟨by decide, by decide, ⟨_, rfl, by decide, by decide⟩, by decide, by decide⟩

theorem submitRatingRaising_noRaise (db : Db) (env : Env) (userId : String)
    (storeId : Option String) (rating : Option Int) :
    submitRatingRaising noRaise db env userId storeId rating
      = submitRating db env userId storeId rating := by
  simp only [submitRatingRaising, submitRating, noRaise]

theorem createStoreRaising_noRaise (db : Db) (env : Env) (name email address : String)
    (ownerId : Option String) :
    createStoreRaising noRaise db env name email address ownerId
      = createStore db env name email address ownerId := by
  simp only [createStoreRaising, createStore, noRaise, ite_self]

theorem updateStoreRaising_noRaise (db : Db) (env : Env) (id name email address : String) :
    updateStoreRaising noRaise db env id name email address
      = updateStore db env id name email address := by
  simp only [updateStoreRaising, updateStore, noRaise]

theorem submitRatingRaising_insert_raises (raise : Nat → Option String) (db : Db) (env : Env)
    (U S : String) (rating : Option Int) (code : String)
    (hS : ∃ s ∈ db.stores, s.id = S)
    (hR : ∀ r ∈ db.ratings, ¬ (r.user_id = U ∧ r.store_id = S))
    (h1 : raise 1 = none) (h2 : raise 2 = none) (h3 : raise 3 = some code) :
    submitRatingRaising raise db env U (some S) rating
      = (⟨500, .error "Internal server error"⟩, db) := by
  have hs := storeCheck_length_pos db S hS
  have hr : existingRating db U (some S) = [] :=
    existingRating_eq_nil db U (some S) (by simpa using hR)
  simp [submitRatingRaising, h1, h2, h3, hs, hr, catchAll]

theorem registerRaising_insert_duplicate (raise : Nat → Option String) (lib : AuthLib) (db : Db)
    (env : Env) (name email password address : String)
    (hE : ∀ u ∈ db.users, u.email ≠ email)
    (h1 : raise 1 = none) (h2 : raise 2 = some "23505") :
    registerRaising raise lib db env name email password address
      = (⟨409, .error "User with this email already exists"⟩, db) := by
  have hnil : db.users.filter (fun u => u.email == email) = [] := by
    rw [List.filter_eq_nil_iff]
    intro u hu
    simpa using hE u hu
  simp [registerRaising, h1, h2, hnil, catchDuplicate]

/-- C20 at the failing inputs: when the INSERT of `submitRating` or the UPDATE
of `updateUser` or `updateStore` raises a duplicate-key violation (code
23505), the handler answers 500, not 409; when the INSERT of `register`,
`createUser` or `createStore` raises it, the handler answers 409. -/
theorem C20_duplicate_key_answers :
    (submitRatingRaising raiseThird sampleDb ⟨"r2", 7⟩ "u2" (some "s1") (some 4)).1.status = 500 ∧
    (updateUserRaising raiseThird sampleDb ⟨"x", 7⟩ "u1" "Alice" "alice@x.io" "1 Main St"
      "user").1.status = 500 ∧
    (updateStoreRaising raiseThird sampleDb ⟨"x", 7⟩ "s1" "Shop" "shop@x.io"
      "4 Main St").1.status = 500 ∧
    (registerRaising raiseSecond sampleAuthLib sampleDb ⟨"u4", 7⟩ "Dan" "dan@x.io" "Secret!1"
      "8 Main St").1.status = 409 ∧
    (createUserRaising raiseSecond sampleAuthLib sampleDb ⟨"u4", 7⟩ "Dan" "dan@x.io" "Secret!1"
      "8 Main St" none).1.status = 409 ∧
    (createStoreRaising raiseFourth sampleDb ⟨"s3", 7⟩ "Bakery" "bakery@x.io" "6 Main St"
      (some "u3")).1.status = 409 := by
  refine ⟨by decide, by decide, by decide, by decide, by decide, by decide⟩

/-- C21 at the failing input: the form `validRegisterForm` meets every stated
limit (name of 25 characters, address of 9, password of 12 with an uppercase
letter and a special character), yet `validateForm` returns the name message;
it does so for every form, because each length is above 20 or below 60. -/
theorem C21_validateForm_rejects_every_form :
    (jsLength validRegisterForm.name = 25 ∧ jsLength validRegisterForm.address = 9 ∧
      jsLength validRegisterForm.password = 12 ∧
      validRegisterForm.password.data.any isUpperAZ = true ∧
      validRegisterForm.password.data.any (fun c => specialChars.contains c) = true) ∧
    validateForm validRegisterForm = some "Name must be between 20 and 60 characters" ∧
    (∀ f : RegisterForm, validateForm f = some "Name must be between 20 and 60 characters") := by
  refine ⟨by decide, by decide, ?_⟩
  intro f
  have h : jsLength f.name > 20 ∨ jsLength f.name < 60 := by omega
  simp [validateForm, h]

theorem register_conflict (lib : AuthLib) (db : Db) (env : Env)
    (name email password address : String) (h : ∃ u ∈ db.users, u.email = email) :
    register lib db env name email password address
      = (⟨409, .error "User with this email already exists"⟩, db) := by
  obtain ⟨u, hu, he⟩ := h
  have hpos : (db.users.filter (fun u => u.email == email)).length > 0 :=
    List.length_pos_of_mem (a := u) (by simp [List.mem_filter, hu, he])
  simp [register, registerRaising, noRaise, hpos]

theorem register_created (lib : AuthLib) (db : Db) (env : Env)
    (name email password address : String) (h : ∀ u ∈ db.users, u.email ≠ email) :
    register lib db env name email password address
      = (⟨201, .ok ⟨lib.generateToken ⟨env.newId, email, "user"⟩,
            ⟨env.newId, name, email, address, "user", env.now⟩⟩⟩,
          { db with users := db.users ++
              [⟨env.newId, name, email, lib.hash password, address, "user", env.now,
                env.now⟩] }) := by
  have hnil : db.users.filter (fun u => u.email == email) = [] := by
    rw [List.filter_eq_nil_iff]
    intro u hu
    simpa using h u hu
  simp [register, registerRaising, noRaise, hnil]

theorem email_taken_or_free (db : Db) (email : String) :
    (∃ u ∈ db.users, u.email = email) ∨ (∀ u ∈ db.users, u.email ≠ email) := by
  by_cases h : ∃ u ∈ db.users, u.email = email
  · exact Or.inl h
  · right
    intro u hu he
    exact h ⟨u, hu, he⟩

theorem login_of_single_row (lib : AuthLib) (db : Db) (email password : String) (u : User)
    (rest : List User) (hrow : db.users.filter (fun v => v.email == email) = u :: rest)
    (hcmp : lib.compare password u.password = true) :
    login lib db email password
      = ⟨200, .ok ⟨lib.generateToken ⟨u.id, u.email, u.role⟩, ⟨u.id, u.name, u.email, u.role⟩⟩⟩ := by
  simp [login, hrow, hcmp, userWithoutPassword]

/-- C22: assume `compare(p, hash(p))` holds and `verifyToken(generateToken(x))`
gives back the `userId` of `x` (as it does when it gives back `x`). When
`register` answers 201 for an e-mail and a password, `login` with the same
pair on the resulting database, and on every later database in which the rows
with that e-mail are still the registered row, answers 200 with a token that
decodes to the id of the user `register` created. -/
theorem C22_register_then_login (lib : AuthLib) (db later : Db) (env : Env)
    (name email password address : String)
    (hcompare : ∀ p : String, lib.compare p (lib.hash p) = true)
    (hverify : ∀ x : TokenPayload,
      (lib.verifyToken (lib.generateToken x)).map (fun t => t.userId) = some x.userId)
    (hreg : (register lib db env name email password address).1.status = 201) :
    ∃ created : Registered,
      (register lib db env name email password address).1 = ⟨201, .ok created⟩ ∧
      (∃ token user,
        login lib (register lib db env name email password address).2 email password
          = ⟨200, .ok ⟨token, user⟩⟩ ∧
        (lib.verifyToken token).map (fun t => t.userId) = some created.user.id ∧
        user.id = created.user.id) ∧
      (later.users.filter (fun v => v.email == email)
          = [⟨created.user.id, name, email, lib.hash password, address, "user", env.now,
              env.now⟩] →
        ∃ token user, login lib later email password = ⟨200, .ok ⟨token, user⟩⟩ ∧
          (lib.verifyToken token).map (fun t => t.userId) = some created.user.id) := by
  rcases email_taken_or_free db email with hex | hno
  · rw [register_conflict lib db env name email password address hex] at hreg
    simp at hreg
  · have hnil : db.users.filter (fun u => u.email == email) = [] := by
      rw [List.filter_eq_nil_iff]
      intro u hu
      simpa using hno u hu
    rw [register_created lib db env name email password address hno]
    refine ⟨_, rfl, ?_, ?_⟩
    · refine ⟨_, _, login_of_single_row lib _ email password
        ⟨env.newId, name, email, lib.hash password, address, "user", env.now, env.now⟩ [] ?_
        (hcompare password), ?_, rfl⟩
      · simp [List.filter_append, hnil, List.filter_cons]
      · exact hverify _
    · intro hlater
      exact ⟨_, _, login_of_single_row lib later email password _ [] hlater (hcompare password),
        hverify _⟩

/-- C22 with the sample libraries: Dan registers and logs in. -/
theorem C22_witness :
    ∃ created : Registered,
      (register decodingAuthLib sampleDb ⟨"u4", 7⟩ "Dan" "dan@x.io" "Secret!1" "8 Main St").1
        = ⟨201, .ok created⟩ ∧
      ∃ token user,
        login decodingAuthLib
          (register decodingAuthLib sampleDb ⟨"u4", 7⟩ "Dan" "dan@x.io" "Secret!1"
            "8 Main St").2
          "dan@x.io" "Secret!1" = ⟨200, .ok ⟨token, user⟩⟩ ∧
        user.id = created.user.id := by
  obtain ⟨created, h1, ⟨token, user, h2, _, h3⟩, _⟩ :=
    C22_register_then_login decodingAuthLib sampleDb sampleDb ⟨"u4", 7⟩ "Dan" "dan@x.io"
      "Secret!1" "8 Main St"
      (by intro p; simp [decodingAuthLib])
      (by intro x; simp [decodingAuthLib, String.data_append])
      (by decide)
  exact ⟨created, h1, token, user, h2, h3⟩

/-- C23: when a user row already has the e-mail, `register` answers 409 and
leaves the database unchanged; a second `register` with the same e-mail
answers 409 whatever the first one answered; and the users table after
`register` holds the old rows and at most one new row, whose role is `user`. -/
theorem C23_register_conflict_and_role (lib : AuthLib) (db : Db) (env env2 : Env)
    (name email password address name2 password2 address2 : String) :
    ((∃ u ∈ db.users, u.email = email) →
      register lib db env name email password address
        = (⟨409, .error "User with this email already exists"⟩, db)) ∧
    (register lib (register lib db env name email password address).2 env2 name2 email
        password2 address2
      = (⟨409, .error "User with this email already exists"⟩,
          (register lib db env name email password address).2)) ∧
    ((register lib db env name email password address).2.users = db.users ∨
      ∃ row : User, row.role = "user" ∧ row.email = email ∧
        (register lib db env name email password address).2.users = db.users ++ [row]) ∧
    (register lib db env name email password address).2.stores = db.stores ∧
    (register lib db env name email password address).2.ratings = db.ratings := by
  refine ⟨register_conflict lib db env name email password address, ?_, ?_, ?_, ?_⟩
  · rcases email_taken_or_free db email with hex | hno
    · rw [register_conflict lib db env name email password address hex]
      exact register_conflict lib db env2 name2 email password2 address2 hex
    · rw [register_created lib db env name email password address hno]
      apply register_conflict
      exact ⟨⟨env.newId, name, email, lib.hash password, address, "user", env.now, env.now⟩,
        by simp, rfl⟩
  · rcases email_taken_or_free db email with hex | hno
    · left; rw [register_conflict lib db env name email password address hex]
    · right
      rw [register_created lib db env name email password address hno]
      exact ⟨_, rfl, rfl, rfl⟩
  · rcases email_taken_or_free db email with hex | hno
    · rw [register_conflict lib db env name email password address hex]
    · rw [register_created lib db env name email password address hno]
  · rcases email_taken_or_free db email with hex | hno
    · rw [register_conflict lib db env name email password address hex]
    · rw [register_created lib db env name email password address hno]

/-- C23 on the sample database: Alice's e-mail is taken. -/
theorem C23_witness :
    register sampleAuthLib sampleDb ⟨"u4", 7⟩ "Alice Again" "alice@x.io" "Secret!1" "9 Main St"
      = (⟨409, .error "User with this email already exists"⟩, sampleDb) :=
  (C23_register_conflict_and_role sampleAuthLib sampleDb ⟨"u4", 7⟩ ⟨"u5", 8⟩ "Alice Again"
    "alice@x.io" "Secret!1" "9 Main St" "n" "p" "a").1
    ⟨⟨"u1", "Alice", "alice@x.io", "h1", "1 Main St", "user", 1, 1⟩, by decide, rfl⟩

/-- C24: let `u` be the first user row with the caller's id. When
`currentPassword` does not match the hash stored in `u`, `changePassword`
answers 401 and the database is unchanged. When it matches, the answer is 200,
stores and ratings are unchanged, and at every position of the users table a
row of another user is unchanged while a row of the caller differs from the
old one only in `password` (now the hash of `newPassword`) and `updated_at`. -/
theorem C24_changePassword_frame (lib : AuthLib) (db : Db) (env : Env)
    (userId currentPassword newPassword : String) (u : User) (rest : List User)
    (hrow : db.users.filter (fun v => v.id == userId) = u :: rest) :
    (lib.compare currentPassword u.password = false →
      changePassword lib db env userId currentPassword newPassword
        = (⟨401, .error "Current password is incorrect"⟩, db)) ∧
    (lib.compare currentPassword u.password = true →
      (changePassword lib db env userId currentPassword newPassword).1 = ⟨200, .ok ()⟩ ∧
      (changePassword lib db env userId currentPassword newPassword).2.stores = db.stores ∧
      (changePassword lib db env userId currentPassword newPassword).2.ratings = db.ratings ∧
      (changePassword lib db env userId currentPassword newPassword).2.users.length
        = db.users.length ∧
      ∀ (i : Nat) (old : User), db.users[i]? = some old →
        ∃ new, (changePassword lib db env userId currentPassword newPassword).2.users[i]?
            = some new ∧
          (old.id ≠ userId → new = old) ∧
          (old.id = userId →
            new = { old with password := lib.hash newPassword, updated_at := env.now })) := by
  constructor
  · intro hcmp
    simp [changePassword, hrow, hcmp]
  · intro hcmp
    simp only [changePassword, hrow, List.map_cons, hcmp, Bool.true_eq_false, if_false]
    refine ⟨trivial, trivial, trivial, by simp, ?_⟩
    intro i old hold
    simp only [List.getElem?_map, hold, Option.map_some']
    refine ⟨_, rfl, ?_, ?_⟩
    · intro hne; simp [hne]
    · intro heq; simp [heq]

/-- C24 with the sample libraries: a wrong current password for `u1` (401) and
the right one for a user whose stored hash is `#old`. -/
theorem C24_witness :
    changePassword sampleAuthLib sampleDb ⟨"x", 9⟩ "u1" "wrong" "Secret!2"
      = (⟨401, .error "Current password is incorrect"⟩, sampleDb) ∧
    (changePassword sampleAuthLib
        ⟨[⟨"u7", "Gil", "gil@x.io", "#old", "7 Main St", "user", 1, 1⟩], [], []⟩ ⟨"x", 9⟩ "u7"
        "old" "Secret!2").1 = ⟨200, .ok ()⟩ :=
  ⟨(C24_changePassword_frame sampleAuthLib sampleDb ⟨"x", 9⟩ "u1" "wrong" "Secret!2"
      ⟨"u1", "Alice", "alice@x.io", "h1", "1 Main St", "user", 1, 1⟩ [] (by decide)).1
      (by decide),
   ((C24_changePassword_frame sampleAuthLib
      ⟨[⟨"u7", "Gil", "gil@x.io", "#old", "7 Main St", "user", 1, 1⟩], [], []⟩ ⟨"x", 9⟩ "u7"
      "old" "Secret!2" ⟨"u7", "Gil", "gil@x.io", "#old", "7 Main St", "user", 1, 1⟩ []
      (by decide)).2 (by decide)).1⟩

theorem filter_map_eraseUser (p : User → Bool) (hp : ∀ u, p (eraseUser u) = p u)
    (l : List User) : (l.map eraseUser).filter p = (l.filter p).map eraseUser := by
  induction l with
  | nil => rfl
  | cons a l ih =>
    by_cases h : p a = true
    · simp [List.filter_cons, hp, h, ih]
    · simp [List.filter_cons, hp, h, ih]

theorem orderBy_map {α β : Type} (f : α → β) (le : α → α → Bool) (le2 : β → β → Bool)
    (h : ∀ a b, le2 (f a) (f b) = le a b) (direction : String) (rows : List α) :
    orderBy le2 direction (rows.map f) = (orderBy le direction rows).map f := by
  unfold orderBy
  split
  · exact (List.map_insertionSort (r := fun a b => le b a = true)
      (s := fun a b => le2 b a = true) f rows (fun a _ b _ => by simp [h])).symm
  · exact (List.map_insertionSort (r := fun a b => le a b = true)
      (s := fun a b => le2 a b = true) f rows (fun a _ b _ => by simp [h])).symm

theorem limitOffset_map {α β : Type} (f : α → β) (limit offset : Nat) (rows : List α) :
    limitOffset limit offset (rows.map f) = (limitOffset limit offset rows).map f := by
  simp [limitOffset, List.map_take, List.map_drop]

theorem getProfile_erase (db : Db) (id : String) :
    getProfile (erasePasswords db) id = getProfile db id := by
  unfold getProfile erasePasswords
  simp only
  rw [filter_map_eraseUser (fun u => u.id == id) (fun _ => rfl)]
  cases db.users.filter (fun u => u.id == id) with
  | nil => rfl
  | cons u l => rfl

theorem userRow_erase (db : Db) (u : User) :
    userRow (erasePasswords db) (eraseUser u) = userRow db u := rfl

theorem getUserById_erase (db : Db) (id : String) :
    getUserById (erasePasswords db) id = getUserById db id := by
  unfold getUserById
  have h : (erasePasswords db).users.filter (fun u => u.id == id)
      = (db.users.filter (fun u => u.id == id)).map eraseUser :=
    filter_map_eraseUser (fun u => u.id == id) (fun _ => rfl) db.users
  rw [h]
  cases db.users.filter (fun u => u.id == id) with
  | nil => rfl
  | cons u l => rfl

theorem usersSorted_erase (db : Db) (q : UsersQuery) :
    usersSorted (erasePasswords db) q = (usersSorted db q).map eraseUser := by
  have hf : (erasePasswords db).users.filter (usersWhere q)
      = (db.users.filter (usersWhere q)).map eraseUser :=
    filter_map_eraseUser (usersWhere q) (fun _ => rfl) db.users
  unfold usersSorted
  simp only [hf]
  split_ifs <;> exact orderBy_map eraseUser _ _ (fun _ _ => rfl) _ _

theorem getAllUsers_erase (db : Db) (q : UsersQuery) :
    getAllUsers (erasePasswords db) q = getAllUsers db q := by
  have hf : (erasePasswords db).users.filter (usersWhere q)
      = (db.users.filter (usersWhere q)).map eraseUser :=
    filter_map_eraseUser (usersWhere q) (fun _ => rfl) db.users
  unfold getAllUsers
  simp only [hf, List.length_map, usersSorted_erase, limitOffset_map, List.map_map]
  rfl

theorem updateUser_erase (db : Db) (env : Env) (id name email address role : String) :
    (updateUser (erasePasswords db) env id name email address role).1
      = (updateUser db env id name email address role).1 := by
  have h1 : (erasePasswords db).users.filter (fun u => u.id == id)
      = (db.users.filter (fun u => u.id == id)).map eraseUser :=
    filter_map_eraseUser (fun u => u.id == id) (fun _ => rfl) db.users
  have h2 : (erasePasswords db).users.filter (fun u => u.email == email && u.id != id)
      = (db.users.filter (fun u => u.email == email && u.id != id)).map eraseUser :=
    filter_map_eraseUser (fun u => u.email == email && u.id != id) (fun _ => rfl) db.users
  have h3 : ∀ g : User → User, (∀ u, g (eraseUser u) = eraseUser (g u)) →
      ((erasePasswords db).users.map (fun u => if u.id == id then g u else u))
        = (db.users.map (fun u => if u.id == id then g u else u)).map eraseUser := by
    intro g hg
    simp only [erasePasswords, List.map_map]
    apply List.map_congr_left
    intro u _
    simp only [Function.comp]
    by_cases hu : (u.id == id) = true
    · have : ((eraseUser u).id == id) = true := hu
      rw [if_pos this, if_pos hu, hg]
    · have : ¬ ((eraseUser u).id == id) = true := hu
      rw [if_neg this, if_neg hu]
  unfold updateUser updateUserRaising noRaise
  simp only [h1, h2, List.length_map]
  split
  · rfl
  · split
    · rfl
    · simp only
      have h4 := h3 (fun u => { u with name := name, email := email, address := address, role := role, updated_at := env.now }) (fun _ => rfl)
      simp only at h4
      rw [h4, filter_map_eraseUser (fun u => u.id == id) (fun _ => rfl), List.map_map]
      rfl

theorem register_erase (lib : AuthLib) (hash2 : String → String) (db : Db) (env : Env)
    (name email password password2 address : String) :
    (register { lib with hash := hash2 } (erasePasswords db) env name email password2 address).1
      = (register lib db env name email password address).1 := by
  have h1 : (erasePasswords db).users.filter (fun u => u.email == email)
      = (db.users.filter (fun u => u.email == email)).map eraseUser :=
    filter_map_eraseUser (fun u => u.email == email) (fun _ => rfl) db.users
  unfold register registerRaising noRaise
  simp only [h1, List.length_map]
  split <;> rfl

theorem createUser_erase (lib : AuthLib) (hash2 : String → String) (db : Db) (env : Env)
    (name email password password2 address : String) (role : Option String) :
    (createUser { lib with hash := hash2 } (erasePasswords db) env name email password2 address
        role).1
      = (createUser lib db env name email password address role).1 := by
  have h1 : (erasePasswords db).users.filter (fun u => u.email == email)
      = (db.users.filter (fun u => u.email == email)).map eraseUser :=
    filter_map_eraseUser (fun u => u.email == email) (fun _ => rfl) db.users
  unfold createUser createUserRaising noRaise
  simp only [h1, List.length_map]
  split
  · rfl
  · split <;> rfl

theorem login_body (lib : AuthLib) (db : Db) (email password : String) (body : LoggedIn)
    (h : (login lib db email password).body = .ok body) :
    ∃ u ∈ db.users, u.email = email ∧
      body = ⟨lib.generateToken ⟨u.id, u.email, u.role⟩, ⟨u.id, u.name, u.email, u.role⟩⟩ := by
  unfold login at h
  simp only at h
  cases hf : db.users.filter (fun u => u.email == email) with
  | nil => simp [hf] at h
  | cons u l =>
    have hu : u ∈ db.users.filter (fun u => u.email == email) := by rw [hf]; simp
    have hu2 : u ∈ db.users ∧ u.email = email := by simpa [List.mem_filter] using hu
    simp only [hf, List.map_cons] at h
    split at h
    · simp at h
    · simp only [Except.ok.injEq] at h
      exact ⟨u, hu2.1, hu2.2, by rw [← h]; rfl⟩

theorem login_agree (lib : AuthLib) (db db2 : Db) (email password password2 : String)
    (h : erasePasswords db2 = erasePasswords db)
    (h1 : (login lib db email password).status = 200)
    (h2 : (login lib db2 email password2).status = 200) :
    login lib db2 email password2 = login lib db email password := by
  have hf : (db2.users.filter (fun u => u.email == email)).map eraseUser
      = (db.users.filter (fun u => u.email == email)).map eraseUser := by
    rw [← filter_map_eraseUser (fun u => u.email == email) (fun _ => rfl),
      ← filter_map_eraseUser (fun u => u.email == email) (fun _ => rfl)]
    exact congrArg (fun d => d.users.filter (fun u => u.email == email)) h
  unfold login at h1 h2 ⊢
  simp only at h1 h2 ⊢
  cases hd : db.users.filter (fun u => u.email == email) with
  | nil => simp [hd] at h1
  | cons u l =>
    cases hd2 : db2.users.filter (fun u => u.email == email) with
    | nil => simp [hd2] at h2
    | cons u2 l2 =>
      rw [hd, hd2] at hf
      simp only [List.map_cons, List.cons.injEq] at hf
      have hu := hf.1
      simp only [eraseUser, User.mk.injEq] at hu
      simp only [hd, hd2, List.map_cons] at h1 h2 ⊢
      split at h1
      · simp at h1
      · split at h2
        · simp at h2
        · rename_i hc1 hc2
          rw [if_neg hc1, if_neg hc2]
          simp [userWithoutPassword, hu.1, hu.2.1, hu.2.2.1, hu.2.2.2.2.2.1]

/-- C25: the answers of `getProfile`, `getAllUsers`, `getUserById`,
`updateUser`, `register` and `createUser` are the same on two databases that
differ only in the stored passwords, whatever password the request carries and
whatever the hash function is; a successful `login` answers the token of the
row's id, e-mail and role with the row's id, name, e-mail and role, and two
successful logins on such databases answer the same. -/
theorem C25_answers_independent_of_passwords (lib : AuthLib) (hash2 : String → String)
    (db db2 : Db) (env : Env) (q : UsersQuery)
    (id name email address role password password2 : String) (orole : Option String)
    (h : erasePasswords db2 = erasePasswords db) :
    getProfile db2 id = getProfile db id
    ∧ getAllUsers db2 q = getAllUsers db q
    ∧ getUserById db2 id = getUserById db id
    ∧ (updateUser db2 env id name email address role).1
        = (updateUser db env id name email address role).1
    ∧ (register { lib with hash := hash2 } db2 env name email password2 address).1
        = (register lib db env name email password address).1
    ∧ (createUser { lib with hash := hash2 } db2 env name email password2 address orole).1
        = (createUser lib db env name email password address orole).1
    ∧ (∀ body, (login lib db email password).body = .ok body →
        ∃ u ∈ db.users, u.email = email ∧
          body = ⟨lib.generateToken ⟨u.id, u.email, u.role⟩, ⟨u.id, u.name, u.email, u.role⟩⟩)
    ∧ ((login lib db email password).status = 200 →
        (login lib db2 email password2).status = 200 →
        login lib db2 email password2 = login lib db email password) := by
  refine ⟨?_, ?_, ?_, ?_, ?_, ?_, ?_, ?_⟩
  · rw [← getProfile_erase db2, h, getProfile_erase]
  · rw [← getAllUsers_erase db2, h, getAllUsers_erase]
  · rw [← getUserById_erase db2, h, getUserById_erase]
  · rw [← updateUser_erase db2, h, updateUser_erase]
  · rw [← register_erase { lib with hash := hash2 } hash2 db2 env name email password2 password2,
      h]
    exact register_erase lib hash2 db env name email password password2 address
  · rw [← createUser_erase { lib with hash := hash2 } hash2 db2 env name email password2
      password2, h]
    exact createUser_erase lib hash2 db env name email password password2 address orole
  · exact fun body hb => login_body lib db email password body hb
  · exact login_agree lib db db2 email password password2 h

/-- C25 on the sample database and a copy of it with other stored hashes:
the same answers; a created user is answered without any password field. -/
theorem C25_witness :
    erasePasswords rehashedDb = erasePasswords sampleDb
    ∧ rehashedDb ≠ sampleDb
    ∧ getUserById rehashedDb "u1" = getUserById sampleDb "u1"
    ∧ (register { sampleAuthLib with hash := fun p => p } rehashedDb ⟨"u9", 9⟩ "Dan" "dan@x.io"
          "Other!Pass2" "9 Main St").1
        = (register sampleAuthLib sampleDb ⟨"u9", 9⟩ "Dan" "dan@x.io" "Secret!Pass1"
            "9 Main St").1
    ∧ (register sampleAuthLib sampleDb ⟨"u9", 9⟩ "Dan" "dan@x.io" "Secret!Pass1" "9 Main St").1
        = ⟨201, .ok ⟨"tok-u9", ⟨"u9", "Dan", "dan@x.io", "9 Main St", "user", 9⟩⟩⟩
    ∧ login sampleAuthLib sampleDb "alice@x.io" "h1"
        = ⟨401, .error "Invalid credentials"⟩ :=
  have h := C25_answers_independent_of_passwords sampleAuthLib (fun p => p) sampleDb rehashedDb
    ⟨"u9", 9⟩ ⟨1, 10, "name", "asc", none, none, none, none⟩ "u1" "Dan" "dan@x.io" "9 Main St"
    "user" "Secret!Pass1" "Other!Pass2" none (by decide)
  ⟨by decide, by decide, h.2.2.1, h.2.2.2.2.1, by decide, by decide⟩

theorem register_roles_valid (lib : AuthLib) (db : Db) (env : Env)
    (name email password address : String) (h : RolesValid db) :
    RolesValid (register lib db env name email password address).2 := by
  unfold register registerRaising noRaise
  simp only
  split
  · exact h
  · intro u hu
    simp only [List.mem_append, List.mem_singleton] at hu
    rcases hu with hu | hu
    · exact h u hu
    · rw [hu]; rfl

theorem createUser_roles_valid (lib : AuthLib) (db : Db) (env : Env)
    (name email password address : String) (role : Option String) (h : RolesValid db) :
    RolesValid (createUser lib db env name email password address role).2 := by
  unfold createUser createUserRaising noRaise
  simp only
  split
  · exact h
  · rename_i hrole
    split
    · exact h
    · intro u hu
      simp only [List.mem_append, List.mem_singleton] at hu
      rcases hu with hu | hu
      · exact h u hu
      · rw [hu]
        cases hv : ["admin", "user", "store_owner"].contains (role.getD "user") with
        | false => exact absurd hv hrole
        | true => exact hv

theorem createUser_invalid_role (lib : AuthLib) (db : Db) (env : Env)
    (name email password address role : String) (h : validRole role = false) :
    createUser lib db env name email password address (some role)
      = (⟨400, .error "Invalid role specified"⟩, db) := by
  unfold createUser createUserRaising
  simp only [Option.getD_some]
  exact if_pos h

theorem createStore_roles_valid (db : Db) (env : Env) (name email address : String)
    (ownerId : Option String) (h : RolesValid db) :
    RolesValid (createStore db env name email address ownerId).2 := by
  unfold createStore
  simp only
  split
  · exact h
  · split
    · intro u hu
      simp only at hu
      split at hu
      · simp only [List.mem_map] at hu
        obtain ⟨v, hv, rfl⟩ := hu
        split
        · rfl
        · exact h v hv
      · exact h u hu
    · exact h

/-- C26 (fails for `updateUser`): on a database whose roles are all valid,
`updateUser` with the body role `superuser` answers 200 and stores that role
for user `u1`, so the roles are no longer all valid; `createUser` with the same
role answers 400 and writes nothing; and where the UPDATE raises, `updateUser`
answers 500, not 400. -/
theorem C26_updateUser_stores_any_role :
    sampleDb.users.all (fun u => validRole u.role) = true
    ∧ validRole "superuser" = false
    ∧ (updateUser sampleDb ⟨"u9", 9⟩ "u1" "Alice" "alice@x.io" "1 Main St" "superuser").1
        = ⟨200, .ok (some ⟨"u1", "Alice", "alice@x.io", "1 Main St", "superuser", 1, 9⟩)⟩
    ∧ ((updateUser sampleDb ⟨"u9", 9⟩ "u1" "Alice" "alice@x.io" "1 Main St" "superuser").2.users.map
          (fun u => (u.id, u.role)))
        = [("u1", "superuser"), ("u2", "admin"), ("u3", "store_owner")]
    ∧ ¬ RolesValid
        (updateUser sampleDb ⟨"u9", 9⟩ "u1" "Alice" "alice@x.io" "1 Main St" "superuser").2
    ∧ createUser sampleAuthLib sampleDb ⟨"u9", 9⟩ "Dan" "dan@x.io" "Secret!Pass1" "9 Main St"
          (some "superuser")
        = (⟨400, .error "Invalid role specified"⟩, sampleDb)
    ∧ updateUserRaising raiseCheckThird sampleDb ⟨"u9", 9⟩ "u1" "Alice" "alice@x.io" "1 Main St"
          "superuser"
        = (⟨500, .error "Internal server error"⟩, sampleDb) := by
  refine ⟨by decide, by decide, by decide, by decide, ?_, by decide, by decide⟩
  intro h
  have h1 := h ⟨"u1", "Alice", "alice@x.io", "h1", "1 Main St", "superuser", 1, 9⟩ (by decide)
  exact absurd h1 (by decide)

theorem usersOrderBy_mem (sortBy sortOrder : String) :
    usersOrderBy sortBy sortOrder ∈
      ["name ASC", "name DESC", "email ASC", "email DESC", "role ASC", "role DESC",
        "created_at ASC", "created_at DESC"] := by
  have hasc := finalSortOrder_mem "ASC" sortOrder
  have hb := finalSortBy_mem ["name", "email", "role", "created_at"] "name" sortBy
  unfold usersOrderBy
  generalize finalSortBy ["name", "email", "role", "created_at"] "name" sortBy = b at hb ⊢
  generalize finalSortOrder "ASC" sortOrder = o at hasc ⊢
  simp only [List.mem_cons, List.mem_singleton, List.not_mem_nil, or_false] at hb
  rcases hb with rfl | rfl | rfl | rfl | rfl <;> rcases hasc with rfl | rfl | ⟨rfl, _⟩ <;>
    decide

theorem storesOrderBy_mem (sortBy sortOrder : String) :
    storesOrderBy sortBy sortOrder ∈
      ["s.name ASC", "s.name DESC", "s.address ASC", "s.address DESC", "average_rating ASC",
        "average_rating DESC", "s.created_at ASC", "s.created_at DESC"] := by
  have hasc := finalSortOrder_mem "ASC" sortOrder
  have hb :=
    finalSortBy_mem ["name", "address", "average_rating", "created_at"] "name" sortBy
  unfold storesOrderBy
  generalize finalSortBy ["name", "address", "average_rating", "created_at"] "name" sortBy
    = b at hb ⊢
  generalize finalSortOrder "ASC" sortOrder = o at hasc ⊢
  simp only [List.mem_cons, List.mem_singleton, List.not_mem_nil, or_false] at hb
  rcases hb with rfl | rfl | rfl | rfl | rfl <;> rcases hasc with rfl | rfl | ⟨rfl, _⟩ <;>
    decide

theorem allRatingsOrderBy_mem (sortBy sortOrder : String) :
    allRatingsOrderBy sortBy sortOrder ∈
      ["r.rating ASC", "r.rating DESC", "r.created_at ASC", "r.created_at DESC", "u.name ASC",
        "u.name DESC", "s.name ASC", "s.name DESC"] := by
  have hdesc := finalSortOrder_mem "DESC" sortOrder
  have hb :=
    finalSortBy_mem ["rating", "created_at", "user_name", "store_name"] "created_at" sortBy
  unfold allRatingsOrderBy
  generalize
    finalSortBy ["rating", "created_at", "user_name", "store_name"] "created_at" sortBy
    = b at hb ⊢
  generalize finalSortOrder "DESC" sortOrder = o at hdesc ⊢
  simp only [List.mem_cons, List.mem_singleton, List.not_mem_nil, or_false] at hb
  rcases hb with rfl | rfl | rfl | rfl | rfl <;> rcases hdesc with rfl | rfl | ⟨rfl, _⟩ <;>
    decide

theorem takeWhile_append_of_head (p : Char → Bool) (a b : List Char)
    (hb : ∀ c ∈ b.head?, p c = false) : (a ++ b).takeWhile p = a.takeWhile p := by
  induction a with
  | nil =>
    cases b with
    | nil => rfl
    | cons c b =>
      have := hb c (by simp)
      simp [List.takeWhile_cons, this]
  | cons x a ih =>
    simp only [List.cons_append, List.takeWhile_cons, ih]

theorem placeholders_cons (c : Char) (cs : List Char) :
    placeholders (c :: cs)
      = if c = '$' then
          (cs.takeWhile Char.isDigit).foldl (fun acc d => 10 * acc + (d.toNat - 48)) 0
            :: placeholders cs
        else placeholders cs := rfl

theorem placeholders_append (a b : List Char) (hb : ∀ c ∈ b.head?, c.isDigit = false) :
    placeholders (a ++ b) = placeholders a ++ placeholders b := by
  induction a with
  | nil => rfl
  | cons x a ih =>
    have ht := takeWhile_append_of_head Char.isDigit a b hb
    rw [List.cons_append, placeholders_cons, placeholders_cons, ih, ht]
    by_cases hx : x = '$'
    · rw [if_pos hx, if_pos hx]
      rfl
    · rw [if_neg hx, if_neg hx]

theorem placeholders_around (a o b : List Char) (ho : placeholders o = [])
    (hoh : ∀ c ∈ o.head?, c.isDigit = false) (hb : ∀ c ∈ b.head?, c.isDigit = false) :
    placeholders (a ++ (o ++ b)) = placeholders a ++ placeholders b := by
  have hob : ∀ c ∈ (o ++ b).head?, c.isDigit = false := by
    cases o with
    | nil => simpa using hb
    | cons x o => simpa using hoh
  rw [placeholders_append a (o ++ b) hob, placeholders_append o b hb, ho, List.nil_append]

theorem foldl_max_upTo (k : Nat) : (upTo k).foldl max 0 = k := by
  induction k with
  | zero => rfl
  | succ k ih =>
    unfold upTo at ih ⊢
    rw [List.range_succ, List.map_append, List.foldl_append, ih]
    simp

theorem placeholders_statement (p w m o l t : List Char) (ho : placeholders o = [])
    (hoh : ∀ c ∈ o.head?, c.isDigit = false) (hl : l ≠ [])
    (hlh : ∀ c ∈ l.head?, c.isDigit = false) :
    placeholders (p ++ (w ++ (m ++ (o ++ (l ++ t)))))
      = placeholders (p ++ (w ++ m)) ++ placeholders (l ++ t) := by
  have hlt : ∀ c ∈ (l ++ t).head?, c.isDigit = false := by
    cases l with
    | nil => exact absurd rfl hl
    | cons x l => simpa using hlh
  have h := placeholders_around (p ++ (w ++ m)) o (l ++ t) ho hoh hlt
  simpa only [List.append_assoc] using h

theorem usersOrderBy_clean (sortBy sortOrder : String) :
    placeholders (usersOrderBy sortBy sortOrder).data = []
      ∧ ∀ c ∈ (usersOrderBy sortBy sortOrder).data.head?, c.isDigit = false := by
  have h := usersOrderBy_mem sortBy sortOrder
  generalize usersOrderBy sortBy sortOrder = o at h ⊢
  simp only [List.mem_cons, List.mem_singleton, List.not_mem_nil, or_false] at h
  rcases h with rfl | rfl | rfl | rfl | rfl | rfl | rfl | rfl <;> decide

theorem usersWhereClause_numbered (q : UsersQuery) :
    placeholders (usersWhereClause q).whereClause.data = upTo (usersWhereClause q).paramCount
    ∧ (usersWhereClause q).queryParams.length = (usersWhereClause q).paramCount
    ∧ (usersWhereClause q).queryParams
        = (if truthy q.name then [SqlParam.text ("%" ++ q.name.getD "" ++ "%")] else [])
          ++ (if truthy q.email then [SqlParam.text ("%" ++ q.email.getD "" ++ "%")] else [])
          ++ (if truthy q.address then [SqlParam.text ("%" ++ q.address.getD "" ++ "%")] else [])
          ++ (if truthy q.role then [SqlParam.text (q.role.getD "")] else []) := by
  by_cases h1 : truthy q.name = true <;> by_cases h2 : truthy q.email = true <;>
    by_cases h3 : truthy q.address = true <;> by_cases h4 : truthy q.role = true <;>
    simp only [usersWhereClause, h1, h2, h3, h4, if_true, if_false, addCondition,
      Bool.false_eq_true] <;>
    (refine ⟨?_, ?_, ?_⟩ <;> first | decide | rfl)

theorem usersCountQuery_numbered (q : UsersQuery) :
    placeholders (usersCountQuery q).text.data = upTo (usersWhereClause q).paramCount
    ∧ (usersCountQuery q).values = (usersWhereClause q).queryParams := by
  refine ⟨?_, rfl⟩
  by_cases h1 : truthy q.name = true <;> by_cases h2 : truthy q.email = true <;>
    by_cases h3 : truthy q.address = true <;> by_cases h4 : truthy q.role = true <;>
    simp only [usersCountQuery, usersWhereClause, h1, h2, h3, h4, if_true, if_false,
      addCondition, Bool.false_eq_true] <;>
    decide

theorem usersQuery_numbered (q : UsersQuery) :
    placeholders (usersQuery q).text.data = upTo ((usersWhereClause q).paramCount + 2)
    ∧ (usersQuery q).values
        = (usersWhereClause q).queryParams ++ [.int q.limit, .int ((q.page - 1) * q.limit)] := by
  refine ⟨?_, rfl⟩
  obtain ⟨ho, hoh⟩ := usersOrderBy_clean q.sortBy q.sortOrder
  simp only [usersQuery, String.data_append, List.append_assoc]
  rw [placeholders_statement _ _ _ _ _ _ ho hoh (by decide) (by decide)]
  by_cases h1 : truthy q.name = true <;> by_cases h2 : truthy q.email = true <;>
    by_cases h3 : truthy q.address = true <;> by_cases h4 : truthy q.role = true <;>
    simp only [usersWhereClause, h1, h2, h3, h4, if_true, if_false, addCondition,
      Bool.false_eq_true] <;>
    decide

theorem storesOrderBy_clean (sortBy sortOrder : String) :
    placeholders (storesOrderBy sortBy sortOrder).data = []
      ∧ ∀ c ∈ (storesOrderBy sortBy sortOrder).data.head?, c.isDigit = false := by
  have h := storesOrderBy_mem sortBy sortOrder
  generalize storesOrderBy sortBy sortOrder = o at h ⊢
  simp only [List.mem_cons, List.mem_singleton, List.not_mem_nil, or_false] at h
  rcases h with rfl | rfl | rfl | rfl | rfl | rfl | rfl | rfl <;> decide

theorem allRatingsOrderBy_clean (sortBy sortOrder : String) :
    placeholders (allRatingsOrderBy sortBy sortOrder).data = []
      ∧ ∀ c ∈ (allRatingsOrderBy sortBy sortOrder).data.head?, c.isDigit = false := by
  have h := allRatingsOrderBy_mem sortBy sortOrder
  generalize allRatingsOrderBy sortBy sortOrder = o at h ⊢
  simp only [List.mem_cons, List.mem_singleton, List.not_mem_nil, or_false] at h
  rcases h with rfl | rfl | rfl | rfl | rfl | rfl | rfl | rfl <;> decide

theorem storesWhereClause_numbered (q : StoresQuery) :
    distinct (placeholders (storesWhereClause q).whereClause.data)
      = upTo (storesWhereClause q).paramCount
    ∧ (if truthy q.search then placeholders (storesWhereClause q).whereClause.data = [1, 1]
        else placeholders (storesWhereClause q).whereClause.data
          = upTo (storesWhereClause q).paramCount)
    ∧ (storesWhereClause q).queryParams.length = (storesWhereClause q).paramCount
    ∧ (storesWhereClause q).queryParams
        = (if truthy q.search then [SqlParam.text ("%" ++ q.search.getD "" ++ "%")]
          else
            (if truthy q.name then [SqlParam.text ("%" ++ q.name.getD "" ++ "%")] else [])
            ++ (if truthy q.address then [SqlParam.text ("%" ++ q.address.getD "" ++ "%")]
              else [])) := by
  by_cases h0 : truthy q.search = true
  · simp only [storesWhereClause, h0, if_true, addCondition]
    refine ⟨?_, ?_, ?_, ?_⟩ <;> first | decide | rfl
  · by_cases h1 : truthy q.name = true <;> by_cases h2 : truthy q.address = true <;>
      simp only [storesWhereClause, h0, h1, h2, if_true, if_false, addCondition,
        Bool.false_eq_true] <;>
      (refine ⟨?_, ?_, ?_, ?_⟩ <;> first | decide | rfl)

theorem storesCountQuery_numbered (q : StoresQuery) :
    distinct (placeholders (storesCountQuery q).text.data)
      = upTo (storesWhereClause q).paramCount
    ∧ highestPlaceholder (storesCountQuery q).text = (storesWhereClause q).paramCount
    ∧ (storesCountQuery q).values = (storesWhereClause q).queryParams := by
  by_cases h0 : truthy q.search = true
  · simp only [storesCountQuery, storesQuery, highestPlaceholder, storesWhereClause, h0, if_true,
      addCondition]
    refine ⟨?_, ?_, ?_⟩ <;> first | decide | rfl
  · by_cases h1 : truthy q.name = true <;> by_cases h2 : truthy q.address = true <;>
      simp only [storesCountQuery, storesQuery, highestPlaceholder, storesWhereClause, h0, h1,
        h2, if_true, if_false, addCondition, Bool.false_eq_true] <;>
      (refine ⟨?_, ?_, ?_⟩ <;> first | decide | rfl)

set_option maxRecDepth 4000 in
theorem storesQuery_numbered (q : StoresQuery) :
    distinct (placeholders (storesQuery q).text.data)
      = upTo ((storesWhereClause q).paramCount + 2)
    ∧ highestPlaceholder (storesQuery q).text = (storesWhereClause q).paramCount + 2
    ∧ (storesQuery q).values
        = (storesWhereClause q).queryParams ++ [.int q.limit, .int ((q.page - 1) * q.limit)] := by
  obtain ⟨ho, hoh⟩ := storesOrderBy_clean q.sortBy q.sortOrder
  simp only [storesQuery, highestPlaceholder, String.data_append, List.append_assoc]
  rw [placeholders_statement _ _ _ _ _ _ ho hoh (by decide) (by decide)]
  by_cases h0 : truthy q.search = true
  · simp only [storesWhereClause, h0, if_true, addCondition]
    refine ⟨?_, ?_, ?_⟩ <;> decide
  · by_cases h1 : truthy q.name = true <;> by_cases h2 : truthy q.address = true <;>
      simp only [storesWhereClause, h0, h1, h2, if_true, if_false, addCondition,
        Bool.false_eq_true] <;>
      (refine ⟨?_, ?_, ?_⟩ <;> decide)

theorem ratingsWhereClause_numbered (q : RatingsQuery) :
    placeholders (ratingsWhereClause q).whereClause.data
      = upTo (ratingsWhereClause q).paramCount
    ∧ (ratingsWhereClause q).queryParams.length = (ratingsWhereClause q).paramCount
    ∧ (ratingsWhereClause q).queryParams
        = (if truthy q.storeId then [SqlParam.text (q.storeId.getD "")] else [])
          ++ (if truthy q.userId then [SqlParam.text (q.userId.getD "")] else [])
          ++ (match q.rating with
              | some (some v) => [SqlParam.int v]
              | some none => [SqlParam.nan]
              | none => []) := by
  rcases q with ⟨page, limit, sortBy, sortOrder, storeId, userId, rating⟩
  rcases rating with _ | _ | v <;>
    by_cases h1 : truthy storeId = true <;> by_cases h2 : truthy userId = true <;>
    simp only [ratingsWhereClause, h1, h2, if_true, if_false, addCondition,
      Bool.false_eq_true] <;>
    (refine ⟨?_, ?_, ?_⟩ <;> first | decide | rfl)

theorem ratingsCountQuery_numbered (q : RatingsQuery) :
    placeholders (ratingsCountQuery q).text.data = upTo (ratingsWhereClause q).paramCount
    ∧ (ratingsCountQuery q).values = (ratingsWhereClause q).queryParams := by
  refine ⟨?_, rfl⟩
  rcases q with ⟨page, limit, sortBy, sortOrder, storeId, userId, rating⟩
  rcases rating with _ | _ | v <;>
    by_cases h1 : truthy storeId = true <;> by_cases h2 : truthy userId = true <;>
    simp only [ratingsCountQuery, ratingsWhereClause, h1, h2, if_true, if_false, addCondition,
      Bool.false_eq_true] <;>
    decide

set_option maxRecDepth 4000 in
theorem ratingsQuery_numbered (q : RatingsQuery) :
    placeholders (ratingsQuery q).text.data = upTo ((ratingsWhereClause q).paramCount + 2)
    ∧ (ratingsQuery q).values
        = (ratingsWhereClause q).queryParams
          ++ [.int q.limit, .int ((q.page - 1) * q.limit)] := by
  refine ⟨?_, rfl⟩
  obtain ⟨ho, hoh⟩ := allRatingsOrderBy_clean q.sortBy q.sortOrder
  simp only [ratingsQuery, String.data_append, List.append_assoc]
  rw [placeholders_statement _ _ _ _ _ _ ho hoh (by decide) (by decide)]
  rcases q with ⟨page, limit, sortBy, sortOrder, storeId, userId, rating⟩
  rcases rating with _ | _ | v <;>
    by_cases h1 : truthy storeId = true <;> by_cases h2 : truthy userId = true <;>
    simp only [ratingsWhereClause, h1, h2, if_true, if_false, addCondition,
      Bool.false_eq_true] <;>
    decide

/-- C27: in `getAllUsers`, `getAllStores` and `getAllRatings`, for every query,
with `k` the final `paramCount`: the WHERE clause refers to `$1 … $k` in this
order (in `getAllStores` with a search text, to `$1` twice), `queryParams`
holds the `k` values of the present filters in the order of the conditions,
the count statement refers to `$1 … $k` and is run with these `k` values, the
page statement refers to `$1 … $k+2` and is run with the `k` values followed by
the limit and the offset, and for each statement the highest parameter
reference equals the number of values. -/
theorem C27_placeholders_match_parameters (qu : UsersQuery) (qs : StoresQuery)
    (qr : RatingsQuery) :
    (placeholders (usersWhereClause qu).whereClause.data = upTo (usersWhereClause qu).paramCount
      ∧ (usersWhereClause qu).queryParams.length = (usersWhereClause qu).paramCount
      ∧ (usersWhereClause qu).queryParams
          = (if truthy qu.name then [SqlParam.text ("%" ++ qu.name.getD "" ++ "%")] else [])
            ++ (if truthy qu.email then [SqlParam.text ("%" ++ qu.email.getD "" ++ "%")] else [])
            ++ (if truthy qu.address then [SqlParam.text ("%" ++ qu.address.getD "" ++ "%")]
              else [])
            ++ (if truthy qu.role then [SqlParam.text (qu.role.getD "")] else [])
      ∧ placeholders (usersCountQuery qu).text.data = upTo (usersWhereClause qu).paramCount
      ∧ (usersCountQuery qu).values = (usersWhereClause qu).queryParams
      ∧ placeholders (usersQuery qu).text.data = upTo ((usersWhereClause qu).paramCount + 2)
      ∧ (usersQuery qu).values
          = (usersWhereClause qu).queryParams
            ++ [.int qu.limit, .int ((qu.page - 1) * qu.limit)]
      ∧ highestPlaceholder (usersCountQuery qu).text = (usersCountQuery qu).values.length
      ∧ highestPlaceholder (usersQuery qu).text = (usersQuery qu).values.length)
    ∧ (distinct (placeholders (storesWhereClause qs).whereClause.data)
          = upTo (storesWhereClause qs).paramCount
      ∧ (if truthy qs.search then
          placeholders (storesWhereClause qs).whereClause.data = [1, 1]
        else placeholders (storesWhereClause qs).whereClause.data
          = upTo (storesWhereClause qs).paramCount)
      ∧ (storesWhereClause qs).queryParams.length = (storesWhereClause qs).paramCount
      ∧ (storesWhereClause qs).queryParams
          = (if truthy qs.search then [SqlParam.text ("%" ++ qs.search.getD "" ++ "%")]
            else
              (if truthy qs.name then [SqlParam.text ("%" ++ qs.name.getD "" ++ "%")] else [])
              ++ (if truthy qs.address then [SqlParam.text ("%" ++ qs.address.getD "" ++ "%")]
                else []))
      ∧ distinct (placeholders (storesCountQuery qs).text.data)
          = upTo (storesWhereClause qs).paramCount
      ∧ (storesCountQuery qs).values = (storesWhereClause qs).queryParams
      ∧ distinct (placeholders (storesQuery qs).text.data)
          = upTo ((storesWhereClause qs).paramCount + 2)
      ∧ (storesQuery qs).values
          = (storesWhereClause qs).queryParams
            ++ [.int qs.limit, .int ((qs.page - 1) * qs.limit)]
      ∧ highestPlaceholder (storesCountQuery qs).text = (storesCountQuery qs).values.length
      ∧ highestPlaceholder (storesQuery qs).text = (storesQuery qs).values.length)
    ∧ (placeholders (ratingsWhereClause qr).whereClause.data
          = upTo (ratingsWhereClause qr).paramCount
      ∧ (ratingsWhereClause qr).queryParams.length = (ratingsWhereClause qr).paramCount
      ∧ (ratingsWhereClause qr).queryParams
          = (if truthy qr.storeId then [SqlParam.text (qr.storeId.getD "")] else [])
            ++ (if truthy qr.userId then [SqlParam.text (qr.userId.getD "")] else [])
            ++ (match qr.rating with
                | some (some v) => [SqlParam.int v]
                | some none => [SqlParam.nan]
                | none => [])
      ∧ placeholders (ratingsCountQuery qr).text.data = upTo (ratingsWhereClause qr).paramCount
      ∧ (ratingsCountQuery qr).values = (ratingsWhereClause qr).queryParams
      ∧ placeholders (ratingsQuery qr).text.data = upTo ((ratingsWhereClause qr).paramCount + 2)
      ∧ (ratingsQuery qr).values
          = (ratingsWhereClause qr).queryParams
            ++ [.int qr.limit, .int ((qr.page - 1) * qr.limit)]
      ∧ highestPlaceholder (ratingsCountQuery qr).text = (ratingsCountQuery qr).values.length
      ∧ highestPlaceholder (ratingsQuery qr).text = (ratingsQuery qr).values.length) := by
  obtain ⟨u1, u2, u3⟩ := usersWhereClause_numbered qu
  obtain ⟨u4, u5⟩ := usersCountQuery_numbered qu
  obtain ⟨u6, u7⟩ := usersQuery_numbered qu
  obtain ⟨s1, s2, s3, s4⟩ := storesWhereClause_numbered qs
  obtain ⟨s5, s6, s7⟩ := storesCountQuery_numbered qs
  obtain ⟨s8, s9, s10⟩ := storesQuery_numbered qs
  obtain ⟨r1, r2, r3⟩ := ratingsWhereClause_numbered qr
  obtain ⟨r4, r5⟩ := ratingsCountQuery_numbered qr
  obtain ⟨r6, r7⟩ := ratingsQuery_numbered qr
  refine ⟨⟨u1, u2, u3, u4, u5, u6, u7, ?_, ?_⟩, ⟨s1, s2, s3, s4, s5, s7, s8, s10, ?_, ?_⟩,
    ⟨r1, r2, r3, r4, r5, r6, r7, ?_, ?_⟩⟩
  · rw [highestPlaceholder, u4, foldl_max_upTo, u5, u2]
  · rw [highestPlaceholder, u6, foldl_max_upTo, u7, List.length_append, u2]
    rfl
  · rw [s6, s7, s3]
  · rw [s9, s10, List.length_append, s3]
    rfl
  · rw [highestPlaceholder, r4, foldl_max_upTo, r5, r2]
  · rw [highestPlaceholder, r6, foldl_max_upTo, r7, List.length_append, r2]
    rfl

theorem authenticateToken_of_payload {α : Type} (verifyToken : String → Option TokenPayload)
    (db : Db) (authHeader : Option String) (token : String) (decoded : TokenPayload)
    (ht : (bearerToken authHeader).filter (fun t => t != "") = some token)
    (hv : verifyToken token = some decoded) :
    authenticateToken (α := α) verifyToken db authHeader
      = match db.users.filter (fun u => u.id == decoded.userId) with
        | [] => .error ⟨401, .error "User not found"⟩
        | u :: _ => .ok ⟨u.id, u.email, u.role⟩ := by
  simp only [authenticateToken, ht, hv]

theorem filter_id_after_delete (users : List User) (id : String) :
    (users.filter (fun u => u.id != id)).filter (fun u => u.id == id) = [] := by
  rw [List.filter_filter, List.filter_eq_nil_iff]
  intro u _
  by_cases h : u.id = id <;> simp [h]

/-- C28: for two requests whose tokens verify to payloads with the same
`userId`, whatever e-mail and role the payloads carry, `authenticateToken`
gives the same outcome, and so does `authorizeRoles` after it; when it
succeeds, `req.user` holds the id, e-mail and role of the first stored row
with that id; when no row has that id, and in particular after `deleteUser`
removed the user, the answer is 401 `User not found`. -/
theorem C28_identity_from_stored_row (α : Type) (verifyToken : String → Option TokenPayload)
    (db : Db) (header1 header2 : Option String) (token1 token2 : String)
    (decoded1 decoded2 : TokenPayload) (roles : List String)
    (ht1 : (bearerToken header1).filter (fun t => t != "") = some token1)
    (ht2 : (bearerToken header2).filter (fun t => t != "") = some token2)
    (hv1 : verifyToken token1 = some decoded1) (hv2 : verifyToken token2 = some decoded2)
    (hid : decoded1.userId = decoded2.userId) :
    authenticateToken (α := α) verifyToken db header1
        = authenticateToken (α := α) verifyToken db header2
    ∧ (∀ user1 user2 : AuthUser,
        authenticateToken (α := α) verifyToken db header1 = .ok user1 →
        authenticateToken (α := α) verifyToken db header2 = .ok user2 →
        authorizeRoles (α := α) roles user1 = authorizeRoles (α := α) roles user2)
    ∧ (∀ user : AuthUser, authenticateToken (α := α) verifyToken db header1 = .ok user →
        ∃ u rest, db.users.filter (fun v => v.id == decoded1.userId) = u :: rest
          ∧ user = ⟨u.id, u.email, u.role⟩)
    ∧ (db.users.filter (fun u => u.id == decoded1.userId) = [] →
        authenticateToken (α := α) verifyToken db header1
          = .error ⟨401, .error "User not found"⟩)
    ∧ ((deleteUser db decoded1.userId).1.status = 200 →
        authenticateToken (α := α) verifyToken (deleteUser db decoded1.userId).2 header1
          = .error ⟨401, .error "User not found"⟩) := by
  have h1 := fun d => authenticateToken_of_payload (α := α) verifyToken d header1 token1
    decoded1 ht1 hv1
  have h2 := authenticateToken_of_payload (α := α) verifyToken db header2 token2 decoded2 ht2 hv2
  refine ⟨?_, ?_, ?_, ?_, ?_⟩
  · rw [h1, h2, hid]
  · intro user1 user2 e1 e2
    rw [h1 db, hid, ← h2, e2] at e1
    cases e1
    rfl
  · intro user e
    rw [h1 db] at e
    cases hf : db.users.filter (fun v => v.id == decoded1.userId) with
    | nil => rw [hf] at e; cases e
    | cons u rest =>
      rw [hf] at e
      cases e
      exact ⟨u, rest, rfl, rfl⟩
  · intro hf
    rw [h1 db, hf]
  · intro hs
    rw [h1]
    have hdel : (deleteUser db decoded1.userId).2 = cascadeDeleteUser db decoded1.userId := by
      unfold deleteUser at hs ⊢
      cases hf : db.users.filter (fun u => u.id == decoded1.userId) with
      | nil => rw [hf] at hs; simp at hs
      | cons u rest =>
        rw [hf] at hs
        simp only at hs ⊢
        by_cases hr : u.role = "admin"
        · rw [if_pos hr] at hs
          simp at hs
        · rw [if_neg hr]
    rw [hdel]
    simp only [cascadeDeleteUser, filter_id_after_delete]

/-- C28 on the sample database: a token of `u1` that claims the role `admin`
is treated as the stored role `user`, and is rejected once `u1` is deleted. -/
theorem C28_witness :
    authenticateToken (α := Unit) carryingVerifyToken sampleDb (some "Bearer tok-u1-user")
        = authenticateToken (α := Unit) carryingVerifyToken sampleDb (some "Bearer tok-u1-admin")
    ∧ authenticateToken (α := Unit) carryingVerifyToken sampleDb (some "Bearer tok-u1-admin")
        = .ok ⟨"u1", "alice@x.io", "user"⟩
    ∧ authorizeRoles (α := Unit) ["admin"] ⟨"u1", "alice@x.io", "user"⟩
        = some ⟨403, .error "Access denied. Insufficient permissions."⟩
    ∧ authenticateToken (α := Unit) carryingVerifyToken (deleteUser sampleDb "u1").2
          (some "Bearer tok-u1-user")
        = .error ⟨401, .error "User not found"⟩ :=
  have h := C28_identity_from_stored_row Unit carryingVerifyToken sampleDb
    (some "Bearer tok-u1-user") (some "Bearer tok-u1-admin") "tok-u1-user" "tok-u1-admin"
    ⟨"u1", "alice@x.io", "user"⟩ ⟨"u1", "root@x.io", "admin"⟩ ["admin"] (by decide) (by decide)
    (by decide) (by decide) rfl
  ⟨h.1, rfl, by decide, h.2.2.2.2 (by decide)⟩

theorem dropTrailingSlash_cons_ne_nil (rest : List Char) (h : rest ≠ []) :
    dropTrailingSlash ('/' :: rest) ≠ [] := by
  cases rest with
  | nil => exact absurd rfl h
  | cons c cs =>
    unfold dropTrailingSlash
    split <;> simp [List.dropLast]

theorem ratingsRouter_put_below (rest : List Char) (h : rest ≠ []) :
    ratingsRouter "PUT" ('/' :: rest) = none := by
  have hp := dropTrailingSlash_cons_ne_nil rest h
  have h1 : ¬ "PUT" = "GET" := by decide
  have h2 : ¬ "PUT" = "DELETE" := by decide
  unfold ratingsRouter
  simp only [hp, h1, h2, and_false, false_and, if_false]

theorem ratingsEndpoint_update (id : String) (data : List (String × JVal))
    (h : pathname id.data ≠ []) : ratingsEndpoint (ratingsAPI.update id data) = none := by
  have hurl : (ratingsAPI.update id data).url.data
      = '/' :: 'r' :: 'a' :: 't' :: 'i' :: 'n' :: 'g' :: 's' :: '/' :: id.data := by
    simp only [ratingsAPI.update, String.data_append]
    rfl
  have hpath : pathname (ratingsAPI.update id data).url.data
      = '/' :: 'r' :: 'a' :: 't' :: 'i' :: 'n' :: 'g' :: 's' :: '/' :: pathname id.data := by
    rw [hurl]
    simp [pathname, List.takeWhile_cons]
  have hbelow : belowMount "/ratings".data
        ((pathname (ratingsAPI.update id data).url.data).map Char.toLower)
      = some ('/' :: (pathname id.data).map Char.toLower) := by
    rw [hpath]
    rfl
  unfold ratingsEndpoint
  rw [hbelow]
  exact ratingsRouter_put_below _ (fun hnil => h (List.map_eq_nil_iff.mp hnil))

/-- C29: whenever `handleRatingSubmit` sends a request, the object it sends
has exactly the keys `store_id`, `rating` and `comment`, so the server reads
`undefined` for `storeId`; `ratingValidationRules` then reports
`Valid store ID is required`, and both `POST /ratings` and `PUT /ratings`
answer 400 with the database unchanged, whatever the form holds. Without an
existing rating the request is `POST /ratings`; with an existing rating whose
id is not empty and does not begin with `?` or `#` it is `PUT /ratings/<id>`,
which no route of the ratings router matches. -/
theorem C29_rating_form_payload_rejected (form : RatingFormData)
    (existingRating : Option String) (request : ApiRequest) (db : Db) (env : Env)
    (user : AuthUser) (hsent : handleRatingSubmit form existingRating = some request) :
    request.data
        = [("store_id", form.storeId), ("rating", form.rating), ("comment", .str form.comment)]
    ∧ bodyField (requestBody request.data) "storeId" = .undefined
    ∧ bodyField (requestBody request.data) "store_id" = form.storeId
    ∧ "Valid store ID is required" ∈ ratingValidationRules (ratingBody (requestBody request.data))
    ∧ postRatings db env user (ratingBody (requestBody request.data))
        = (⟨400, .error "Validation failed"⟩, db)
    ∧ putRatings db env user (ratingBody (requestBody request.data))
        = (⟨400, .error "Validation failed"⟩, db)
    ∧ (existingRating = none →
        request.method = "POST" ∧ request.url = "/ratings"
          ∧ ratingsEndpoint request = some .submitRating)
    ∧ (∀ id, existingRating = some id → pathname id.data ≠ [] →
        request.method = "PUT" ∧ request.url = "/ratings/" ++ id
          ∧ ratingsEndpoint request = none) := by
  unfold handleRatingSubmit at hsent
  split at hsent
  · cases hsent
  · simp only at hsent
    have hdata : request.data
        = [("store_id", form.storeId), ("rating", form.rating),
            ("comment", .str form.comment)] := by
      cases existingRating with
      | none => simp only [Option.some.injEq] at hsent; rw [← hsent]; rfl
      | some id => simp only [Option.some.injEq] at hsent; rw [← hsent]; rfl
    have hundef : bodyField (requestBody request.data) "storeId" = .undefined := by
      rw [hdata]
      cases hs : form.storeId <;> cases hr : form.rating <;> rfl
    have hstore : bodyField (requestBody request.data) "store_id" = form.storeId := by
      rw [hdata]
      cases hs : form.storeId <;> cases hr : form.rating <;> rfl
    have hrules : "Valid store ID is required"
        ∈ ratingValidationRules (ratingBody (requestBody request.data)) := by
      simp [ratingValidationRules, ratingBody, hundef, isUUID, JField.values]
    have hvalidate : ∀ α : Type,
        validate (α := α) (ratingValidationRules (ratingBody (requestBody request.data)))
          = some ⟨400, .error "Validation failed"⟩ := by
      intro α
      unfold validate
      cases hl : ratingValidationRules (ratingBody (requestBody request.data)) with
      | nil => rw [hl] at hrules; cases hrules
      | cons a l => rfl
    refine ⟨hdata, hundef, hstore, hrules, ?_, ?_, ?_, ?_⟩
    · simp only [postRatings, hvalidate]
    · simp only [putRatings, hvalidate]
    · intro hnone
      subst hnone
      simp only [Option.some.injEq] at hsent
      rw [← hsent]
      exact ⟨rfl, rfl, rfl⟩
    · intro id hsome hid
      subst hsome
      simp only [Option.some.injEq] at hsent
      rw [← hsent]
      exact ⟨rfl, rfl, ratingsEndpoint_update id _ hid⟩

/-- C29 for a filled form with a UUID store id and an existing rating `r1`:
the request is `PUT /ratings/r1`, unrouted, and its body fails validation
although the form values themselves would pass. -/
theorem C29_witness :
    handleRatingSubmit filledRatingForm (some "r1")
        = some ⟨"PUT", "/ratings/r1",
            [("store_id", .str "123e4567-e89b-12d3-a456-426614174000"), ("rating", .num 4),
              ("comment", .str "A fine shop indeed")]⟩
    ∧ ratingValidationRules ⟨.one filledRatingForm.storeId, .one filledRatingForm.rating⟩ = []
    ∧ postRatings sampleDb ⟨"r9", 9⟩ ⟨"u1", "alice@x.io", "user"⟩
          (ratingBody (requestBody
            [("store_id", .str "123e4567-e89b-12d3-a456-426614174000"), ("rating", .num 4),
              ("comment", .str "A fine shop indeed")]))
        = (⟨400, .error "Validation failed"⟩, sampleDb)
    ∧ ratingsEndpoint ⟨"PUT", "/ratings/r1",
          [("store_id", .str "123e4567-e89b-12d3-a456-426614174000"), ("rating", .num 4),
            ("comment", .str "A fine shop indeed")]⟩ = none :=
  have h := C29_rating_form_payload_rejected filledRatingForm (some "r1")
    ⟨"PUT", "/ratings/r1",
      [("store_id", .str "123e4567-e89b-12d3-a456-426614174000"), ("rating", .num 4),
        ("comment", .str "A fine shop indeed")]⟩
    sampleDb ⟨"r9", 9⟩ ⟨"u1", "alice@x.io", "user"⟩ (by decide)
  ⟨by decide, by decide, h.2.2.2.2.1, (h.2.2.2.2.2.2.2 "r1" rfl (by decide)).2.2⟩

theorem any_of_any_takeWhile (p q : Char → Bool) (l : List Char)
    (h : (l.takeWhile q).any p = true) : l.any p = true := by
  rw [List.any_eq_true] at h ⊢
  obtain ⟨c, hc, hp⟩ := h
  exact ⟨c, (List.takeWhile_sublist q).subset hc, hp⟩

theorem password_checked (lib : EmailLib) (body : UserBody)
    (h : userValidationRules lib body = []) :
    ∀ p ∈ body.password.values,
      (8 ≤ validatorLength p ∧ validatorLength p ≤ 16) ∧ passwordPattern p = true := by
  unfold userValidationRules at h
  simp only [List.append_eq_nil, List.map_eq_nil_iff, List.filter_eq_nil_iff] at h
  obtain ⟨⟨⟨⟨_, _⟩, hlen⟩, hpat⟩, _⟩ := h
  intro p hp
  have h1 := hlen p hp
  have h2 := hpat p hp
  exact ⟨by simpa using h1, by simpa using h2⟩

theorem strong_of_rules_pass (lib : EmailLib) (body : UserBody) (p : String)
    (hp : body.password = .text p) (h : userValidationRules lib body = []) :
    IsStrongPassword p := by
  have hc := password_checked lib body h p (by rw [hp]; simp [TextField.values])
  obtain ⟨hlen, hpat2⟩ := hc
  unfold passwordPattern at hpat2
  simp only [Bool.and_eq_true] at hpat2
  exact ⟨hlen.1, hlen.2, any_of_any_takeWhile _ _ _ hpat2.1, any_of_any_takeWhile _ _ _ hpat2.2⟩

theorem absent_password_fails (lib : EmailLib) (body : UserBody)
    (hp : body.password = .absent) : userValidationRules lib body ≠ [] := by
  intro h
  have hc := password_checked lib body h "" (by rw [hp]; simp [TextField.values])
  exact absurd hc.1.1 (by decide)

theorem updateUser_passwords (db : Db) (env : Env) (id name email address role : String) :
    (updateUser db env id name email address role).2.users.map (fun u => (u.id, u.password))
      = db.users.map (fun u => (u.id, u.password)) := by
  unfold updateUser updateUserRaising noRaise
  simp only
  split
  · rfl
  · split
    · rfl
    · simp only [List.map_map]
      apply List.map_congr_left
      intro u _
      simp only [Function.comp]
      split <;> rfl

theorem updateUser_role_written (db : Db) (env : Env) (id name email address role : String)
    (h : (updateUser db env id name email address role).1.status = 200) :
    (∃ u ∈ (updateUser db env id name email address role).2.users, u.id = id)
    ∧ ∀ u ∈ (updateUser db env id name email address role).2.users, u.id = id →
        u.role = role := by
  unfold updateUser updateUserRaising noRaise at h ⊢
  simp only at h ⊢
  split at h
  · simp at h
  · rename_i hex
    rw [if_neg hex]
    split at h
    · simp at h
    · rename_i hmail
      rw [if_neg hmail]
      simp only [List.mem_map]
      constructor
      · cases hf : db.users.filter (fun u => u.id == id) with
        | nil => rw [hf] at hex; exact absurd rfl hex
        | cons v rest =>
          have hv : v ∈ db.users.filter (fun u => u.id == id) := by rw [hf]; simp
          rw [List.mem_filter] at hv
          refine ⟨_, ⟨v, hv.1, rfl⟩, ?_⟩
          rw [if_pos hv.2]
          simpa using hv.2
      · rintro u ⟨v, _, rfl⟩ hid
        by_cases hv : (v.id == id) = true
        · rw [if_pos hv]
        · rw [if_neg hv] at hid
          exact absurd (by simpa using hid) hv

/-- C30 as stated fails: the body with the empty array as `password` holds no
password of 8 to 16 characters, yet it passes `userValidationRules`, so
`PUT /users/u1` runs `updateUser`, answers 200 and rewrites the row of `u1`. -/
theorem C30_counterexample :
    userValidationRules sampleEmailLib { superuserBody with password := .texts [] } = []
    ∧ (putUser sampleEmailLib sampleDb ⟨"x", 9⟩ "u1"
          { superuserBody with password := .texts [] }).1
        = ⟨200, .ok (some ⟨"u1", "Alexander Hamilton Junior", "alice@x.io", "1 Main St",
            "superuser", 1, 9⟩)⟩
    ∧ (putUser sampleEmailLib sampleDb ⟨"x", 9⟩ "u1"
          { superuserBody with password := .texts [] }).2.users.map
          (fun u => (u.id, u.name, u.password, u.role))
        = [("u1", "Alexander Hamilton Junior", "h1", "superuser"), ("u2", "Bob", "h2", "admin"),
            ("u3", "Carol", "h3", "store_owner")] := by
  refine ⟨by decide, by decide, by decide⟩

/-- C30 (amended): `PUT /users/:id` with a body whose password is absent, or
is a string that is not a text of 8 to 16 characters (variation selectors not
counted) holding an uppercase letter and a special character, is answered 400
by the validation layer with the database unchanged; a password given as an
empty array adds no message, so the other fields alone decide; `updateUser`
itself answers the same whatever the stored passwords are and leaves every
stored password as it was; and when the body passes validation the request is
that of `updateUser` with the body's role, which on the answer 200 is the
stored role of the user, whatever text it is. -/
theorem C30_put_user_needs_password (lib : EmailLib) (db : Db) (env : Env) (id : String)
    (body : UserBody) :
    (body.password = .absent →
      putUser lib db env id body = (⟨400, .error "Validation failed"⟩, db))
    ∧ (∀ p : String, body.password = .text p → ¬ IsStrongPassword p →
      putUser lib db env id body = (⟨400, .error "Validation failed"⟩, db))
    ∧ (body.password = .texts [] →
      userValidationRules lib body
        = (if 20 ≤ validatorLength body.name ∧ validatorLength body.name ≤ 60 then []
            else ["Name must be between 20 and 60 characters"]) ++
          (if lib.isEmail body.email then [] else ["Please provide a valid email"]) ++
          (if validatorLength body.address ≤ 400 then []
            else ["Address must not exceed 400 characters"]))
    ∧ (updateUser (erasePasswords db) env id body.name (lib.normalizeEmail body.email)
          body.address body.role).1
        = (updateUser db env id body.name (lib.normalizeEmail body.email) body.address
            body.role).1
    ∧ (putUser lib db env id body).2.users.map (fun u => (u.id, u.password))
        = db.users.map (fun u => (u.id, u.password))
    ∧ (userValidationRules lib body = [] →
        putUser lib db env id body
            = updateUser db env id body.name (lib.normalizeEmail body.email) body.address
                body.role
          ∧ ((putUser lib db env id body).1.status = 200 →
              (∃ u ∈ (putUser lib db env id body).2.users, u.id = id)
              ∧ ∀ u ∈ (putUser lib db env id body).2.users, u.id = id → u.role = body.role)) := by
  have hpass : userValidationRules lib body = [] →
      putUser lib db env id body
        = updateUser db env id body.name (lib.normalizeEmail body.email) body.address
            body.role := by
    intro h
    simp only [putUser, h, validate, List.isEmpty_nil, if_true]
  have hfail : userValidationRules lib body ≠ [] →
      putUser lib db env id body = (⟨400, .error "Validation failed"⟩, db) := by
    intro h
    cases hl : userValidationRules lib body with
    | nil => exact absurd hl h
    | cons a l => simp only [putUser, hl, validate, List.isEmpty_cons, Bool.false_eq_true, if_false]
  refine ⟨?_, ?_, ?_, updateUser_erase db env id _ _ _ _, ?_, ?_⟩
  · intro habsent
    exact hfail (absent_password_fails lib body habsent)
  · intro p hp hweak
    exact hfail (fun h => hweak (strong_of_rules_pass lib body p hp h))
  · intro hempty
    simp [userValidationRules, hempty, TextField.values]
  · by_cases h : userValidationRules lib body = []
    · rw [hpass h]
      exact updateUser_passwords db env id _ _ _ _
    · rw [hfail h]
  · intro h
    refine ⟨hpass h, ?_⟩
    rw [hpass h]
    exact updateUser_role_written db env id _ _ _ _

/-- C30 on the sample database: the body without a password and the body
with the password `secret` are answered 400; the valid body with the role
`superuser` is answered 200, keeps the hash `h1` and stores the role. -/
theorem C30_witness :
    putUser sampleEmailLib sampleDb ⟨"x", 9⟩ "u1" { superuserBody with password := .absent }
        = (⟨400, .error "Validation failed"⟩, sampleDb)
    ∧ putUser sampleEmailLib sampleDb ⟨"x", 9⟩ "u1"
          { superuserBody with password := .text "secret" }
        = (⟨400, .error "Validation failed"⟩, sampleDb)
    ∧ (putUser sampleEmailLib sampleDb ⟨"x", 9⟩ "u1" superuserBody).1
        = ⟨200, .ok (some ⟨"u1", "Alexander Hamilton Junior", "alice@x.io", "1 Main St",
            "superuser", 1, 9⟩)⟩
    ∧ (putUser sampleEmailLib sampleDb ⟨"x", 9⟩ "u1" superuserBody).2.users.map
          (fun u => (u.id, u.password, u.role))
        = [("u1", "h1", "superuser"), ("u2", "h2", "admin"), ("u3", "h3", "store_owner")]
    ∧ ∀ u ∈ (putUser sampleEmailLib sampleDb ⟨"x", 9⟩ "u1" superuserBody).2.users,
        u.id = "u1" → u.role = "superuser" :=
  ⟨(C30_put_user_needs_password sampleEmailLib sampleDb ⟨"x", 9⟩ "u1"
      { superuserBody with password := .absent }).1 rfl,
    (C30_put_user_needs_password sampleEmailLib sampleDb ⟨"x", 9⟩ "u1"
      { superuserBody with password := .text "secret" }).2.1 "secret" rfl
      (fun h => absurd h.1 (by decide)),
    by decide, by decide,
    (((C30_put_user_needs_password sampleEmailLib sampleDb ⟨"x", 9⟩ "u1"
      superuserBody).2.2.2.2.2 (by decide)).2 (by decide)).2⟩

end StoreRating
